import Mathlib

/-!
The oVirt foreign menu of virt-viewer (`src/ovirt-foreign-menu.c`).

A shallow embedding of the asynchronous resolution pipeline, of the storage domain
selection, of the file list reconciliation and of the media swap of
`ovirt-foreign-menu.c`, followed by the properties established about them.

Conventions of the embedding.

* A C string is the list of its bytes (`CString`); a `char *` that may be `NULL` is an
  `Option CString`.
* A pointer to a GObject is an `Option` of a record holding the attributes the sources read
  from that object.
* An asynchronous library call is not executed: the handler that issues it returns it in
  `Outcome.calls`. Its completion callback is a function of the completion data.
* GLib and libgovirt are libraries, their code is not part of the sources: the GLib
  functions used are written out from their documented behaviour, libgovirt accessors are
  fields of the records above, libgovirt constants are the fields of `Govirt`.
-/

/-! ## C strings and the GLib functions used by the sources -/

/-- A C string: its bytes, in order, without the terminating zero byte. -/
abbrev CString := List Nat

/-- An ASCII literal as a C string (for ASCII text the code points are the bytes). -/
def ascii (s : String) : CString := s.toList.map Char.toNat

/-- The function `strcmp` of the C library: the sign of the first differing byte pair, a
proper initial segment being smaller. Only the sign of the result is specified by C; the
model returns `-1`, `0` or `1`. -/
def strcmp : CString → CString → Int
  | [], [] => 0
  | [], _ :: _ => -1
  | _ :: _, [] => 1
  | a :: as, b :: bs => if a < b then -1 else if b < a then 1 else strcmp as bs

/-- GLib `g_strcmp0`: `strcmp` that accepts `NULL`, which sorts before every string. -/
def g_strcmp0 : Option CString → Option CString → Int
  | none, none => 0
  | none, some _ => -1
  | some _, none => 1
  | some a, some b => strcmp a b

/-- GLib `g_str_has_suffix`: `FALSE` on a `NULL` argument, otherwise whether the last
`strlen (suffix)` bytes of `str` are `suffix`. -/
def g_str_has_suffix : Option CString → Option CString → Bool
  | some str, some suffix =>
    if str.length < suffix.length then false
    else decide (strcmp (str.drop (str.length - suffix.length)) suffix = 0)
  | _, _ => false

/-- GLib `g_strv_contains`: `FALSE` on a `NULL` array or a `NULL` string, otherwise whether
some element of the array is equal to the string. -/
def g_strv_contains : Option (List CString) → Option CString → Bool
  | some strv, some str => strv.any (fun s => decide (strcmp s str = 0))
  | _, _ => false

/-- GLib `g_list_insert_sorted`: the new element goes before the first element `x` of the
list for which `func data x > 0` fails, or at the end when there is none. -/
def g_list_insert_sorted {α : Type} (list : List α) (data : α) (func : α → α → Int) : List α :=
  match list with
  | [] => [data]
  | x :: rest =>
    if func data x > 0 then x :: g_list_insert_sorted rest data func
    else data :: x :: rest

/-! ## libgovirt objects

The attributes and accessors of the libgovirt objects that the sources read. The accessor
`ovirt_x_get_y (x)` of the library is the field `x.y`; it may return `NULL`. -/

/-- An `OvirtCollection *`: a remote collection, known by its location. Its members are
only known once a fetch has completed; they are part of the completion data. -/
structure OvirtCollection where
  href : CString
deriving DecidableEq

/-- An `OvirtProxy *`: the connection to the remote service, with the properties the
sources set on it. -/
structure OvirtProxy where
  uri : CString
  admin : Bool
  ca_cert : Option (List Nat)
  session_id : Option CString
  sso_token : Option CString
deriving DecidableEq

/-- An `OvirtApi *`: the entry point of the remote API. -/
structure OvirtApi where
  href : CString
deriving DecidableEq

/-- An `OvirtDataCenter *`: its `guid` property and `ovirt_data_center_get_storage_domains`. -/
structure OvirtDataCenter where
  guid : Option CString
  storage_domains : Option OvirtCollection
deriving DecidableEq

/-- An `OvirtCluster *`: its `guid` property and `ovirt_cluster_get_data_center`. -/
structure OvirtCluster where
  guid : Option CString
  data_center : Option OvirtDataCenter
deriving DecidableEq

/-- An `OvirtHost *`: its `guid` property and `ovirt_host_get_cluster`. -/
structure OvirtHost where
  guid : Option CString
  cluster : Option OvirtCluster
deriving DecidableEq

/-- An `OvirtVm *`: its `guid` property, `ovirt_vm_get_host` and `ovirt_vm_get_cdroms`. -/
structure OvirtVm where
  guid : Option CString
  host : Option OvirtHost
  cdroms : Option OvirtCollection
deriving DecidableEq

/-- An `OvirtCdrom *`: its `guid` property and its read-write `file` property, the
identifier of the inserted image. -/
structure OvirtCdrom where
  guid : Option CString
  file : Option CString
deriving DecidableEq

/-- An `OvirtStorageDomain *`: the properties `name`, `type`, `state`, `data-center-ids`
and the accessors `ovirt_storage_domain_get_files`, `ovirt_storage_domain_get_disks`. -/
structure OvirtStorageDomain where
  name : Option CString
  type : Int
  state : Int
  data_center_ids : Option (List CString)
  files : Option OvirtCollection
  disks : Option OvirtCollection
deriving DecidableEq

/-- A member of a file collection, an `OvirtResource *`: its `name` and `guid` properties,
whether it is an `OvirtDisk` (`OVIRT_IS_DISK`) and, for a disk, its `content-type`. -/
structure OvirtResource where
  name : Option CString
  guid : Option CString
  is_disk : Bool
  content_type : Int
deriving DecidableEq

/-- The declarations of libgovirt and of `config.h` that the sources use and that are not
part of the sources: the values of the enumeration constants, the error domain and code,
and whether `HAVE_OVIRT_STORAGE_DOMAIN_GET_DISKS` is defined. -/
structure Govirt where
  HAVE_OVIRT_STORAGE_DOMAIN_GET_DISKS : Bool
  OVIRT_STORAGE_DOMAIN_TYPE_ISO : Int
  OVIRT_STORAGE_DOMAIN_TYPE_DATA : Int
  OVIRT_STORAGE_DOMAIN_STATE_ACTIVE : Int
  OVIRT_DISK_CONTENT_TYPE_ISO : Int
  OVIRT_ERROR : Nat
  OVIRT_ERROR_FAILED : Int

/-! ## Errors, tasks and asynchronous calls -/

/-- A `GError`: domain, code and message. -/
structure GError where
  domain : Nat
  code : Int
  message : CString
deriving DecidableEq

/-- The text that the `%s` conversion of GLib prints for a string argument. -/
def printf_s : Option CString → CString
  | some s => s
  | none => ascii "(null)"

/-- A `GTask *`: the task created for one request of a caller. -/
abbrev GTask := Nat

/-- A `GStrv` built by `iso_info_new`: an array of three pointers, the name, the
identifier and `NULL`.

`image` is what a `char *` pointing at the array reads as a C string: the bytes of the
in-memory representation of the pointers of the array, up to the first zero byte. These bytes
are the addresses of the copies made by `g_strdup`; they are chosen by the allocator. -/
structure GStrv where
  image : CString
  name : Option CString
  id : Option CString
deriving DecidableEq

/-- What the allocator hands out: `heap n` is the image of the array built by the `n`-th
call of `iso_info_new` made while one file list is processed. -/
abbrev Heap := Nat → CString

/-- The completion of a task: `g_task_return_pointer`, `g_task_return_boolean`,
`g_task_return_error` (and `g_task_return_new_error`). -/
inductive TaskResult where
  | pointer (iso_names : List GStrv)
  | boolean (b : Bool)
  | error (e : GError)
deriving DecidableEq

/-- The states of the pipeline, `OvirtForeignMenuState`. -/
inductive OvirtForeignMenuState where
  | STATE_0
  | STATE_API
  | STATE_VM
  | STATE_HOST
  | STATE_CLUSTER
  | STATE_DATA_CENTER
  | STATE_STORAGE_DOMAIN
  | STATE_VM_CDROM
  | STATE_CDROM_FILE
  | STATE_ISOS
deriving DecidableEq

/-- The value of an enumeration constant of `OvirtForeignMenuState`. -/
def OvirtForeignMenuState.toNat : OvirtForeignMenuState → Nat
  | STATE_0 => 0
  | STATE_API => 1
  | STATE_VM => 2
  | STATE_HOST => 3
  | STATE_CLUSTER => 4
  | STATE_DATA_CENTER => 5
  | STATE_STORAGE_DOMAIN => 6
  | STATE_VM_CDROM => 7
  | STATE_CDROM_FILE => 8
  | STATE_ISOS => 9

/-- An asynchronous call of the library issued by the sources, with the task handed to its
completion callback and the object it is issued on (the proxy and the cancellable, the same
in every call, are left out). A call is recorded whenever the sources invoke the function of
the library, whatever the library then does with its arguments.

* `fetch_api`: `ovirt_proxy_fetch_api_async`, completed by `api_fetched_cb`;
* `fetch_vms`: `ovirt_collection_fetch_async` on `ovirt_api_search_vms (api, query)`,
  completed by `vms_fetched_cb`;
* `refresh_host`, `refresh_cluster`, `refresh_data_center`, `refresh_cdrom`:
  `ovirt_resource_refresh_async`, completed by `host_fetched_cb`, `cluster_fetched_cb`,
  `data_center_fetched_cb`, `cdrom_file_refreshed_cb`;
* `fetch_storage_domains`, `fetch_cdroms`, `fetch_iso_list`: `ovirt_collection_fetch_async`,
  completed by `storage_domains_fetched_cb`, `cdroms_fetched_cb`, `iso_list_fetched_cb`;
* `update_cdrom`: `ovirt_cdrom_update_async`, completed by `iso_name_set_cb`. -/
inductive Call where
  | fetch_api (task : GTask) (proxy : Option OvirtProxy)
  | fetch_vms (task : GTask) (api : Option OvirtApi) (query : CString)
  | refresh_host (task : GTask) (host : Option OvirtHost)
  | refresh_cluster (task : GTask) (cluster : Option OvirtCluster)
  | refresh_data_center (task : GTask) (data_center : Option OvirtDataCenter)
  | fetch_storage_domains (task : GTask) (collection : Option OvirtCollection)
  | fetch_cdroms (task : GTask) (collection : Option OvirtCollection)
  | refresh_cdrom (task : GTask) (cdrom : Option OvirtCdrom)
  | fetch_iso_list (task : GTask) (files : Option OvirtCollection)
  | update_cdrom (task : GTask) (cdrom : Option OvirtCdrom) (current : Bool)
deriving DecidableEq

/-! ## The foreign menu -/

/-- The instance structure `struct _OvirtForeignMenu`. -/
structure OvirtForeignMenu where
  proxy : Option OvirtProxy
  api : Option OvirtApi
  vm : Option OvirtVm
  host : Option OvirtHost
  cluster : Option OvirtCluster
  data_center : Option OvirtDataCenter
  vm_guid : Option CString
  files : Option OvirtCollection
  cdrom : Option OvirtCdrom
  current_iso_info : Option GStrv
  next_iso_info : Option GStrv
  iso_names : List GStrv
deriving DecidableEq

/-- What running a piece of the sources to its end does: the menu it leaves, the
asynchronous calls it has issued and the task completions it has made, both in order. -/
structure Outcome where
  menu : OvirtForeignMenu
  calls : List Call
  returns : List (GTask × TaskResult)
deriving DecidableEq

/-- Source `ovirt_foreign_menu_get_current_iso_name`: the `file` property of the cdrom, `NULL`
without a cdrom. -/
def ovirt_foreign_menu_get_current_iso_name (foreign_menu : OvirtForeignMenu) : Option CString :=
  match foreign_menu.cdrom with
  | none => none
  | some cdrom => cdrom.file

/-- Source `iso_info_new`: `info[0]` is a copy of `name`, `info[1]` a copy of `id`, or of
`name` when `id` is `NULL`. The image of the new array is given by the allocator. -/
def iso_info_new (image : CString) (name id : Option CString) : GStrv :=
  { image := image, name := name, id := if id ≠ none then id else name }

/-- Source `ovirt_foreign_menu_get_current_iso_info`. -/
def ovirt_foreign_menu_get_current_iso_info (menu : OvirtForeignMenu) : Option GStrv :=
  if menu.cdrom = none then none else menu.current_iso_info

/-- Source `ovirt_foreign_menu_set_current_iso_info`; `image` is the image of the array
that `iso_info_new` allocates when `name` is not `NULL`. -/
def ovirt_foreign_menu_set_current_iso_info (image : CString) (menu : OvirtForeignMenu)
    (name id : Option CString) : OvirtForeignMenu :=
  if menu.cdrom = none then menu
  else
    let info := if name ≠ none then some (iso_info_new image name id) else none
    { menu with current_iso_info := info }

/-- Source `ovirt_foreign_menu_get_iso_names`. -/
def ovirt_foreign_menu_get_iso_names (foreign_menu : OvirtForeignMenu) : List GStrv :=
  foreign_menu.iso_names

/-! ## The file list (`ovirt_foreign_menu_set_files`) -/

/-- The comparison made on two elements of a list of `GStrv`, in `g_list_insert_sorted (...,
(GCompareFunc)g_strcmp0)` and in `g_strcmp0 (it->data, it2->data)`: `g_strcmp0` receives the
two pointers to the arrays and reads the arrays themselves as C strings. -/
def g_strcmp0_strv (a b : GStrv) : Int :=
  g_strcmp0 (some a.image) (some b.image)

/-- The variables of the first loop of `ovirt_foreign_menu_set_files` that change from one
iteration to the next: `sorted_files`, the menu, and the number of arrays allocated by
`iso_info_new` so far. -/
structure SetFilesLoop where
  sorted_files : List GStrv
  menu : OvirtForeignMenu
  allocated : Nat
deriving DecidableEq

/-- One iteration of the first loop of `ovirt_foreign_menu_set_files`, on the entry `it`. -/
def set_files_body (K : Govirt) (heap : Heap) (current_iso_name : Option CString)
    (s : SetFilesLoop) (it : OvirtResource) : SetFilesLoop :=
  let name := it.name
  let id := it.guid
  if K.HAVE_OVIRT_STORAGE_DOMAIN_GET_DISKS ∧ it.is_disk
      ∧ it.content_type ≠ K.OVIRT_DISK_CONTENT_TYPE_ISO then s
  else if ¬ g_str_has_suffix name (some (ascii ".iso")) then s
  else
    let sorted_files :=
      g_list_insert_sorted s.sorted_files (iso_info_new (heap s.allocated) name id) g_strcmp0_strv
    if current_iso_name ≠ none
        ∧ (g_strcmp0 current_iso_name name = 0 ∨ g_strcmp0 current_iso_name id = 0) then
      { sorted_files := sorted_files,
        menu := ovirt_foreign_menu_set_current_iso_info (heap (s.allocated + 1)) s.menu name id,
        allocated := s.allocated + 2 }
    else
      { sorted_files := sorted_files, menu := s.menu, allocated := s.allocated + 1 }

/-- The first loop of `ovirt_foreign_menu_set_files`, over `files` in order. -/
def set_files_loop (K : Govirt) (heap : Heap) (menu : OvirtForeignMenu)
    (files : List OvirtResource) : SetFilesLoop :=
  files.foldl (set_files_body K heap (ovirt_foreign_menu_get_current_iso_name menu))
    { sorted_files := [], menu := menu, allocated := 0 }

/-- The second loop of `ovirt_foreign_menu_set_files`: it walks both lists together and
stops at the end of either or at the first pair that `g_strcmp0` tells apart. The result is
the pair of the iterators `it`, `it2` when the loop is left. -/
def set_files_compare : List GStrv → List GStrv → List GStrv × List GStrv
  | a :: it, b :: it2 =>
    if g_strcmp0_strv a b ≠ 0 then (a :: it, b :: it2) else set_files_compare it it2
  | [], it2 => ([], it2)
  | it, [] => (it, [])

/-- Source `ovirt_foreign_menu_set_files`. -/
def ovirt_foreign_menu_set_files (K : Govirt) (heap : Heap) (menu : OvirtForeignMenu)
    (files : List OvirtResource) : OvirtForeignMenu :=
  let loop := set_files_loop K heap menu files
  let its := set_files_compare loop.sorted_files loop.menu.iso_names
  if its.1 = [] ∧ its.2 = [] then loop.menu
  else { loop.menu with iso_names := loop.sorted_files }

/-! ## The storage domain selection -/

/-- Source `storage_domain_attached_to_data_center`. With `data_center` `NULL` the C code
passes an uninitialised pointer to `g_strv_contains`; the model takes the identifier as
`NULL` there, and nothing below is stated about that case. -/
def storage_domain_attached_to_data_center (domain : OvirtStorageDomain)
    (data_center : Option OvirtDataCenter) : Bool :=
  let data_center_ids := domain.data_center_ids
  let data_center_guid := data_center.bind (fun d => d.guid)
  g_strv_contains data_center_ids data_center_guid

/-- Source `storage_domain_validate`. -/
def storage_domain_validate (K : Govirt) (menu : OvirtForeignMenu)
    (domain : OvirtStorageDomain) : Bool :=
  let ret := true
  let ret :=
    if domain.type ≠ K.OVIRT_STORAGE_DOMAIN_TYPE_ISO
        ∧ domain.type ≠ K.OVIRT_STORAGE_DOMAIN_TYPE_DATA then false else ret
  let ret := if domain.state ≠ K.OVIRT_STORAGE_DOMAIN_STATE_ACTIVE then false else ret
  let ret :=
    if ¬ storage_domain_attached_to_data_center domain menu.data_center then false else ret
  ret

/-- Source `ovirt_foreign_menu_set_file_collection`: the menu it leaves and its result. -/
def ovirt_foreign_menu_set_file_collection (menu : OvirtForeignMenu)
    (file_collection : Option OvirtCollection) : OvirtForeignMenu × Bool :=
  match file_collection with
  | none => (menu, false)
  | some c => ({ menu with files := some c }, true)

/-- Source `storage_domain_get_files`. -/
def storage_domain_get_files (K : Govirt) (domain : Option OvirtStorageDomain) :
    Option OvirtCollection :=
  match domain with
  | none => none
  | some d =>
    if d.type = K.OVIRT_STORAGE_DOMAIN_TYPE_ISO then d.files
    else if K.HAVE_OVIRT_STORAGE_DOMAIN_GET_DISKS ∧ d.type = K.OVIRT_STORAGE_DOMAIN_TYPE_DATA then
      d.disks
    else none

/-- One iteration of the loop of `storage_domains_fetched_cb`: the value of `valid_domain`
after the domain `domain` has been looked at. -/
def storage_domains_body (K : Govirt) (menu : OvirtForeignMenu)
    (valid_domain : Option OvirtStorageDomain) (domain : OvirtStorageDomain) :
    Option OvirtStorageDomain :=
  if ¬ storage_domain_validate K menu domain then valid_domain
  else
    match valid_domain with
    | some valid =>
      let domain_type := domain.type
      let valid_type := valid.type
      if domain_type > valid_type then some domain else some valid
    | none => some domain

/-- The loop of `storage_domains_fetched_cb` over the fetched domains, in the order in
which the hash table enumerates them: the final value of `valid_domain`. -/
def storage_domains_loop (K : Govirt) (menu : OvirtForeignMenu)
    (domains : List OvirtStorageDomain) : Option OvirtStorageDomain :=
  domains.foldl (storage_domains_body K menu) none

/-! ## The stages: the functions that issue the calls

`g_return_if_fail (OVIRT_IS_X (p))` leaves the function when `p` is `NULL`. -/

/-- An outcome in which nothing is issued and no task is completed. -/
def Outcome.idle (menu : OvirtForeignMenu) : Outcome :=
  { menu := menu, calls := [], returns := [] }

/-- An outcome that issues the one call `call`. -/
def Outcome.issue (menu : OvirtForeignMenu) (call : Call) : Outcome :=
  { menu := menu, calls := [call], returns := [] }

/-- An outcome that completes `task` with `result` (`g_task_return_...` followed by
`g_object_unref (task)`). -/
def Outcome.finish (menu : OvirtForeignMenu) (task : GTask) (result : TaskResult) : Outcome :=
  { menu := menu, calls := [], returns := [(task, result)] }

/-- Source `ovirt_foreign_menu_fetch_api_async`. -/
def ovirt_foreign_menu_fetch_api_async (menu : OvirtForeignMenu) (task : GTask) : Outcome :=
  if menu.proxy = none then Outcome.idle menu
  else Outcome.issue menu (Call.fetch_api task menu.proxy)

/-- Source `ovirt_foreign_menu_fetch_vm_async`. -/
def ovirt_foreign_menu_fetch_vm_async (menu : OvirtForeignMenu) (task : GTask) : Outcome :=
  if menu.proxy = none then Outcome.idle menu
  else if menu.api = none then Outcome.idle menu
  else
    let query := ascii "id=" ++ printf_s menu.vm_guid
    Outcome.issue menu (Call.fetch_vms task menu.api query)

/-- Source `ovirt_foreign_menu_fetch_host_async`. -/
def ovirt_foreign_menu_fetch_host_async (menu : OvirtForeignMenu) (task : GTask) : Outcome :=
  if menu.proxy = none then Outcome.idle menu
  else
    match menu.vm with
    | none => Outcome.idle menu
    | some vm =>
      let menu := { menu with host := vm.host }
      Outcome.issue menu (Call.refresh_host task menu.host)

/-- Source `ovirt_foreign_menu_fetch_cluster_async`. -/
def ovirt_foreign_menu_fetch_cluster_async (menu : OvirtForeignMenu) (task : GTask) : Outcome :=
  if menu.proxy = none then Outcome.idle menu
  else
    match menu.host with
    | none => Outcome.idle menu
    | some host =>
      let menu := { menu with cluster := host.cluster }
      Outcome.issue menu (Call.refresh_cluster task menu.cluster)

/-- Source `ovirt_foreign_menu_fetch_data_center_async`. -/
def ovirt_foreign_menu_fetch_data_center_async (menu : OvirtForeignMenu) (task : GTask) :
    Outcome :=
  if menu.proxy = none then Outcome.idle menu
  else
    match menu.cluster with
    | none => Outcome.idle menu
    | some cluster =>
      let menu := { menu with data_center := cluster.data_center }
      Outcome.issue menu (Call.refresh_data_center task menu.data_center)

/-- Source `ovirt_foreign_menu_fetch_storage_domain_async`. -/
def ovirt_foreign_menu_fetch_storage_domain_async (menu : OvirtForeignMenu) (task : GTask) :
    Outcome :=
  if menu.proxy = none then Outcome.idle menu
  else
    match menu.data_center with
    | none => Outcome.idle menu
    | some data_center =>
      let collection := data_center.storage_domains
      Outcome.issue menu (Call.fetch_storage_domains task collection)

/-- Source `ovirt_foreign_menu_fetch_vm_cdrom_async`. The function has no check of its own;
`ovirt_vm_get_cdroms` of the library is taken to return `NULL` on a `NULL` vm. -/
def ovirt_foreign_menu_fetch_vm_cdrom_async (menu : OvirtForeignMenu) (task : GTask) : Outcome :=
  let cdrom_collection := menu.vm.bind (fun vm => vm.cdroms)
  Outcome.issue menu (Call.fetch_cdroms task cdrom_collection)

/-- Source `ovirt_foreign_menu_refresh_cdrom_file_async`. -/
def ovirt_foreign_menu_refresh_cdrom_file_async (menu : OvirtForeignMenu) (task : GTask) :
    Outcome :=
  if menu.cdrom = none then Outcome.idle menu
  else Outcome.issue menu (Call.refresh_cdrom task menu.cdrom)

/-- Source `ovirt_foreign_menu_fetch_iso_list_async`. -/
def ovirt_foreign_menu_fetch_iso_list_async (menu : OvirtForeignMenu) (task : GTask) : Outcome :=
  if menu.files = none then Outcome.idle menu
  else Outcome.issue menu (Call.fetch_iso_list task menu.files)

/-! ## The stage sequencer (`ovirt_foreign_menu_next_async_step`)

The body of the `switch` is a chain of `case` labels that fall through. `case_X` is the
execution of the body entered at the label `case X`. -/

/-- The body of the `switch` entered at `case STATE_CDROM_FILE`. -/
def case_STATE_CDROM_FILE (menu : OvirtForeignMenu) (task : GTask) : Outcome :=
  ovirt_foreign_menu_refresh_cdrom_file_async menu task

/-- The body of the `switch` entered at `case STATE_VM_CDROM`. -/
def case_STATE_VM_CDROM (menu : OvirtForeignMenu) (task : GTask) : Outcome :=
  if menu.cdrom = none then ovirt_foreign_menu_fetch_vm_cdrom_async menu task
  else case_STATE_CDROM_FILE menu task

/-- The body of the `switch` entered at `case STATE_STORAGE_DOMAIN`. -/
def case_STATE_STORAGE_DOMAIN (menu : OvirtForeignMenu) (task : GTask) : Outcome :=
  if menu.files = none then ovirt_foreign_menu_fetch_storage_domain_async menu task
  else case_STATE_VM_CDROM menu task

/-- The body of the `switch` entered at `case STATE_DATA_CENTER`. -/
def case_STATE_DATA_CENTER (menu : OvirtForeignMenu) (task : GTask) : Outcome :=
  if menu.data_center = none then ovirt_foreign_menu_fetch_data_center_async menu task
  else case_STATE_STORAGE_DOMAIN menu task

/-- The body of the `switch` entered at `case STATE_CLUSTER`. -/
def case_STATE_CLUSTER (menu : OvirtForeignMenu) (task : GTask) : Outcome :=
  if menu.cluster = none then ovirt_foreign_menu_fetch_cluster_async menu task
  else case_STATE_DATA_CENTER menu task

/-- The body of the `switch` entered at `case STATE_HOST`. -/
def case_STATE_HOST (menu : OvirtForeignMenu) (task : GTask) : Outcome :=
  if menu.host = none then ovirt_foreign_menu_fetch_host_async menu task
  else case_STATE_CLUSTER menu task

/-- The body of the `switch` entered at `case STATE_VM`. -/
def case_STATE_VM (menu : OvirtForeignMenu) (task : GTask) : Outcome :=
  if menu.vm = none then ovirt_foreign_menu_fetch_vm_async menu task
  else case_STATE_HOST menu task

/-- The body of the `switch` entered at `case STATE_API`. -/
def case_STATE_API (menu : OvirtForeignMenu) (task : GTask) : Outcome :=
  if menu.api = none then ovirt_foreign_menu_fetch_api_async menu task
  else case_STATE_VM menu task

/-- The body of the `switch` entered at `case STATE_ISOS` (the four `g_warn_if_fail` only
log). -/
def case_STATE_ISOS (menu : OvirtForeignMenu) (task : GTask) : Outcome :=
  ovirt_foreign_menu_fetch_iso_list_async menu task

/-- The `default` label of the `switch`: the task fails with `Invalid state: %u`. -/
def case_default (K : Govirt) (menu : OvirtForeignMenu) (task : GTask)
    (current_state : OvirtForeignMenuState) : Outcome :=
  Outcome.finish menu task (TaskResult.error
    { domain := K.OVIRT_ERROR, code := K.OVIRT_ERROR_FAILED,
      message := ascii "Invalid state: " ++ ascii (toString current_state.toNat) })

/-- Source `ovirt_foreign_menu_next_async_step`: `switch (current_state + 1)`. -/
def ovirt_foreign_menu_next_async_step (K : Govirt) (menu : OvirtForeignMenu) (task : GTask)
    (current_state : OvirtForeignMenuState) : Outcome :=
  match current_state.toNat + 1 with
  | 1 => case_STATE_API menu task
  | 2 => case_STATE_VM menu task
  | 3 => case_STATE_HOST menu task
  | 4 => case_STATE_CLUSTER menu task
  | 5 => case_STATE_DATA_CENTER menu task
  | 6 => case_STATE_STORAGE_DOMAIN menu task
  | 7 => case_STATE_VM_CDROM menu task
  | 8 => case_STATE_CDROM_FILE menu task
  | 9 => case_STATE_ISOS menu task
  | _ => case_default K menu task current_state

/-- Source `ovirt_foreign_menu_fetch_iso_names_async`; `task` is the task it creates. -/
def ovirt_foreign_menu_fetch_iso_names_async (K : Govirt) (menu : OvirtForeignMenu)
    (task : GTask) : Outcome :=
  ovirt_foreign_menu_next_async_step K menu task OvirtForeignMenuState.STATE_0

/-! ## The completion callbacks

Each callback is a function of the menu, of the task it was handed and of what the
`..._finish` function of the library gives back: the error, if any, and the result. -/

/-- Source `api_fetched_cb`; `api` is the result of `ovirt_proxy_fetch_api_finish`. -/
def api_fetched_cb (K : Govirt) (menu : OvirtForeignMenu) (task : GTask)
    (api : Option OvirtApi) (error : Option GError) : Outcome :=
  let menu := { menu with api := api }
  match error with
  | some e => Outcome.finish menu task (TaskResult.error e)
  | none =>
    if menu.api = none then Outcome.idle menu
    else ovirt_foreign_menu_next_async_step K menu task OvirtForeignMenuState.STATE_API

/-- Source `vms_fetched_cb`; `vms` are the resources of the fetched collection, in the
order in which the hash table enumerates them. -/
def vms_fetched_cb (K : Govirt) (menu : OvirtForeignMenu) (task : GTask)
    (vms : List OvirtVm) (error : Option GError) : Outcome :=
  match error with
  | some e => Outcome.finish menu task (TaskResult.error e)
  | none =>
    let menu :=
      match vms.find? (fun vm => decide (g_strcmp0 vm.guid menu.vm_guid = 0)) with
      | some vm => { menu with vm := some vm }
      | none => menu
    if menu.vm ≠ none then
      ovirt_foreign_menu_next_async_step K menu task OvirtForeignMenuState.STATE_VM
    else
      Outcome.finish menu task (TaskResult.error
        { domain := K.OVIRT_ERROR, code := K.OVIRT_ERROR_FAILED,
          message := ascii "Could not find a VM with guid \"" ++ printf_s menu.vm_guid
            ++ ascii "\"" })

/-- Source `host_fetched_cb`. -/
def host_fetched_cb (K : Govirt) (menu : OvirtForeignMenu) (task : GTask)
    (error : Option GError) : Outcome :=
  match error with
  | some e => Outcome.finish menu task (TaskResult.error e)
  | none => ovirt_foreign_menu_next_async_step K menu task OvirtForeignMenuState.STATE_HOST

/-- Source `cluster_fetched_cb`. -/
def cluster_fetched_cb (K : Govirt) (menu : OvirtForeignMenu) (task : GTask)
    (error : Option GError) : Outcome :=
  match error with
  | some e => Outcome.finish menu task (TaskResult.error e)
  | none => ovirt_foreign_menu_next_async_step K menu task OvirtForeignMenuState.STATE_CLUSTER

/-- Source `data_center_fetched_cb`. -/
def data_center_fetched_cb (K : Govirt) (menu : OvirtForeignMenu) (task : GTask)
    (error : Option GError) : Outcome :=
  match error with
  | some e => Outcome.finish menu task (TaskResult.error e)
  | none =>
    ovirt_foreign_menu_next_async_step K menu task OvirtForeignMenuState.STATE_DATA_CENTER

/-- Source `storage_domains_fetched_cb`; `domains` are the resources of the fetched
collection, in the order in which the hash table enumerates them. -/
def storage_domains_fetched_cb (K : Govirt) (menu : OvirtForeignMenu) (task : GTask)
    (domains : List OvirtStorageDomain) (error : Option GError) : Outcome :=
  match error with
  | some e => Outcome.finish menu task (TaskResult.error e)
  | none =>
    let valid_domain := storage_domains_loop K menu domains
    let file_collection := storage_domain_get_files K valid_domain
    let set := ovirt_foreign_menu_set_file_collection menu file_collection
    if ¬ set.2 then
      let msg :=
        if valid_domain ≠ none then ascii "Could not find ISO file collection"
        else ascii "Could not find valid ISO storage domain"
      Outcome.finish set.1 task (TaskResult.error
        { domain := K.OVIRT_ERROR, code := K.OVIRT_ERROR_FAILED, message := msg })
    else
      ovirt_foreign_menu_next_async_step K set.1 task OvirtForeignMenuState.STATE_STORAGE_DOMAIN

/-- Source `cdroms_fetched_cb`; `cdroms` are the resources of the fetched collection, in
the order in which the hash table enumerates them. -/
def cdroms_fetched_cb (K : Govirt) (menu : OvirtForeignMenu) (task : GTask)
    (cdroms : List OvirtCdrom) (error : Option GError) : Outcome :=
  match error with
  | some e => Outcome.finish menu task (TaskResult.error e)
  | none =>
    let menu :=
      match cdroms with
      | cdrom :: _ => { menu with cdrom := some cdrom }
      | [] => menu
    if menu.cdrom ≠ none then
      ovirt_foreign_menu_next_async_step K menu task OvirtForeignMenuState.STATE_VM_CDROM
    else
      Outcome.finish menu task (TaskResult.error
        { domain := K.OVIRT_ERROR, code := K.OVIRT_ERROR_FAILED,
          message := ascii "Could not find VM cdrom through oVirt REST API" })

/-- Source `cdrom_file_refreshed_cb`. -/
def cdrom_file_refreshed_cb (K : Govirt) (menu : OvirtForeignMenu) (task : GTask)
    (error : Option GError) : Outcome :=
  match error with
  | some e => Outcome.finish menu task (TaskResult.error e)
  | none =>
    if menu.cdrom ≠ none then
      ovirt_foreign_menu_next_async_step K menu task OvirtForeignMenuState.STATE_CDROM_FILE
    else
      Outcome.finish menu task (TaskResult.error
        { domain := K.OVIRT_ERROR, code := K.OVIRT_ERROR_FAILED,
          message := ascii "Could not find VM cdrom through oVirt REST API" })

/-- Source `iso_list_fetched_cb`; `files` are the values of the hash table of the fetched
collection, in the order of `g_hash_table_get_values`, and `heap` gives the arrays that
`ovirt_foreign_menu_set_files` allocates. -/
def iso_list_fetched_cb (K : Govirt) (heap : Heap) (menu : OvirtForeignMenu) (task : GTask)
    (files : List OvirtResource) (error : Option GError) : Outcome :=
  match error with
  | some e => Outcome.finish menu task (TaskResult.error e)
  | none =>
    let menu := ovirt_foreign_menu_set_files K heap menu files
    Outcome.finish menu task (TaskResult.pointer menu.iso_names)

/-! ## The media swap -/

/-- The effect of `g_object_set (cdrom, "file", file, NULL)` on the cdrom of the menu. -/
def set_cdrom_file (menu : OvirtForeignMenu) (file : Option CString) : OvirtForeignMenu :=
  { menu with cdrom := menu.cdrom.map (fun cdrom => { cdrom with file := file }) }

/-- Source `iso_name_set_cb`; `updated` is the result of `ovirt_cdrom_update_finish`. -/
def iso_name_set_cb (K : Govirt) (foreign_menu : OvirtForeignMenu) (task : GTask)
    (updated : Bool) (error : Option GError) : Outcome :=
  if updated then
    let foreign_menu :=
      { foreign_menu with current_iso_info := foreign_menu.next_iso_info, next_iso_info := none }
    Outcome.finish foreign_menu task (TaskResult.boolean true)
  else
    let foreign_menu :=
      set_cdrom_file foreign_menu
        (match foreign_menu.current_iso_info with
         | some info => info.id
         | none => none)
    let foreign_menu := { foreign_menu with next_iso_info := none }
    match error with
    | some e => Outcome.finish foreign_menu task (TaskResult.error e)
    | none =>
      Outcome.finish foreign_menu task (TaskResult.error
        { domain := K.OVIRT_ERROR, code := K.OVIRT_ERROR_FAILED,
          message := ascii "failed to update cdrom resource" })

/-- Source `ovirt_foreign_menu_set_current_iso_name_async`; `task` is the task it creates
and `image` the image of the array that `iso_info_new` allocates when `name` is not
`NULL`. -/
def ovirt_foreign_menu_set_current_iso_name_async (image : CString)
    (foreign_menu : OvirtForeignMenu) (name id : Option CString) (task : GTask) : Outcome :=
  if foreign_menu.cdrom = none then Outcome.idle foreign_menu
  else if foreign_menu.next_iso_info ≠ none then Outcome.idle foreign_menu
  else
    let foreign_menu :=
      if name ≠ none then { foreign_menu with next_iso_info := some (iso_info_new image name id) }
      else { foreign_menu with next_iso_info := none }
    let foreign_menu := set_cdrom_file foreign_menu id
    Outcome.issue foreign_menu (Call.update_cdrom task foreign_menu.cdrom true)

/-! ## Runs

The sources are driven by the main loop: a caller makes a request, the library completes an
outstanding call and runs its callback. A run is a sequence of such events. -/

/-- What the library hands to the completion callback of a call: the error, if any, and
the data the callback reads. -/
inductive Completion where
  | api_fetched (api : Option OvirtApi) (error : Option GError)
  | vms_fetched (vms : List OvirtVm) (error : Option GError)
  | host_fetched (error : Option GError)
  | cluster_fetched (error : Option GError)
  | data_center_fetched (error : Option GError)
  | storage_domains_fetched (domains : List OvirtStorageDomain) (error : Option GError)
  | cdroms_fetched (cdroms : List OvirtCdrom) (error : Option GError)
  | cdrom_file_refreshed (file : Option CString) (error : Option GError)
  | iso_list_fetched (heap : Heap) (files : List OvirtResource) (error : Option GError)
  | iso_name_set (updated : Bool) (error : Option GError)

/-- The error of a completion. -/
def Completion.error : Completion → Option GError
  | api_fetched _ error => error
  | vms_fetched _ error => error
  | host_fetched error => error
  | cluster_fetched error => error
  | data_center_fetched error => error
  | storage_domains_fetched _ error => error
  | cdroms_fetched _ error => error
  | cdrom_file_refreshed _ error => error
  | iso_list_fetched _ _ error => error
  | iso_name_set _ error => error

/-- The task that a call hands to its callback. -/
def Call.task : Call → GTask
  | fetch_api task _ => task
  | fetch_vms task _ _ => task
  | refresh_host task _ => task
  | refresh_cluster task _ => task
  | refresh_data_center task _ => task
  | fetch_storage_domains task _ => task
  | fetch_cdroms task _ => task
  | refresh_cdrom task _ => task
  | fetch_iso_list task _ => task
  | update_cdrom task _ _ => task

/-- The stage of the pipeline that a call belongs to (`none` for the update of the media
swap, which is not part of the pipeline). -/
def Call.stage : Call → Option OvirtForeignMenuState
  | fetch_api _ _ => some OvirtForeignMenuState.STATE_API
  | fetch_vms _ _ _ => some OvirtForeignMenuState.STATE_VM
  | refresh_host _ _ => some OvirtForeignMenuState.STATE_HOST
  | refresh_cluster _ _ => some OvirtForeignMenuState.STATE_CLUSTER
  | refresh_data_center _ _ => some OvirtForeignMenuState.STATE_DATA_CENTER
  | fetch_storage_domains _ _ => some OvirtForeignMenuState.STATE_STORAGE_DOMAIN
  | fetch_cdroms _ _ => some OvirtForeignMenuState.STATE_VM_CDROM
  | refresh_cdrom _ _ => some OvirtForeignMenuState.STATE_CDROM_FILE
  | fetch_iso_list _ _ => some OvirtForeignMenuState.STATE_ISOS
  | update_cdrom _ _ _ => none

/-- The completion of the call `call` with `c`: the callback registered with the call runs
on the menu. `none` when `c` is not a completion of that kind of call.

A successful refresh of the cdrom has stored the `file` reported by the remote service in
the cdrom object before the callback runs (an effect of the library); the cdrom refreshed
is the one of the menu. -/
def complete (K : Govirt) (menu : OvirtForeignMenu) : Call → Completion → Option Outcome
  | Call.fetch_api task _, Completion.api_fetched api error =>
    some (api_fetched_cb K menu task api error)
  | Call.fetch_vms task _ _, Completion.vms_fetched vms error =>
    some (vms_fetched_cb K menu task vms error)
  | Call.refresh_host task _, Completion.host_fetched error =>
    some (host_fetched_cb K menu task error)
  | Call.refresh_cluster task _, Completion.cluster_fetched error =>
    some (cluster_fetched_cb K menu task error)
  | Call.refresh_data_center task _, Completion.data_center_fetched error =>
    some (data_center_fetched_cb K menu task error)
  | Call.fetch_storage_domains task _, Completion.storage_domains_fetched domains error =>
    some (storage_domains_fetched_cb K menu task domains error)
  | Call.fetch_cdroms task _, Completion.cdroms_fetched cdroms error =>
    some (cdroms_fetched_cb K menu task cdroms error)
  | Call.refresh_cdrom task _, Completion.cdrom_file_refreshed file error =>
    some (cdrom_file_refreshed_cb K
      (if error = none then set_cdrom_file menu file else menu) task error)
  | Call.fetch_iso_list task _, Completion.iso_list_fetched heap files error =>
    some (iso_list_fetched_cb K heap menu task files error)
  | Call.update_cdrom task _ _, Completion.iso_name_set updated error =>
    some (iso_name_set_cb K menu task updated error)
  | _, _ => none

/-- The state of a run: the menu, the calls that are outstanding, all the calls issued so
far and all the task completions made so far, oldest first. -/
structure Sys where
  menu : OvirtForeignMenu
  pending : List Call
  issued : List Call
  returns : List (GTask × TaskResult)
deriving DecidableEq

/-- The state before anything has happened on `menu`. -/
def Sys.init (menu : OvirtForeignMenu) : Sys :=
  { menu := menu, pending := [], issued := [], returns := [] }

/-- The state after a piece of the sources has run with outcome `o`, the calls in `done`
being no longer outstanding. -/
def Sys.after (s : Sys) (done : List Call) (o : Outcome) : Sys :=
  { menu := o.menu,
    pending := (s.pending.diff done) ++ o.calls,
    issued := s.issued ++ o.calls,
    returns := s.returns ++ o.returns }

/-- An event of a run: a caller asks for the ISO names (`ovirt_foreign_menu_fetch_iso_names_async`,
creating `task`), a caller asks for a change of the inserted image
(`ovirt_foreign_menu_set_current_iso_name_async`, creating `task`), or the library completes
the outstanding call `call`. -/
inductive Event where
  | fetch_iso_names (task : GTask)
  | set_current_iso_name (image : CString) (name id : Option CString) (task : GTask)
  | completed (call : Call) (c : Completion)

/-- One event of a run. `none` when the event cannot happen: the call is not outstanding, or
the completion is not one of that kind of call. -/
def step (K : Govirt) (s : Sys) : Event → Option Sys
  | Event.fetch_iso_names task =>
    some (s.after [] (ovirt_foreign_menu_fetch_iso_names_async K s.menu task))
  | Event.set_current_iso_name image name id task =>
    some (s.after [] (ovirt_foreign_menu_set_current_iso_name_async image s.menu name id task))
  | Event.completed call c =>
    if call ∈ s.pending then (complete K s.menu call c).map (s.after [call])
    else none

/-- A run: the events of the list happen one after the other. -/
def run (K : Govirt) (s : Sys) : List Event → Option Sys
  | [] => some s
  | e :: es => (step K s e).bind (fun s1 => run K s1 es)

/-! ## Notions used to state the properties -/

/-- Whether the cache field that a stage fills is empty (the two last stages have none). -/
def field_empty (menu : OvirtForeignMenu) : OvirtForeignMenuState → Bool
  | OvirtForeignMenuState.STATE_API => menu.api = none
  | OvirtForeignMenuState.STATE_VM => menu.vm = none
  | OvirtForeignMenuState.STATE_HOST => menu.host = none
  | OvirtForeignMenuState.STATE_CLUSTER => menu.cluster = none
  | OvirtForeignMenuState.STATE_DATA_CENTER => menu.data_center = none
  | OvirtForeignMenuState.STATE_STORAGE_DOMAIN => menu.files = none
  | OvirtForeignMenuState.STATE_VM_CDROM => menu.cdrom = none
  | _ => false

/-- The stages that fill a cache field, in the order of the pipeline. -/
def cached_stages : List OvirtForeignMenuState :=
  [OvirtForeignMenuState.STATE_API, OvirtForeignMenuState.STATE_VM,
   OvirtForeignMenuState.STATE_HOST, OvirtForeignMenuState.STATE_CLUSTER,
   OvirtForeignMenuState.STATE_DATA_CENTER, OvirtForeignMenuState.STATE_STORAGE_DOMAIN,
   OvirtForeignMenuState.STATE_VM_CDROM]

/-- The first stage of the list `stages` whose cache field is empty, and `STATE_CDROM_FILE`
when there is none. -/
def first_empty_in (menu : OvirtForeignMenu) (stages : List OvirtForeignMenuState) :
    OvirtForeignMenuState :=
  (stages.find? (field_empty menu)).getD OvirtForeignMenuState.STATE_CDROM_FILE

/-- The first stage after `current`, in the order of the pipeline, whose cache field is
empty, and `STATE_CDROM_FILE` when there is none. -/
def first_unresolved (menu : OvirtForeignMenu) (current : OvirtForeignMenuState) :
    OvirtForeignMenuState :=
  first_empty_in menu (cached_stages.filter (fun s => decide (current.toNat < s.toNat)))

/-- The checks that the function issuing the call of a stage makes before it issues it
(`g_return_if_fail`): the proxy is set, and so is the object the call is made from. -/
def stage_ready (menu : OvirtForeignMenu) : OvirtForeignMenuState → Bool
  | OvirtForeignMenuState.STATE_API => menu.proxy ≠ none
  | OvirtForeignMenuState.STATE_VM => menu.proxy ≠ none ∧ menu.api ≠ none
  | OvirtForeignMenuState.STATE_HOST => menu.proxy ≠ none ∧ menu.vm ≠ none
  | OvirtForeignMenuState.STATE_CLUSTER => menu.proxy ≠ none ∧ menu.host ≠ none
  | OvirtForeignMenuState.STATE_DATA_CENTER => menu.proxy ≠ none ∧ menu.cluster ≠ none
  | OvirtForeignMenuState.STATE_STORAGE_DOMAIN => menu.proxy ≠ none ∧ menu.data_center ≠ none
  | OvirtForeignMenuState.STATE_VM_CDROM => true
  | OvirtForeignMenuState.STATE_CDROM_FILE => menu.cdrom ≠ none
  | OvirtForeignMenuState.STATE_ISOS => menu.files ≠ none
  | OvirtForeignMenuState.STATE_0 => false

/-- What an invocation of the sequencer that is to issue the call of the stage `stage` does:
it completes no task, it issues that call and no other when the checks of the stage pass,
and it issues nothing when they fail. -/
def issues_stage (menu : OvirtForeignMenu) (task : GTask) (stage : OvirtForeignMenuState)
    (o : Outcome) : Prop :=
  o.returns = []
    ∧ (stage_ready menu stage = true →
        ∃ call, o.calls = [call] ∧ call.stage = some stage ∧ call.task = task)
    ∧ (stage_ready menu stage = false → o.calls = [])

/-- A storage domain that is valid and of type `t`. -/
def valid_of_type (K : Govirt) (menu : OvirtForeignMenu) (t : Int)
    (domain : OvirtStorageDomain) : Bool :=
  storage_domain_validate K menu domain && decide (domain.type = t)

/-- The selection rule in words: the first enumerated valid domain of type ISO if there is
one, otherwise the first enumerated valid domain of type data if there is one, otherwise
none. -/
def select_domain (K : Govirt) (menu : OvirtForeignMenu) (domains : List OvirtStorageDomain) :
    Option OvirtStorageDomain :=
  match domains.find? (valid_of_type K menu K.OVIRT_STORAGE_DOMAIN_TYPE_ISO) with
  | some d => some d
  | none => domains.find? (valid_of_type K menu K.OVIRT_STORAGE_DOMAIN_TYPE_DATA)

/-- The filter in words: the display name of the entry ends with `.iso` and, when disk
introspection is compiled in and the entry is a disk, its content type is ISO. -/
def is_iso_entry (K : Govirt) (it : OvirtResource) : Bool :=
  (match it.name with
   | some name => decide (ascii ".iso" <:+ name)
   | none => false)
  && (!(K.HAVE_OVIRT_STORAGE_DOMAIN_GET_DISKS && it.is_disk)
      || decide (it.content_type = K.OVIRT_DISK_CONTENT_TYPE_ISO))

/-- The (name, id) pair of the `GStrv` that `iso_info_new` builds for an entry. -/
def entry_pair (it : OvirtResource) : Option CString × Option CString :=
  (it.name, if it.guid ≠ none then it.guid else it.name)

/-- The (name, id) pair held by a `GStrv`. -/
def GStrv.pair (info : GStrv) : Option CString × Option CString :=
  (info.name, info.id)

/-- The relation between the menu before and after a piece of the pipeline that fills no
field but, possibly, an empty `host`, `cluster` or `data_center`. -/
def only_fills_refs (menu menu1 : OvirtForeignMenu) : Prop :=
  menu1.proxy = menu.proxy ∧ menu1.api = menu.api ∧ menu1.vm = menu.vm
    ∧ menu1.vm_guid = menu.vm_guid ∧ menu1.files = menu.files ∧ menu1.cdrom = menu.cdrom
    ∧ menu1.current_iso_info = menu.current_iso_info
    ∧ menu1.next_iso_info = menu.next_iso_info ∧ menu1.iso_names = menu.iso_names
    ∧ (menu.host ≠ none → menu1.host = menu.host)
    ∧ (menu.cluster ≠ none → menu1.cluster = menu.cluster)
    ∧ (menu.data_center ≠ none → menu1.data_center = menu.data_center)

/-- The menu `menu1` holds every field that `menu` holds, with the same value. -/
def keeps_populated (menu menu1 : OvirtForeignMenu) : Prop :=
  (menu.proxy ≠ none → menu1.proxy = menu.proxy)
    ∧ (menu.api ≠ none → menu1.api = menu.api)
    ∧ (menu.vm ≠ none → menu1.vm = menu.vm)
    ∧ (menu.host ≠ none → menu1.host = menu.host)
    ∧ (menu.cluster ≠ none → menu1.cluster = menu.cluster)
    ∧ (menu.data_center ≠ none → menu1.data_center = menu.data_center)
    ∧ (menu.vm_guid ≠ none → menu1.vm_guid = menu.vm_guid)
    ∧ (menu.files ≠ none → menu1.files = menu.files)
    ∧ (menu.cdrom ≠ none → menu1.cdrom = menu.cdrom)
    ∧ (menu.current_iso_info ≠ none → menu1.current_iso_info = menu.current_iso_info)
    ∧ (menu.next_iso_info ≠ none → menu1.next_iso_info = menu.next_iso_info)
    ∧ (menu.iso_names ≠ [] → menu1.iso_names = menu.iso_names)

/-- The events of a run in which the library completes calls one after the other: the
call `p.1` completes with `p.2`. -/
def completions (cs : List (Call × Completion)) : List Event :=
  cs.map (fun p => Event.completed p.1 p.2)

/-- The shape of what a piece of the pipeline working for `task` does: it issues at most one
call, it issues the fetch of the ISO list only if it is the continuation of a refresh of the
cdrom (`after_refresh`) and then for `task`, and it hands no list to a caller. -/
def pipeline_shape (task : GTask) (after_refresh : Bool) (o : Outcome) : Prop :=
  (o.calls = [] ∨ ∃ call, o.calls = [call])
    ∧ (∀ t f, o.calls = [Call.fetch_iso_list t f] → after_refresh = true ∧ t = task)
    ∧ (∀ t l, (t, TaskResult.pointer l) ∉ o.returns)

/-- The invariant of a run of the pipeline: at most one call is outstanding and it is the
last one issued; an outstanding fetch of the ISO list was issued right after a refresh of the
cdrom for the same task; once a list has been handed to a caller nothing is outstanding and
the last two calls issued are a refresh of the cdrom and a fetch of the ISO list for that
task. -/
def run_inv (s : Sys) : Prop :=
  (s.pending = [] ∨ ∃ call, s.pending = [call] ∧ s.issued.getLast? = some call)
    ∧ (∀ t f, s.pending = [Call.fetch_iso_list t f] →
        ∃ pre c, s.issued = pre ++ [Call.refresh_cdrom t c, Call.fetch_iso_list t f])
    ∧ (∀ t l, (t, TaskResult.pointer l) ∈ s.returns →
        s.pending = [] ∧
        ∃ pre c f, s.issued = pre ++ [Call.refresh_cdrom t c, Call.fetch_iso_list t f])

/-! ### Examples -/

/-- Values for the libgovirt declarations, used in the examples. -/
def example_govirt : Govirt :=
  { HAVE_OVIRT_STORAGE_DOMAIN_GET_DISKS := true,
    OVIRT_STORAGE_DOMAIN_TYPE_ISO := 1,
    OVIRT_STORAGE_DOMAIN_TYPE_DATA := 0,
    OVIRT_STORAGE_DOMAIN_STATE_ACTIVE := 0,
    OVIRT_DISK_CONTENT_TYPE_ISO := 4,
    OVIRT_ERROR := 1,
    OVIRT_ERROR_FAILED := 0 }

/-- A proxy, for the examples. -/
def example_proxy : OvirtProxy :=
  { uri := ascii "https://ovirt.example/ovirt-engine/api", admin := false, ca_cert := none,
    session_id := some (ascii "session"), sso_token := none }

/-- A menu as it is after its construction from a proxy and the identifier of a vm: the
cache is empty. -/
def example_menu_empty : OvirtForeignMenu :=
  { proxy := some example_proxy, api := none, vm := none, host := none, cluster := none,
    data_center := none, vm_guid := some (ascii "vm-42"), files := none, cdrom := none,
    current_iso_info := none, next_iso_info := none, iso_names := [] }

/-- A menu built without a proxy (`ovirt_foreign_menu_new (NULL)`): the cache is empty. -/
def example_menu_no_proxy : OvirtForeignMenu :=
  { example_menu_empty with proxy := none }

/-- A data center, for the examples. -/
def example_data_center : OvirtDataCenter :=
  { guid := some (ascii "dc-1"), storage_domains := some { href := ascii "/datacenters/dc-1/sd" } }

/-- A cluster, for the examples. -/
def example_cluster : OvirtCluster :=
  { guid := some (ascii "cluster-1"), data_center := some example_data_center }

/-- A host, for the examples. -/
def example_host : OvirtHost :=
  { guid := some (ascii "host-1"), cluster := some example_cluster }

/-- A vm, for the examples. -/
def example_vm : OvirtVm :=
  { guid := some (ascii "vm-42"), host := some example_host,
    cdroms := some { href := ascii "/vms/vm-42/cdroms" } }

/-- A menu whose cache is filled up to the file collection and has no cdrom yet. -/
def example_menu_no_cdrom : OvirtForeignMenu :=
  { proxy := some example_proxy, api := some { href := ascii "/api" }, vm := some example_vm,
    host := some example_host, cluster := some example_cluster,
    data_center := some example_data_center, vm_guid := some (ascii "vm-42"),
    files := some { href := ascii "/storagedomains/iso-1/files" }, cdrom := none,
    current_iso_info := none, next_iso_info := none, iso_names := [] }

/-- A menu whose cache is filled entirely. -/
def example_menu_full : OvirtForeignMenu :=
  { example_menu_no_cdrom with cdrom := some { guid := some (ascii "cdrom-1"), file := none } }

/-- A valid storage domain of type data, for the examples. -/
def example_domain_data : OvirtStorageDomain :=
  { name := some (ascii "data"), type := 0, state := 0,
    data_center_ids := some [ascii "dc-1"], files := none,
    disks := some { href := ascii "/storagedomains/data-1/disks" } }

/-- A valid storage domain of type ISO, for the examples. -/
def example_domain_iso : OvirtStorageDomain :=
  { name := some (ascii "iso"), type := 1, state := 0,
    data_center_ids := some [ascii "dc-0", ascii "dc-1"],
    files := some { href := ascii "/storagedomains/iso-1/files" }, disks := none }

/-- A file of a collection, with its name and its identifier. -/
def example_file (name id : String) : OvirtResource :=
  { name := some (ascii name), guid := some (ascii id), is_disk := false, content_type := 0 }

/-- On a little-endian machine with 64-bit pointers: the image of an array of pointers whose
first pointer is `address` (a user-space address, below `2 ^ 56`), that is the bytes of that
pointer, lowest first, up to its first zero byte. -/
def pointer_image (address : Nat) : CString :=
  ((List.range 8).map (fun i => address / 256 ^ i % 256)).takeWhile (fun b => b ≠ 0)

/-- An allocator that hands out increasing addresses from `base` on, 64 bytes apart. -/
def example_heap (base : Nat) : Heap :=
  fun n => pointer_image (base + 64 * n)

/-- A menu with a full cache whose list of ISO names holds `a.iso` with the identifier
`id-1`, in an array allocated earlier. -/
def example_menu_listed : OvirtForeignMenu :=
  { example_menu_full with
    iso_names := [{ image := pointer_image 0x55d0c8a40f20, name := some (ascii "a.iso"),
                    id := some (ascii "id-1") }] }

/-- The test that the first loop of `ovirt_foreign_menu_set_files` makes on an entry it has
added to the list: `current_iso_name` is not `NULL` and `g_strcmp0` finds it equal to the name
or to the identifier of the entry. -/
def matches_current (current_iso_name : Option CString) (it : OvirtResource) : Bool :=
  decide (current_iso_name ≠ none
    ∧ (g_strcmp0 current_iso_name it.name = 0 ∨ g_strcmp0 current_iso_name it.guid = 0))

/-- An entry that passes the filter and is found to be the inserted image. -/
def recorded_entry (K : Govirt) (current_iso_name : Option CString) (it : OvirtResource) : Bool :=
  is_iso_entry K it && matches_current current_iso_name it

/-- A menu with a full cache whose cdrom reports `a.iso` as the inserted file. -/
def example_menu_inserted : OvirtForeignMenu :=
  { example_menu_full with
    cdrom := some { guid := some (ascii "cdrom-1"), file := some (ascii "a.iso") } }

/-- A menu with a full cache in which `old.iso`, of identifier `id-1`, is inserted. -/
def example_menu_mounted : OvirtForeignMenu :=
  { example_menu_full with
    cdrom := some { guid := some (ascii "cdrom-1"), file := some (ascii "id-1") },
    current_iso_info := some { image := pointer_image 0x55d0c8a40f20,
                               name := some (ascii "old.iso"), id := some (ascii "id-1") } }

/-- The value that `ovirt_foreign_menu_set_current_iso_name_async` stages in `next_iso_info`
for the target `name`, `id`: the pair built by `iso_info_new`, and `NULL` when `name` is
`NULL` (an eject). -/
def staged_iso_info (image : CString) (name id : Option CString) : Option GStrv :=
  if name ≠ none then some (iso_info_new image name id) else none

/-- The update call that an accepted request for the target identifier `id` issues. -/
def swap_call (menu : OvirtForeignMenu) (id : Option CString) (task : GTask) : Call :=
  Call.update_cdrom task (set_cdrom_file menu id).cdrom true

/-- The generic error of a failed update that comes without an error. -/
def update_failed_error (K : Govirt) : GError :=
  { domain := K.OVIRT_ERROR, code := K.OVIRT_ERROR_FAILED,
    message := ascii "failed to update cdrom resource" }

/-- Two runs of the pipeline on a full cache, one after the other. In the first the refresh
of the cdrom reports the inserted file `id-a` and the file collection holds `a.iso` with that
identifier; in the second the refresh reports that no file is inserted. -/
def example_eject_events : List Event :=
  [Event.fetch_iso_names 1,
   Event.completed (Call.refresh_cdrom 1 (some { guid := some (ascii "cdrom-1"), file := none }))
     (Completion.cdrom_file_refreshed (some (ascii "id-a")) none),
   Event.completed (Call.fetch_iso_list 1 example_menu_full.files)
     (Completion.iso_list_fetched (example_heap 0x55d0c8a412a0)
       [example_file "a.iso" "id-a"] none),
   Event.fetch_iso_names 2,
   Event.completed
     (Call.refresh_cdrom 2 (some { guid := some (ascii "cdrom-1"), file := some (ascii "id-a") }))
     (Completion.cdrom_file_refreshed none none),
   Event.completed (Call.fetch_iso_list 2 example_menu_full.files)
     (Completion.iso_list_fetched (example_heap 0x55d0c8a416e0)
       [example_file "a.iso" "id-a"] none)]

/-- The menu as the completion callback of `call` finds it when the library completes the
call with `c`: a successful refresh of the cdrom has stored the reported file in the cdrom
(see `complete`). -/
def at_callback (menu : OvirtForeignMenu) : Call → Completion → OvirtForeignMenu
  | Call.refresh_cdrom _ _, Completion.cdrom_file_refreshed file error =>
    if error = none then set_cdrom_file menu file else menu
  | _, _ => menu

/-- What the completion callback of the stage `stage` leaves of the menu `m0` it found, `m1`
being the menu after it. The proxy, `vm_guid` and `next_iso_info` are unchanged; api, vm,
files and cdrom are unchanged unless they are the field of the stage; host, cluster and
data_center are unchanged if they were populated; `iso_names` and `current_iso_info` are
unchanged except at the stage ISOS. -/
def stage_frame (stage : OvirtForeignMenuState) (m0 m1 : OvirtForeignMenu) : Prop :=
  m1.proxy = m0.proxy ∧ m1.vm_guid = m0.vm_guid ∧ m1.next_iso_info = m0.next_iso_info
    ∧ (stage ≠ OvirtForeignMenuState.STATE_API → m1.api = m0.api)
    ∧ (stage ≠ OvirtForeignMenuState.STATE_VM → m1.vm = m0.vm)
    ∧ (stage ≠ OvirtForeignMenuState.STATE_STORAGE_DOMAIN → m1.files = m0.files)
    ∧ (stage ≠ OvirtForeignMenuState.STATE_VM_CDROM → m1.cdrom = m0.cdrom)
    ∧ (m0.host ≠ none → m1.host = m0.host)
    ∧ (m0.cluster ≠ none → m1.cluster = m0.cluster)
    ∧ (m0.data_center ≠ none → m1.data_center = m0.data_center)
    ∧ (stage ≠ OvirtForeignMenuState.STATE_ISOS →
        m1.iso_names = m0.iso_names ∧ m1.current_iso_info = m0.current_iso_info)

/-- A menu that holds the API and the proxy, and the identifier of the vm to look for. -/
def example_menu_api : OvirtForeignMenu :=
  { example_menu_empty with api := some { href := ascii "/api" } }

/-- The cache fields of all the stages that come before `stage` in the order of the pipeline
are populated. -/
def earlier_populated (menu : OvirtForeignMenu) (stage : OvirtForeignMenuState) : Prop :=
  ∀ e ∈ cached_stages, e.toNat < stage.toNat → field_empty menu e = false

/-- A cache in which the objects found one from the other are there together: a cluster
only with its host, a data center only with its cluster, a file collection only with its
data center. A new menu is so, and the pipeline keeps it so. -/
def chain_closed (menu : OvirtForeignMenu) : Prop :=
  (menu.cluster ≠ none → menu.host ≠ none)
    ∧ (menu.data_center ≠ none → menu.cluster ≠ none)
    ∧ (menu.files ≠ none → menu.data_center ≠ none)

/-- What a piece of the pipeline leaves: a cache that is `chain_closed`, and at most one call
issued, for a stage whose earlier stages all have their field populated. -/
def issues_in_order (o : Outcome) : Prop :=
  chain_closed o.menu
    ∧ (o.calls = []
      ∨ ∃ call stage, o.calls = [call] ∧ call.stage = some stage
          ∧ earlier_populated o.menu stage)

/-- The invariant of a run of the pipeline about the order of the stages: the cache is
`chain_closed`, and at most one call is outstanding, for a stage whose earlier stages all
have their field populated. -/
def order_inv (s : Sys) : Prop :=
  chain_closed s.menu
    ∧ (s.pending = []
      ∨ ∃ call stage, s.pending = [call] ∧ call.stage = some stage
          ∧ earlier_populated s.menu stage)

/-- The (name, id) pairs of the list that a task has handed to its caller, when it has
handed one. -/
def TaskResult.pairs : TaskResult → Option (List (Option CString × Option CString))
  | TaskResult.pointer iso_names => some (iso_names.map GStrv.pair)
  | _ => none

/-- The error with which the VM stage fails when no vm of the fetched set has the identifier
looked for. -/
def vm_not_found_error (K : Govirt) (menu : OvirtForeignMenu) : GError :=
  { domain := K.OVIRT_ERROR, code := K.OVIRT_ERROR_FAILED,
    message := ascii "Could not find a VM with guid \"" ++ printf_s menu.vm_guid ++ ascii "\"" }

/-- The cdrom of the vm of the examples, with no file inserted. -/
def example_cdrom : OvirtCdrom :=
  { guid := some (ascii "cdrom-1"), file := none }

/-- A run of the pipeline from the empty cache in which the remote service answers every call
successfully: the API, the vm `vm-42`, its host, cluster and data center, one active ISO
storage domain attached to the data center, one cdrom with no file inserted, and the file
collection enumerated as `files`. The arrays of the file list are allocated at increasing
addresses. -/
def example_pipeline_events (files : List OvirtResource) : List Event :=
  [Event.fetch_iso_names 7,
   Event.completed (Call.fetch_api 7 (some example_proxy))
     (Completion.api_fetched (some { href := ascii "/api" }) none),
   Event.completed (Call.fetch_vms 7 (some { href := ascii "/api" }) (ascii "id=vm-42"))
     (Completion.vms_fetched [example_vm] none),
   Event.completed (Call.refresh_host 7 (some example_host)) (Completion.host_fetched none),
   Event.completed (Call.refresh_cluster 7 (some example_cluster))
     (Completion.cluster_fetched none),
   Event.completed (Call.refresh_data_center 7 (some example_data_center))
     (Completion.data_center_fetched none),
   Event.completed (Call.fetch_storage_domains 7 example_data_center.storage_domains)
     (Completion.storage_domains_fetched [example_domain_iso] none),
   Event.completed (Call.fetch_cdroms 7 example_vm.cdroms)
     (Completion.cdroms_fetched [example_cdrom] none),
   Event.completed (Call.refresh_cdrom 7 (some example_cdrom))
     (Completion.cdrom_file_refreshed none none),
   Event.completed (Call.fetch_iso_list 7 example_domain_iso.files)
     (Completion.iso_list_fetched (example_heap 0x55d0c8a412a0) files none)]

/-- The error with which the stages VM_CDROM and CDROM_FILE fail when the menu has no
cdrom. -/
def cdrom_not_found_error (K : Govirt) : GError :=
  { domain := K.OVIRT_ERROR, code := K.OVIRT_ERROR_FAILED,
    message := ascii "Could not find VM cdrom through oVirt REST API" }

/-- The error with which the stage STORAGE_DOMAIN fails when no storage domain is valid. -/
def no_valid_domain_error (K : Govirt) : GError :=
  { domain := K.OVIRT_ERROR, code := K.OVIRT_ERROR_FAILED,
    message := ascii "Could not find valid ISO storage domain" }

/-- The error with which the stage STORAGE_DOMAIN fails when the storage domain selected has
no file collection. -/
def no_file_collection_error (K : Govirt) : GError :=
  { domain := K.OVIRT_ERROR, code := K.OVIRT_ERROR_FAILED,
    message := ascii "Could not find ISO file collection" }

/-- A second cdrom, for the examples. -/
def example_cdrom_second : OvirtCdrom :=
  { guid := some (ascii "cdrom-2"), file := some (ascii "id-z") }

/-! ## The construction of a menu (`ovirt_foreign_menu_new_from_file`) -/

/-- A `VirtViewerFile *`: the keys of the connection file that `ovirt_foreign_menu_new_from_file`
reads, each through its accessor `virt_viewer_file_get_ovirt_...`; a string key that is not
in the file reads as `NULL`. -/
structure VirtViewerFile where
  ovirt_host : Option CString
  ovirt_vm_guid : Option CString
  ovirt_jsessionid : Option CString
  ovirt_sso_token : Option CString
  ovirt_ca : Option CString
  ovirt_admin : Bool
deriving DecidableEq

/-- A property of the menu that can be written, with the value written: the `property_id`
and the `GValue` handed to `ovirt_foreign_menu_set_property`. `other` is any property
identifier that the function does not handle. -/
inductive PropertyValue where
  | PROP_PROXY (value : Option OvirtProxy)
  | PROP_API (value : Option OvirtApi)
  | PROP_VM (value : Option OvirtVm)
  | PROP_VM_GUID (value : Option CString)
  | other (property_id : Nat)
deriving DecidableEq

/-- Source `ovirt_foreign_menu_set_property`. -/
def ovirt_foreign_menu_set_property (self : OvirtForeignMenu) :
    PropertyValue → OvirtForeignMenu
  | PropertyValue.PROP_PROXY value => { self with proxy := value }
  | PropertyValue.PROP_API value => { self with api := value }
  | PropertyValue.PROP_VM value =>
    let self := { self with vm := value, vm_guid := none }
    match self.vm with
    | some vm => { self with vm_guid := vm.guid }
    | none => self
  | PropertyValue.PROP_VM_GUID value => { self with vm := none, vm_guid := value }
  | PropertyValue.other _ => self

/-- Source `ovirt_foreign_menu_init`: it does nothing. -/
def ovirt_foreign_menu_init (self : OvirtForeignMenu) : OvirtForeignMenu := self

/-- GObject `g_object_new (OVIRT_TYPE_FOREIGN_MENU, "proxy", proxy, "vm-guid", vm_guid, NULL)`:
the instance is allocated filled with zeroes, `ovirt_foreign_menu_init` runs on it, and the
two properties, which are the construct properties of the class, are set through
`ovirt_foreign_menu_set_property`. -/
def g_object_new (proxy : Option OvirtProxy) (vm_guid : Option CString) : OvirtForeignMenu :=
  let self : OvirtForeignMenu :=
    { proxy := none, api := none, vm := none, host := none, cluster := none,
      data_center := none, vm_guid := none, files := none, cdrom := none,
      current_iso_info := none, next_iso_info := none, iso_names := [] }
  let self := ovirt_foreign_menu_init self
  let self := ovirt_foreign_menu_set_property self (PropertyValue.PROP_PROXY proxy)
  ovirt_foreign_menu_set_property self (PropertyValue.PROP_VM_GUID vm_guid)

/-- Source `ovirt_foreign_menu_new`: the construct property `vm-guid`, not given, is set to
its default `NULL`. -/
def ovirt_foreign_menu_new (proxy : Option OvirtProxy) : OvirtForeignMenu :=
  g_object_new proxy none

/-- Source `ovirt_foreign_menu_new_from_file`. `ovirt_proxy_new` is the function of the
library, which gives a proxy for a URI or `NULL`; the byte array of the certificate is the
string with its terminating zero byte. -/
def ovirt_foreign_menu_new_from_file (ovirt_proxy_new : CString → Option OvirtProxy)
    (file : VirtViewerFile) : Option OvirtForeignMenu :=
  let url := file.ovirt_host
  let vm_guid := file.ovirt_vm_guid
  let jsessionid := file.ovirt_jsessionid
  let sso_token := file.ovirt_sso_token
  let ca_str := file.ovirt_ca
  let admin := file.ovirt_admin
  match url, vm_guid with
  | some url, some vm_guid =>
    if jsessionid = none ∧ sso_token = none then none
    else
      match ovirt_proxy_new url with
      | none => none
      | some proxy =>
        let ca := ca_str.map (fun s => s ++ [0])
        let proxy := { proxy with admin := admin, ca_cert := ca }
        let proxy := if jsessionid ≠ none then { proxy with session_id := jsessionid } else proxy
        let proxy := if sso_token ≠ none then { proxy with sso_token := sso_token } else proxy
        some (g_object_new (some proxy) (some vm_guid))
  | _, _ => none

/-- A library whose `ovirt_proxy_new` gives a proxy for every URI. -/
def example_proxy_new (uri : CString) : Option OvirtProxy :=
  some { uri := uri, admin := false, ca_cert := none, session_id := none, sso_token := none }

/-- A connection file with a URL, the identifier of a vm and a session identifier. -/
def example_vv_file : VirtViewerFile :=
  { ovirt_host := some (ascii "https://ovirt.example/ovirt-engine/api"),
    ovirt_vm_guid := some (ascii "vm-42"), ovirt_jsessionid := some (ascii "session"),
    ovirt_sso_token := none, ovirt_ca := none, ovirt_admin := false }

/-- What the function that issues the refresh of the stage `stage`, one of HOST, CLUSTER and
DATA_CENTER, does when its checks pass: the menu it leaves, in which the field of the stage
is what the accessor of the library gives for the object of the stage before, and the
refresh it issues, on that field. -/
def assigned_refresh (menu : OvirtForeignMenu) (task : GTask) :
    OvirtForeignMenuState → Option (OvirtForeignMenu × Call)
  | OvirtForeignMenuState.STATE_HOST =>
    menu.vm.map (fun vm => ({ menu with host := vm.host }, Call.refresh_host task vm.host))
  | OvirtForeignMenuState.STATE_CLUSTER =>
    menu.host.map (fun host =>
      ({ menu with cluster := host.cluster }, Call.refresh_cluster task host.cluster))
  | OvirtForeignMenuState.STATE_DATA_CENTER =>
    menu.cluster.map (fun cluster =>
      ({ menu with data_center := cluster.data_center },
        Call.refresh_data_center task cluster.data_center))
  | _ => none

/-- The stage is one of HOST, CLUSTER and DATA_CENTER. -/
def refresh_stage (stage : OvirtForeignMenuState) : Prop :=
  stage = OvirtForeignMenuState.STATE_HOST ∨ stage = OvirtForeignMenuState.STATE_CLUSTER
    ∨ stage = OvirtForeignMenuState.STATE_DATA_CENTER

/-- What holds of a piece of the pipeline run on `menu` with outcome `o` when it issues the
refresh of one of the stages HOST, CLUSTER and DATA_CENTER: the field of the stage was empty
and the outcome is the one of `assigned_refresh`. -/
def assigns_then_refreshes (menu : OvirtForeignMenu) (task : GTask) (o : Outcome) : Prop :=
  ∀ call stage, o.calls = [call] → call.stage = some stage → refresh_stage stage →
    field_empty menu stage = true ∧ assigned_refresh menu task stage = some (o.menu, call)

/-- A menu that holds the API and the vm, and nothing of what is found from the vm. -/
def example_menu_vm : OvirtForeignMenu :=
  { example_menu_api with vm := some example_vm }

/-- The list that a sorted list of display names would be: the display names of the entries
that pass the filter, each as often as it occurs, in the order of the byte-wise comparison of
`g_strcmp0`. -/
def sorted_display_names (K : Govirt) (files : List OvirtResource) : List (Option CString) :=
  ((files.filter (is_iso_entry K)).map (fun it => it.name)).insertionSort
    (fun a b => g_strcmp0 a b ≤ 0)

/-- What the stages after STORAGE_DOMAIN rely on: the file collection is set when the stage
comes after STORAGE_DOMAIN, and the cdrom is set when it comes after VM_CDROM. -/
def late_fields (menu : OvirtForeignMenu) (stage : OvirtForeignMenuState) : Prop :=
  (OvirtForeignMenuState.STATE_STORAGE_DOMAIN.toNat < stage.toNat → menu.files ≠ none)
    ∧ (OvirtForeignMenuState.STATE_VM_CDROM.toNat < stage.toNat → menu.cdrom ≠ none)

/-- Every call that the outcome issues for a stage has `late_fields` in the menu it leaves. -/
def issues_late (o : Outcome) : Prop :=
  ∀ call ∈ o.calls, ∀ stage, call.stage = some stage → late_fields o.menu stage

/-- The invariant of the runs about the file collection and the cdrom: every outstanding
call of a stage has `late_fields` in the menu. -/
def late_inv (s : Sys) : Prop :=
  ∀ call ∈ s.pending, ∀ stage, call.stage = some stage → late_fields s.menu stage

/-! ### A remote service that answers every call -/

/-- What a remote service that answers every call successfully holds: the API, the vms that
the search gives, the storage domains of the data center, the cdroms of the vm, the inserted
file that a refresh of the cdrom reports, and the files of the file collection, in the order
in which they are enumerated, with the arrays the allocator hands out for them. -/
structure Remote where
  api : OvirtApi
  vms : List OvirtVm
  domains : List OvirtStorageDomain
  cdroms : List OvirtCdrom
  file : Option CString
  heap : Heap
  files : List OvirtResource

/-- The successful completion with which the remote service answers a call. -/
def Remote.answer (remote : Remote) : Call → Completion
  | Call.fetch_api _ _ => Completion.api_fetched (some remote.api) none
  | Call.fetch_vms _ _ _ => Completion.vms_fetched remote.vms none
  | Call.refresh_host _ _ => Completion.host_fetched none
  | Call.refresh_cluster _ _ => Completion.cluster_fetched none
  | Call.refresh_data_center _ _ => Completion.data_center_fetched none
  | Call.fetch_storage_domains _ _ => Completion.storage_domains_fetched remote.domains none
  | Call.fetch_cdroms _ _ => Completion.cdroms_fetched remote.cdroms none
  | Call.refresh_cdrom _ _ => Completion.cdrom_file_refreshed remote.file none
  | Call.fetch_iso_list _ _ => Completion.iso_list_fetched remote.heap remote.files none
  | Call.update_cdrom _ _ _ => Completion.iso_name_set true none

/-- The run in which the remote service answers the outstanding calls one after the other,
the oldest first, until nothing is outstanding or `fuel` calls have been answered. -/
def drive (K : Govirt) (remote : Remote) : Nat → Sys → Option Sys
  | 0, s => some s
  | fuel + 1, s =>
    match s.pending with
    | [] => some s
    | call :: _ =>
      (step K s (Event.completed call (remote.answer call))).bind (drive K remote fuel)

/-- The vm that the pipeline works with: the one of the cache, or else the first vm of the
remote service with the identifier looked for. -/
def expected_vm (remote : Remote) (menu : OvirtForeignMenu) : Option OvirtVm :=
  match menu.vm with
  | some vm => some vm
  | none => remote.vms.find? (fun vm => decide (g_strcmp0 vm.guid menu.vm_guid = 0))

/-- The host that the pipeline works with: the one of the cache, or else the host of the
vm. -/
def expected_host (remote : Remote) (menu : OvirtForeignMenu) : Option OvirtHost :=
  match menu.host with
  | some host => some host
  | none => (expected_vm remote menu).bind (fun vm => vm.host)

/-- The cluster that the pipeline works with: the one of the cache, or else the cluster of
the host. -/
def expected_cluster (remote : Remote) (menu : OvirtForeignMenu) : Option OvirtCluster :=
  match menu.cluster with
  | some cluster => some cluster
  | none => (expected_host remote menu).bind (fun host => host.cluster)

/-- The data center that the pipeline works with: the one of the cache, or else the data
center of the cluster. -/
def expected_data_center (remote : Remote) (menu : OvirtForeignMenu) :
    Option OvirtDataCenter :=
  match menu.data_center with
  | some data_center => some data_center
  | none => (expected_cluster remote menu).bind (fun cluster => cluster.data_center)

/-- Every call of a run from START on `menu` can succeed with the remote service `remote` and
every selection finds a result: the menu has its proxy; a vm, a host, a cluster and a data
center are in the cache or are found, each from the one before; when the cache has no file
collection the storage domain selected among those of the remote service, for that data
center, has one; when the cache has no cdrom the remote service has one. -/
def cooperative (K : Govirt) (remote : Remote) (menu : OvirtForeignMenu) : Prop :=
  menu.proxy ≠ none
    ∧ expected_vm remote menu ≠ none
    ∧ expected_host remote menu ≠ none
    ∧ expected_cluster remote menu ≠ none
    ∧ expected_data_center remote menu ≠ none
    ∧ (menu.files = none →
        storage_domain_get_files K
          (storage_domains_loop K
            { menu with data_center := expected_data_center remote menu } remote.domains)
          ≠ none)
    ∧ (menu.cdrom = none → remote.cdroms ≠ [])

/-- The number of the seven cache fields that are empty. -/
def empty_fields (menu : OvirtForeignMenu) : Nat :=
  (cached_stages.filter (field_empty menu)).length

/-- The stages whose call a run from START on `menu` is to issue, in order: the stages whose
cache field is empty, then CDROM_FILE and ISOS. -/
def stages_to_run (menu : OvirtForeignMenu) : List OvirtForeignMenuState :=
  cached_stages.filter (field_empty menu)
    ++ [OvirtForeignMenuState.STATE_CDROM_FILE, OvirtForeignMenuState.STATE_ISOS]

/-- The state of a run in which the calls `issued` have been issued and completed, no task
has been completed, and a piece of the pipeline has just run with the outcome `o`. -/
def Sys.resumed (issued : List Call) (o : Outcome) : Sys :=
  { menu := o.menu, pending := o.calls, issued := issued ++ o.calls, returns := o.returns }

/-- From the state `Sys.resumed issued o`, the remote service answering, the run ends after
one answer per stage of `stages`: the calls of these stages have been issued, in this order,
nothing is outstanding, and the one task completed is `task`, with the list of the menu. -/
def completes (K : Govirt) (remote : Remote) (task : GTask)
    (stages : List OvirtForeignMenuState) (issued : List Call) (o : Outcome) : Prop :=
  ∃ s, drive K remote stages.length (Sys.resumed issued o) = some s
    ∧ s.pending = []
    ∧ s.issued.map Call.stage = issued.map Call.stage ++ stages.map some
    ∧ s.returns = [(task, TaskResult.pointer s.menu.iso_names)]

/-- A remote service for the examples: the vm `vm-42`, one valid storage domain of type ISO,
one cdrom with no file inserted, and the files `a.iso` and `b.iso`. -/
def example_remote : Remote :=
  { api := { href := ascii "/api" }, vms := [example_vm], domains := [example_domain_iso],
    cdroms := [example_cdrom], file := none, heap := example_heap 0x55d0c8a412a0,
    files := [example_file "a.iso" "id-a", example_file "b.iso" "id-b"] }

/-! ## Properties of the GLib functions -/

theorem strcmp_eq_zero_iff (a b : CString) : strcmp a b = 0 ↔ a = b := by
  induction a generalizing b with
  | nil => cases b <;> simp [strcmp]
  | cons x xs ih =>
    cases b with
    | nil => simp [strcmp]
    | cons y ys =>
      simp only [strcmp]
      by_cases h1 : x < y
      · simp [h1]; intro h; omega
      · by_cases h2 : y < x
        · simp [h1, h2]; intro h; omega
        · have : x = y := by omega
          simp [h1, h2, ih, this]

theorem g_str_has_suffix_iff (str suffix : CString) :
    g_str_has_suffix (some str) (some suffix) = true ↔ suffix <:+ str := by
  unfold g_str_has_suffix
  by_cases h : str.length < suffix.length
  · simp only [h, if_true]
    constructor
    · intro h0; cases h0
    · intro hs
      have := hs.length_le
      omega
  · simp only [h, if_false, decide_eq_true_eq, strcmp_eq_zero_iff]
    rw [List.suffix_iff_eq_drop]
    exact eq_comm

theorem g_strv_contains_iff (strv : List CString) (str : CString) :
    g_strv_contains (some strv) (some str) = true ↔ str ∈ strv := by
  simp [g_strv_contains, strcmp_eq_zero_iff]

theorem g_list_insert_sorted_perm {α : Type} (list : List α) (data : α) (func : α → α → Int) :
    (g_list_insert_sorted list data func).Perm (data :: list) := by
  induction list with
  | nil => simp [g_list_insert_sorted]
  | cons x rest ih =>
    unfold g_list_insert_sorted
    split
    · exact (List.Perm.cons x ih).trans (List.Perm.swap data x rest)
    · exact List.Perm.refl _

/-! ## The storage domain selection: properties -/

theorem storage_domain_validate_type (K : Govirt) (menu : OvirtForeignMenu)
    (domain : OvirtStorageDomain) (h : storage_domain_validate K menu domain = true) :
    domain.type = K.OVIRT_STORAGE_DOMAIN_TYPE_ISO
      ∨ domain.type = K.OVIRT_STORAGE_DOMAIN_TYPE_DATA := by
  unfold storage_domain_validate at h
  by_contra hne
  push_neg at hne
  simp [hne.1, hne.2] at h

theorem storage_domains_loop_from_iso (K : Govirt) (menu : OvirtForeignMenu)
    (hK : K.OVIRT_STORAGE_DOMAIN_TYPE_DATA < K.OVIRT_STORAGE_DOMAIN_TYPE_ISO)
    (domains : List OvirtStorageDomain) (v : OvirtStorageDomain)
    (hv : v.type = K.OVIRT_STORAGE_DOMAIN_TYPE_ISO) :
    domains.foldl (storage_domains_body K menu) (some v) = some v := by
  induction domains with
  | nil => rfl
  | cons d rest ih =>
    simp only [List.foldl_cons]
    have hstep : storage_domains_body K menu (some v) d = some v := by
      unfold storage_domains_body
      by_cases hval : storage_domain_validate K menu d = true
      · rcases storage_domain_validate_type K menu d hval with ht | ht
        · simp [hval, ht, hv]
        · simp [hval, ht, hv]; omega
      · simp [hval]
    rw [hstep]; exact ih

theorem storage_domains_loop_from_data (K : Govirt) (menu : OvirtForeignMenu)
    (hK : K.OVIRT_STORAGE_DOMAIN_TYPE_DATA < K.OVIRT_STORAGE_DOMAIN_TYPE_ISO)
    (domains : List OvirtStorageDomain) (v : OvirtStorageDomain)
    (hv : v.type = K.OVIRT_STORAGE_DOMAIN_TYPE_DATA) :
    domains.foldl (storage_domains_body K menu) (some v)
      = match domains.find? (valid_of_type K menu K.OVIRT_STORAGE_DOMAIN_TYPE_ISO) with
        | some d => some d
        | none => some v := by
  induction domains with
  | nil => rfl
  | cons d rest ih =>
    simp only [List.foldl_cons, List.find?_cons]
    by_cases hval : storage_domain_validate K menu d = true
    · rcases storage_domain_validate_type K menu d hval with ht | ht
      · have hstep : storage_domains_body K menu (some v) d = some d := by
          unfold storage_domains_body
          simp [hval, ht, hv, hK]
        have hfind : valid_of_type K menu K.OVIRT_STORAGE_DOMAIN_TYPE_ISO d = true := by
          simp [valid_of_type, hval, ht]
        rw [hstep, hfind]
        exact storage_domains_loop_from_iso K menu hK rest d ht
      · have hstep : storage_domains_body K menu (some v) d = some v := by
          unfold storage_domains_body
          simp [hval, ht, hv]
        have hfind : valid_of_type K menu K.OVIRT_STORAGE_DOMAIN_TYPE_ISO d = false := by
          simp [valid_of_type, hval, ht]; omega
        rw [hstep, hfind]; exact ih
    · have hstep : storage_domains_body K menu (some v) d = some v := by
        unfold storage_domains_body
        simp [hval]
      have hfind : valid_of_type K menu K.OVIRT_STORAGE_DOMAIN_TYPE_ISO d = false := by
        simp [valid_of_type, hval]
      rw [hstep, hfind]; exact ih

theorem storage_domains_loop_eq_select (K : Govirt) (menu : OvirtForeignMenu)
    (hK : K.OVIRT_STORAGE_DOMAIN_TYPE_DATA < K.OVIRT_STORAGE_DOMAIN_TYPE_ISO)
    (domains : List OvirtStorageDomain) :
    storage_domains_loop K menu domains = select_domain K menu domains := by
  unfold storage_domains_loop select_domain
  induction domains with
  | nil => rfl
  | cons d rest ih =>
    simp only [List.foldl_cons, List.find?_cons]
    by_cases hval : storage_domain_validate K menu d = true
    · have hstep : storage_domains_body K menu none d = some d := by
        unfold storage_domains_body
        simp [hval]
      rw [hstep]
      rcases storage_domain_validate_type K menu d hval with ht | ht
      · have hfind : valid_of_type K menu K.OVIRT_STORAGE_DOMAIN_TYPE_ISO d = true := by
          simp [valid_of_type, hval, ht]
        rw [hfind]
        exact storage_domains_loop_from_iso K menu hK rest d ht
      · have hfind : valid_of_type K menu K.OVIRT_STORAGE_DOMAIN_TYPE_ISO d = false := by
          simp [valid_of_type, hval, ht]; omega
        have hfind2 : valid_of_type K menu K.OVIRT_STORAGE_DOMAIN_TYPE_DATA d = true := by
          simp [valid_of_type, hval, ht]
        rw [hfind, hfind2, storage_domains_loop_from_data K menu hK rest d ht]
    · have hstep : storage_domains_body K menu none d = none := by
        unfold storage_domains_body
        simp [hval]
      have hfind : valid_of_type K menu K.OVIRT_STORAGE_DOMAIN_TYPE_ISO d = false := by
        simp [valid_of_type, hval]
      have hfind2 : valid_of_type K menu K.OVIRT_STORAGE_DOMAIN_TYPE_DATA d = false := by
        simp [valid_of_type, hval]
      rw [hstep, hfind, hfind2]; exact ih

/-! ## The stage sequencer: what an invocation changes and issues -/

theorem case_STATE_CDROM_FILE_menu (menu : OvirtForeignMenu) (task : GTask) :
    (case_STATE_CDROM_FILE menu task).menu = menu := by
  unfold case_STATE_CDROM_FILE ovirt_foreign_menu_refresh_cdrom_file_async
  split <;> rfl

theorem case_STATE_VM_CDROM_menu (menu : OvirtForeignMenu) (task : GTask) :
    (case_STATE_VM_CDROM menu task).menu = menu := by
  unfold case_STATE_VM_CDROM
  split
  · rfl
  · exact case_STATE_CDROM_FILE_menu menu task

theorem case_STATE_STORAGE_DOMAIN_menu (menu : OvirtForeignMenu) (task : GTask) :
    (case_STATE_STORAGE_DOMAIN menu task).menu = menu := by
  unfold case_STATE_STORAGE_DOMAIN
  split
  · unfold ovirt_foreign_menu_fetch_storage_domain_async
    split
    · rfl
    · split <;> rfl
  · exact case_STATE_VM_CDROM_menu menu task

theorem case_STATE_ISOS_menu (menu : OvirtForeignMenu) (task : GTask) :
    (case_STATE_ISOS menu task).menu = menu := by
  unfold case_STATE_ISOS ovirt_foreign_menu_fetch_iso_list_async
  split <;> rfl

theorem only_fills_refs_refl (menu : OvirtForeignMenu) : only_fills_refs menu menu := by
  simp [only_fills_refs]

theorem case_STATE_DATA_CENTER_menu (menu : OvirtForeignMenu) (task : GTask) :
    only_fills_refs menu (case_STATE_DATA_CENTER menu task).menu := by
  unfold case_STATE_DATA_CENTER
  split
  · rename_i h
    unfold ovirt_foreign_menu_fetch_data_center_async
    split
    · exact only_fills_refs_refl menu
    · split
      · exact only_fills_refs_refl menu
      · simp [only_fills_refs, Outcome.issue, h]
  · rw [case_STATE_STORAGE_DOMAIN_menu]; exact only_fills_refs_refl menu

theorem case_STATE_CLUSTER_menu (menu : OvirtForeignMenu) (task : GTask) :
    only_fills_refs menu (case_STATE_CLUSTER menu task).menu := by
  unfold case_STATE_CLUSTER
  split
  · rename_i h
    unfold ovirt_foreign_menu_fetch_cluster_async
    split
    · exact only_fills_refs_refl menu
    · split
      · exact only_fills_refs_refl menu
      · simp [only_fills_refs, Outcome.issue, h]
  · exact case_STATE_DATA_CENTER_menu menu task

theorem case_STATE_HOST_menu (menu : OvirtForeignMenu) (task : GTask) :
    only_fills_refs menu (case_STATE_HOST menu task).menu := by
  unfold case_STATE_HOST
  split
  · rename_i h
    unfold ovirt_foreign_menu_fetch_host_async
    split
    · exact only_fills_refs_refl menu
    · split
      · exact only_fills_refs_refl menu
      · simp [only_fills_refs, Outcome.issue, h]
  · exact case_STATE_CLUSTER_menu menu task

theorem case_STATE_VM_menu (menu : OvirtForeignMenu) (task : GTask) :
    only_fills_refs menu (case_STATE_VM menu task).menu := by
  unfold case_STATE_VM
  split
  · unfold ovirt_foreign_menu_fetch_vm_async
    split
    · exact only_fills_refs_refl menu
    · split <;> exact only_fills_refs_refl menu
  · exact case_STATE_HOST_menu menu task

theorem case_STATE_API_menu (menu : OvirtForeignMenu) (task : GTask) :
    only_fills_refs menu (case_STATE_API menu task).menu := by
  unfold case_STATE_API
  split
  · unfold ovirt_foreign_menu_fetch_api_async
    split <;> exact only_fills_refs_refl menu
  · exact case_STATE_VM_menu menu task

theorem next_async_step_menu (K : Govirt) (menu : OvirtForeignMenu) (task : GTask)
    (current : OvirtForeignMenuState) :
    only_fills_refs menu (ovirt_foreign_menu_next_async_step K menu task current).menu := by
  cases current
  · exact case_STATE_API_menu menu task
  · exact case_STATE_VM_menu menu task
  · exact case_STATE_HOST_menu menu task
  · exact case_STATE_CLUSTER_menu menu task
  · exact case_STATE_DATA_CENTER_menu menu task
  · show only_fills_refs menu (case_STATE_STORAGE_DOMAIN menu task).menu
    rw [case_STATE_STORAGE_DOMAIN_menu]; exact only_fills_refs_refl menu
  · show only_fills_refs menu (case_STATE_VM_CDROM menu task).menu
    rw [case_STATE_VM_CDROM_menu]; exact only_fills_refs_refl menu
  · show only_fills_refs menu (case_STATE_CDROM_FILE menu task).menu
    rw [case_STATE_CDROM_FILE_menu]; exact only_fills_refs_refl menu
  · show only_fills_refs menu (case_STATE_ISOS menu task).menu
    rw [case_STATE_ISOS_menu]; exact only_fills_refs_refl menu
  · exact only_fills_refs_refl menu

theorem case_STATE_CDROM_FILE_issues (menu : OvirtForeignMenu) (task : GTask) :
    issues_stage menu task OvirtForeignMenuState.STATE_CDROM_FILE
      (case_STATE_CDROM_FILE menu task) := by
  unfold case_STATE_CDROM_FILE ovirt_foreign_menu_refresh_cdrom_file_async issues_stage
  by_cases h : menu.cdrom = none <;>
    simp [h, Outcome.idle, Outcome.issue, stage_ready, Call.stage, Call.task]

theorem case_STATE_VM_CDROM_issues (menu : OvirtForeignMenu) (task : GTask) :
    issues_stage menu task
      (first_empty_in menu [OvirtForeignMenuState.STATE_VM_CDROM])
      (case_STATE_VM_CDROM menu task) := by
  unfold case_STATE_VM_CDROM
  by_cases h : menu.cdrom = none
  · simp [h, first_empty_in, field_empty, issues_stage, ovirt_foreign_menu_fetch_vm_cdrom_async,
      Outcome.issue, stage_ready, Call.stage, Call.task]
  · have := case_STATE_CDROM_FILE_issues menu task
    simpa [h, first_empty_in, field_empty] using this

theorem case_STATE_STORAGE_DOMAIN_issues (menu : OvirtForeignMenu) (task : GTask) :
    issues_stage menu task
      (first_empty_in menu [OvirtForeignMenuState.STATE_STORAGE_DOMAIN,
        OvirtForeignMenuState.STATE_VM_CDROM])
      (case_STATE_STORAGE_DOMAIN menu task) := by
  unfold case_STATE_STORAGE_DOMAIN
  by_cases h : menu.files = none
  · unfold ovirt_foreign_menu_fetch_storage_domain_async
    by_cases hp : menu.proxy = none
    · simp [h, hp, first_empty_in, field_empty, issues_stage, Outcome.idle, stage_ready]
    · cases hd : menu.data_center <;>
        simp [h, hp, hd, first_empty_in, field_empty, issues_stage, Outcome.idle, Outcome.issue,
          stage_ready, Call.stage, Call.task]
  · have := case_STATE_VM_CDROM_issues menu task
    simpa [h, first_empty_in, field_empty] using this

theorem case_STATE_DATA_CENTER_issues (menu : OvirtForeignMenu) (task : GTask) :
    issues_stage menu task
      (first_empty_in menu [OvirtForeignMenuState.STATE_DATA_CENTER,
        OvirtForeignMenuState.STATE_STORAGE_DOMAIN, OvirtForeignMenuState.STATE_VM_CDROM])
      (case_STATE_DATA_CENTER menu task) := by
  unfold case_STATE_DATA_CENTER
  by_cases h : menu.data_center = none
  · unfold ovirt_foreign_menu_fetch_data_center_async
    by_cases hp : menu.proxy = none
    · simp [h, hp, first_empty_in, field_empty, issues_stage, Outcome.idle, stage_ready]
    · cases hd : menu.cluster <;>
        simp [h, hp, hd, first_empty_in, field_empty, issues_stage, Outcome.idle, Outcome.issue,
          stage_ready, Call.stage, Call.task]
  · have := case_STATE_STORAGE_DOMAIN_issues menu task
    simpa [h, first_empty_in, field_empty] using this

theorem case_STATE_CLUSTER_issues (menu : OvirtForeignMenu) (task : GTask) :
    issues_stage menu task
      (first_empty_in menu [OvirtForeignMenuState.STATE_CLUSTER,
        OvirtForeignMenuState.STATE_DATA_CENTER,
        OvirtForeignMenuState.STATE_STORAGE_DOMAIN, OvirtForeignMenuState.STATE_VM_CDROM])
      (case_STATE_CLUSTER menu task) := by
  unfold case_STATE_CLUSTER
  by_cases h : menu.cluster = none
  · unfold ovirt_foreign_menu_fetch_cluster_async
    by_cases hp : menu.proxy = none
    · simp [h, hp, first_empty_in, field_empty, issues_stage, Outcome.idle, stage_ready]
    · cases hd : menu.host <;>
        simp [h, hp, hd, first_empty_in, field_empty, issues_stage, Outcome.idle, Outcome.issue,
          stage_ready, Call.stage, Call.task]
  · have := case_STATE_DATA_CENTER_issues menu task
    simpa [h, first_empty_in, field_empty] using this

theorem case_STATE_HOST_issues (menu : OvirtForeignMenu) (task : GTask) :
    issues_stage menu task
      (first_empty_in menu [OvirtForeignMenuState.STATE_HOST,
        OvirtForeignMenuState.STATE_CLUSTER, OvirtForeignMenuState.STATE_DATA_CENTER,
        OvirtForeignMenuState.STATE_STORAGE_DOMAIN, OvirtForeignMenuState.STATE_VM_CDROM])
      (case_STATE_HOST menu task) := by
  unfold case_STATE_HOST
  by_cases h : menu.host = none
  · unfold ovirt_foreign_menu_fetch_host_async
    by_cases hp : menu.proxy = none
    · simp [h, hp, first_empty_in, field_empty, issues_stage, Outcome.idle, stage_ready]
    · cases hd : menu.vm <;>
        simp [h, hp, hd, first_empty_in, field_empty, issues_stage, Outcome.idle, Outcome.issue,
          stage_ready, Call.stage, Call.task]
  · have := case_STATE_CLUSTER_issues menu task
    simpa [h, first_empty_in, field_empty] using this

theorem case_STATE_VM_issues (menu : OvirtForeignMenu) (task : GTask) :
    issues_stage menu task
      (first_empty_in menu [OvirtForeignMenuState.STATE_VM, OvirtForeignMenuState.STATE_HOST,
        OvirtForeignMenuState.STATE_CLUSTER, OvirtForeignMenuState.STATE_DATA_CENTER,
        OvirtForeignMenuState.STATE_STORAGE_DOMAIN, OvirtForeignMenuState.STATE_VM_CDROM])
      (case_STATE_VM menu task) := by
  unfold case_STATE_VM
  by_cases h : menu.vm = none
  · unfold ovirt_foreign_menu_fetch_vm_async
    by_cases hp : menu.proxy = none
    · simp [h, hp, first_empty_in, field_empty, issues_stage, Outcome.idle, stage_ready]
    · by_cases hd : menu.api = none <;>
        simp [h, hp, hd, first_empty_in, field_empty, issues_stage, Outcome.idle, Outcome.issue,
          stage_ready, Call.stage, Call.task]
  · have := case_STATE_HOST_issues menu task
    simpa [h, first_empty_in, field_empty] using this

theorem case_STATE_API_issues (menu : OvirtForeignMenu) (task : GTask) :
    issues_stage menu task
      (first_empty_in menu cached_stages)
      (case_STATE_API menu task) := by
  unfold case_STATE_API
  by_cases h : menu.api = none
  · unfold ovirt_foreign_menu_fetch_api_async
    by_cases hp : menu.proxy = none <;>
      simp [h, hp, first_empty_in, cached_stages, field_empty, issues_stage, Outcome.idle,
        Outcome.issue, stage_ready, Call.stage, Call.task]
  · have := case_STATE_VM_issues menu task
    simpa [h, first_empty_in, cached_stages, field_empty] using this

theorem ready_from_VM_CDROM (menu : OvirtForeignMenu) :
    stage_ready menu (first_empty_in menu [OvirtForeignMenuState.STATE_VM_CDROM]) = true := by
  by_cases h : menu.cdrom = none <;> simp [h, first_empty_in, field_empty, stage_ready]

theorem ready_from_STORAGE_DOMAIN (menu : OvirtForeignMenu) (hp : menu.proxy ≠ none)
    (hprev : menu.data_center ≠ none) :
    stage_ready menu (first_empty_in menu [OvirtForeignMenuState.STATE_STORAGE_DOMAIN,
      OvirtForeignMenuState.STATE_VM_CDROM]) = true := by
  by_cases h : menu.files = none
  · simp [h, hp, hprev, first_empty_in, field_empty, stage_ready]
  · have := ready_from_VM_CDROM menu
    simpa [h, first_empty_in, field_empty] using this

theorem ready_from_DATA_CENTER (menu : OvirtForeignMenu) (hp : menu.proxy ≠ none)
    (hprev : menu.cluster ≠ none) :
    stage_ready menu (first_empty_in menu [OvirtForeignMenuState.STATE_DATA_CENTER,
      OvirtForeignMenuState.STATE_STORAGE_DOMAIN,
      OvirtForeignMenuState.STATE_VM_CDROM]) = true := by
  by_cases h : menu.data_center = none
  · simp [h, hp, hprev, first_empty_in, field_empty, stage_ready]
  · have := ready_from_STORAGE_DOMAIN menu hp h
    simpa [h, first_empty_in, field_empty] using this

theorem ready_from_CLUSTER (menu : OvirtForeignMenu) (hp : menu.proxy ≠ none)
    (hprev : menu.host ≠ none) :
    stage_ready menu (first_empty_in menu [OvirtForeignMenuState.STATE_CLUSTER,
      OvirtForeignMenuState.STATE_DATA_CENTER, OvirtForeignMenuState.STATE_STORAGE_DOMAIN,
      OvirtForeignMenuState.STATE_VM_CDROM]) = true := by
  by_cases h : menu.cluster = none
  · simp [h, hp, hprev, first_empty_in, field_empty, stage_ready]
  · have := ready_from_DATA_CENTER menu hp h
    simpa [h, first_empty_in, field_empty] using this

theorem ready_from_HOST (menu : OvirtForeignMenu) (hp : menu.proxy ≠ none)
    (hprev : menu.vm ≠ none) :
    stage_ready menu (first_empty_in menu [OvirtForeignMenuState.STATE_HOST,
      OvirtForeignMenuState.STATE_CLUSTER,
      OvirtForeignMenuState.STATE_DATA_CENTER, OvirtForeignMenuState.STATE_STORAGE_DOMAIN,
      OvirtForeignMenuState.STATE_VM_CDROM]) = true := by
  by_cases h : menu.host = none
  · simp [h, hp, hprev, first_empty_in, field_empty, stage_ready]
  · have := ready_from_CLUSTER menu hp h
    simpa [h, first_empty_in, field_empty] using this

theorem ready_from_VM (menu : OvirtForeignMenu) (hp : menu.proxy ≠ none)
    (hprev : menu.api ≠ none) :
    stage_ready menu (first_empty_in menu [OvirtForeignMenuState.STATE_VM,
      OvirtForeignMenuState.STATE_HOST, OvirtForeignMenuState.STATE_CLUSTER,
      OvirtForeignMenuState.STATE_DATA_CENTER, OvirtForeignMenuState.STATE_STORAGE_DOMAIN,
      OvirtForeignMenuState.STATE_VM_CDROM]) = true := by
  by_cases h : menu.vm = none
  · simp [h, hp, hprev, first_empty_in, field_empty, stage_ready]
  · have := ready_from_HOST menu hp h
    simpa [h, first_empty_in, field_empty] using this

theorem ready_from_API (menu : OvirtForeignMenu) (hp : menu.proxy ≠ none) :
    stage_ready menu (first_empty_in menu cached_stages) = true := by
  by_cases h : menu.api = none
  · simp [h, hp, first_empty_in, cached_stages, field_empty, stage_ready]
  · have := ready_from_VM menu hp h
    simpa [h, first_empty_in, cached_stages, field_empty] using this

theorem next_async_step_issues (K : Govirt) (menu : OvirtForeignMenu) (task : GTask)
    (current : OvirtForeignMenuState)
    (hcur : current.toNat ≤ OvirtForeignMenuState.STATE_STORAGE_DOMAIN.toNat) :
    issues_stage menu task (first_unresolved menu current)
      (ovirt_foreign_menu_next_async_step K menu task current) := by
  cases current <;> simp [OvirtForeignMenuState.toNat] at hcur
  · exact case_STATE_API_issues menu task
  · exact case_STATE_VM_issues menu task
  · exact case_STATE_HOST_issues menu task
  · exact case_STATE_CLUSTER_issues menu task
  · exact case_STATE_DATA_CENTER_issues menu task
  · exact case_STATE_STORAGE_DOMAIN_issues menu task
  · exact case_STATE_VM_CDROM_issues menu task

theorem next_async_step_ready (menu : OvirtForeignMenu)
    (current : OvirtForeignMenuState)
    (hcur : current.toNat ≤ OvirtForeignMenuState.STATE_STORAGE_DOMAIN.toNat)
    (hp : menu.proxy ≠ none)
    (hdone : ∀ s ∈ cached_stages, s.toNat ≤ current.toNat → field_empty menu s = false) :
    stage_ready menu (first_unresolved menu current) = true := by
  cases current <;> simp [OvirtForeignMenuState.toNat] at hcur
  · exact ready_from_API menu hp
  · exact ready_from_VM menu hp (by
      have := hdone OvirtForeignMenuState.STATE_API (by simp [cached_stages])
        (by simp [OvirtForeignMenuState.toNat])
      simpa [field_empty] using this)
  · exact ready_from_HOST menu hp (by
      have := hdone OvirtForeignMenuState.STATE_VM (by simp [cached_stages])
        (by simp [OvirtForeignMenuState.toNat])
      simpa [field_empty] using this)
  · exact ready_from_CLUSTER menu hp (by
      have := hdone OvirtForeignMenuState.STATE_HOST (by simp [cached_stages])
        (by simp [OvirtForeignMenuState.toNat])
      simpa [field_empty] using this)
  · exact ready_from_DATA_CENTER menu hp (by
      have := hdone OvirtForeignMenuState.STATE_CLUSTER (by simp [cached_stages])
        (by simp [OvirtForeignMenuState.toNat])
      simpa [field_empty] using this)
  · exact ready_from_STORAGE_DOMAIN menu hp (by
      have := hdone OvirtForeignMenuState.STATE_DATA_CENTER (by simp [cached_stages])
        (by simp [OvirtForeignMenuState.toNat])
      simpa [field_empty] using this)
  · exact ready_from_VM_CDROM menu

theorem only_fills_refs_keeps (menu menu1 : OvirtForeignMenu) (h : only_fills_refs menu menu1) :
    keeps_populated menu menu1 := by
  obtain ⟨h1, h2, h3, h4, h5, h6, h7, h8, h9, h10, h11, h12⟩ := h
  refine ⟨?_, ?_, ?_, ?_, ?_, ?_, ?_, ?_, ?_, ?_, ?_, ?_⟩ <;> intro _ <;> first
    | assumption
    | (apply h10; assumption)
    | (apply h11; assumption)
    | (apply h12; assumption)

theorem first_empty_in_field (menu : OvirtForeignMenu) (stages : List OvirtForeignMenuState)
    (h : first_empty_in menu stages ≠ OvirtForeignMenuState.STATE_CDROM_FILE) :
    field_empty menu (first_empty_in menu stages) = true
      ∧ first_empty_in menu stages ∈ stages := by
  unfold first_empty_in at h ⊢
  cases hf : stages.find? (field_empty menu) with
  | none => simp [hf] at h
  | some st =>
    simp only [Option.getD_some]
    exact ⟨by simpa using List.find?_some hf, List.mem_of_find?_eq_some hf⟩

theorem first_unresolved_mem (menu : OvirtForeignMenu) (current : OvirtForeignMenuState) :
    first_unresolved menu current = OvirtForeignMenuState.STATE_CDROM_FILE
      ∨ (field_empty menu (first_unresolved menu current) = true
          ∧ first_unresolved menu current ∈ cached_stages) := by
  by_cases h : first_unresolved menu current = OvirtForeignMenuState.STATE_CDROM_FILE
  · exact Or.inl h
  · right
    have := first_empty_in_field menu _ h
    exact ⟨this.1, (List.mem_filter.mp this.2).1⟩

theorem case_STATE_CDROM_FILE_calls (menu : OvirtForeignMenu) (task : GTask) :
    (case_STATE_CDROM_FILE menu task).returns = []
      ∧ ((case_STATE_CDROM_FILE menu task).calls = []
        ∨ (case_STATE_CDROM_FILE menu task).calls = [Call.refresh_cdrom task menu.cdrom]) := by
  unfold case_STATE_CDROM_FILE ovirt_foreign_menu_refresh_cdrom_file_async
  split <;> simp [Outcome.idle, Outcome.issue]

theorem case_STATE_ISOS_calls (menu : OvirtForeignMenu) (task : GTask) :
    (case_STATE_ISOS menu task).returns = []
      ∧ ((case_STATE_ISOS menu task).calls = []
        ∨ (case_STATE_ISOS menu task).calls = [Call.fetch_iso_list task menu.files]) := by
  unfold case_STATE_ISOS ovirt_foreign_menu_fetch_iso_list_async
  split <;> simp [Outcome.idle, Outcome.issue]

theorem next_async_step_call (K : Govirt) (menu : OvirtForeignMenu) (task : GTask)
    (current : OvirtForeignMenuState) (call : Call)
    (h : (ovirt_foreign_menu_next_async_step K menu task current).calls = [call]) :
    call.task = task ∧ call.stage ≠ none
      ∧ (∀ t p, call = Call.fetch_api t p → menu.api = none) := by
  by_cases hcur : current.toNat ≤ OvirtForeignMenuState.STATE_STORAGE_DOMAIN.toNat
  · have hi := next_async_step_issues K menu task current hcur
    cases hr : stage_ready menu (first_unresolved menu current) with
    | false => rw [hi.2.2 hr] at h; cases h
    | true =>
      obtain ⟨c, hc, hst, ht⟩ := hi.2.1 hr
      rw [hc] at h
      cases h
      refine ⟨ht, by simp [hst], ?_⟩
      intro t p hcall
      subst hcall
      simp only [Call.stage, Option.some.injEq] at hst
      rcases first_unresolved_mem menu current with h1 | h1
      · rw [h1] at hst; cases hst
      · rw [← hst] at h1
        simpa [field_empty] using h1.1
  · cases current <;> simp [OvirtForeignMenuState.toNat] at hcur
    · have := case_STATE_CDROM_FILE_calls menu task
      rcases this.2 with h0 | h0
      · rw [show (ovirt_foreign_menu_next_async_step K menu task
            OvirtForeignMenuState.STATE_VM_CDROM).calls
            = (case_STATE_CDROM_FILE menu task).calls from rfl, h0] at h
        cases h
      · rw [show (ovirt_foreign_menu_next_async_step K menu task
            OvirtForeignMenuState.STATE_VM_CDROM).calls
            = (case_STATE_CDROM_FILE menu task).calls from rfl, h0] at h
        cases h
        exact ⟨rfl, by simp [Call.stage], by intro t p hc; cases hc⟩
    · have := case_STATE_ISOS_calls menu task
      rcases this.2 with h0 | h0
      · rw [show (ovirt_foreign_menu_next_async_step K menu task
            OvirtForeignMenuState.STATE_CDROM_FILE).calls
            = (case_STATE_ISOS menu task).calls from rfl, h0] at h
        cases h
      · rw [show (ovirt_foreign_menu_next_async_step K menu task
            OvirtForeignMenuState.STATE_CDROM_FILE).calls
            = (case_STATE_ISOS menu task).calls from rfl, h0] at h
        cases h
        exact ⟨rfl, by simp [Call.stage], by intro t p hc; cases hc⟩
    · simp [ovirt_foreign_menu_next_async_step, OvirtForeignMenuState.toNat, case_default,
        Outcome.finish] at h

theorem keeps_populated_trans (m1 m2 m3 : OvirtForeignMenu) (h12 : keeps_populated m1 m2)
    (h23 : keeps_populated m2 m3) : keeps_populated m1 m3 := by
  obtain ⟨a1, a2, a3, a4, a5, a6, a7, a8, a9, a10, a11, a12⟩ := h12
  obtain ⟨b1, b2, b3, b4, b5, b6, b7, b8, b9, b10, b11, b12⟩ := h23
  refine ⟨?_, ?_, ?_, ?_, ?_, ?_, ?_, ?_, ?_, ?_, ?_, ?_⟩
  · intro h; rw [← a1 h]; exact b1 (by rw [a1 h]; exact h)
  · intro h; rw [← a2 h]; exact b2 (by rw [a2 h]; exact h)
  · intro h; rw [← a3 h]; exact b3 (by rw [a3 h]; exact h)
  · intro h; rw [← a4 h]; exact b4 (by rw [a4 h]; exact h)
  · intro h; rw [← a5 h]; exact b5 (by rw [a5 h]; exact h)
  · intro h; rw [← a6 h]; exact b6 (by rw [a6 h]; exact h)
  · intro h; rw [← a7 h]; exact b7 (by rw [a7 h]; exact h)
  · intro h; rw [← a8 h]; exact b8 (by rw [a8 h]; exact h)
  · intro h; rw [← a9 h]; exact b9 (by rw [a9 h]; exact h)
  · intro h; rw [← a10 h]; exact b10 (by rw [a10 h]; exact h)
  · intro h; rw [← a11 h]; exact b11 (by rw [a11 h]; exact h)
  · intro h; rw [← a12 h]; exact b12 (by rw [a12 h]; exact h)

theorem keeps_populated_refl (m : OvirtForeignMenu) : keeps_populated m m := by
  simp [keeps_populated]

theorem complete_error (K : Govirt) (menu : OvirtForeignMenu) (call : Call) (c : Completion)
    (e : GError) (o : Outcome) (herr : c.error = some e)
    (hstage : call.stage ≠ none)
    (hapi : ∀ t p, call = Call.fetch_api t p → menu.api = none)
    (hcomp : complete K menu call c = some o) :
    o.returns = [(call.task, TaskResult.error e)] ∧ o.calls = [] ∧ keeps_populated menu o.menu := by
  cases call <;> cases c <;> simp only [complete, reduceCtorEq] at hcomp
  all_goals
    simp only [Completion.error] at herr
    subst herr
    simp only [Option.some.injEq] at hcomp
    subst hcomp
  case fetch_api.api_fetched t p api =>
    have := hapi t p rfl
    simp [api_fetched_cb, Outcome.finish, Call.task, keeps_populated, this]
  case fetch_vms.vms_fetched =>
    simp [vms_fetched_cb, Outcome.finish, Call.task, keeps_populated_refl]
  case refresh_host.host_fetched =>
    simp [host_fetched_cb, Outcome.finish, Call.task, keeps_populated_refl]
  case refresh_cluster.cluster_fetched =>
    simp [cluster_fetched_cb, Outcome.finish, Call.task, keeps_populated_refl]
  case refresh_data_center.data_center_fetched =>
    simp [data_center_fetched_cb, Outcome.finish, Call.task, keeps_populated_refl]
  case fetch_storage_domains.storage_domains_fetched =>
    simp [storage_domains_fetched_cb, Outcome.finish, Call.task, keeps_populated_refl]
  case fetch_cdroms.cdroms_fetched =>
    simp [cdroms_fetched_cb, Outcome.finish, Call.task, keeps_populated_refl]
  case refresh_cdrom.cdrom_file_refreshed =>
    simp [cdrom_file_refreshed_cb, Outcome.finish, Call.task, keeps_populated_refl]
  case fetch_iso_list.iso_list_fetched =>
    simp [iso_list_fetched_cb, Outcome.finish, Call.task, keeps_populated_refl]
  case update_cdrom.iso_name_set =>
    simp [Call.stage] at hstage

/-! ## The file list: properties -/

theorem g_str_has_suffix_iso (name : Option CString) :
    g_str_has_suffix name (some (ascii ".iso"))
      = match name with
        | some n => decide (ascii ".iso" <:+ n)
        | none => false := by
  cases name with
  | none => rfl
  | some n =>
    by_cases h : ascii ".iso" <:+ n
    · simp only [h, decide_True]
      exact (g_str_has_suffix_iff n _).mpr h
    · simp only [h, decide_False]
      cases hs : g_str_has_suffix (some n) (some (ascii ".iso")) with
      | false => rfl
      | true => exact absurd ((g_str_has_suffix_iff n _).mp hs) h

theorem is_iso_entry_iff (K : Govirt) (it : OvirtResource) :
    is_iso_entry K it = true ↔
      ¬ (K.HAVE_OVIRT_STORAGE_DOMAIN_GET_DISKS = true ∧ it.is_disk = true
          ∧ it.content_type ≠ K.OVIRT_DISK_CONTENT_TYPE_ISO)
      ∧ g_str_has_suffix it.name (some (ascii ".iso")) = true := by
  rw [g_str_has_suffix_iso]
  unfold is_iso_entry
  simp only [Bool.and_eq_true, Bool.or_eq_true, Bool.not_eq_true', Bool.and_eq_false_iff,
    decide_eq_true_eq, ne_eq, not_and, not_not]
  constructor
  · rintro ⟨h1, h2⟩
    refine ⟨?_, h1⟩
    intro hK hd
    rcases h2 with (h2 | h2) | h2
    · rw [hK] at h2; cases h2
    · rw [hd] at h2; cases h2
    · exact h2
  · rintro ⟨h1, h2⟩
    refine ⟨h2, ?_⟩
    by_cases hK : K.HAVE_OVIRT_STORAGE_DOMAIN_GET_DISKS = true
    · by_cases hd : it.is_disk = true
      · exact Or.inr (h1 hK hd)
      · exact Or.inl (Or.inr (by simpa using hd))
    · exact Or.inl (Or.inl (by simpa using hK))

theorem set_files_body_sorted (K : Govirt) (heap : Heap) (cur : Option CString)
    (s : SetFilesLoop) (it : OvirtResource) :
    (set_files_body K heap cur s it).sorted_files
      = if is_iso_entry K it = true then
          g_list_insert_sorted s.sorted_files (iso_info_new (heap s.allocated) it.name it.guid)
            g_strcmp0_strv
        else s.sorted_files := by
  have hiff := is_iso_entry_iff K it
  by_cases hA : K.HAVE_OVIRT_STORAGE_DOMAIN_GET_DISKS = true ∧ it.is_disk = true
      ∧ it.content_type ≠ K.OVIRT_DISK_CONTENT_TYPE_ISO
  · have hn : ¬ is_iso_entry K it = true := fun h => (hiff.mp h).1 hA
    rw [if_neg hn]
    unfold set_files_body
    dsimp only
    rw [if_pos hA]
  · by_cases hB : g_str_has_suffix it.name (some (ascii ".iso")) = true
    · have hy : is_iso_entry K it = true := hiff.mpr ⟨hA, hB⟩
      rw [if_pos hy]
      unfold set_files_body
      dsimp only
      rw [if_neg hA, if_neg (not_not.mpr hB)]
      split <;> rfl
    · have hn : ¬ is_iso_entry K it = true := fun h => hB (hiff.mp h).2
      rw [if_neg hn]
      unfold set_files_body
      dsimp only
      rw [if_neg hA, if_pos hB]

theorem iso_info_new_pair (image : CString) (it : OvirtResource) :
    (iso_info_new image it.name it.guid).pair = entry_pair it := by
  simp [iso_info_new, GStrv.pair, entry_pair]

theorem set_files_fold_perm (K : Govirt) (heap : Heap) (cur : Option CString)
    (files : List OvirtResource) (s : SetFilesLoop) :
    ((files.foldl (set_files_body K heap cur) s).sorted_files.map GStrv.pair).Perm
      (s.sorted_files.map GStrv.pair ++ (files.filter (is_iso_entry K)).map entry_pair) := by
  induction files generalizing s with
  | nil => simp
  | cons it rest ih =>
    simp only [List.foldl_cons]
    refine (ih _).trans ?_
    rw [set_files_body_sorted]
    by_cases h : is_iso_entry K it = true
    · simp only [h, if_true, List.filter_cons_of_pos, List.map_cons]
      have hp := (g_list_insert_sorted_perm s.sorted_files
        (iso_info_new (heap s.allocated) it.name it.guid) g_strcmp0_strv).map GStrv.pair
      rw [List.map_cons, iso_info_new_pair] at hp
      refine (List.Perm.append_right _ hp).trans ?_
      simp only [List.cons_append]
      exact List.perm_middle.symm
    · simp [h]

theorem set_files_keeps_iso_entries_aux (K : Govirt) (heap : Heap) (menu : OvirtForeignMenu)
    (files : List OvirtResource) :
    ((set_files_loop K heap menu files).sorted_files.map GStrv.pair).Perm
      ((files.filter (is_iso_entry K)).map entry_pair) := by
  have := set_files_fold_perm K heap (ovirt_foreign_menu_get_current_iso_name menu) files
    { sorted_files := [], menu := menu, allocated := 0 }
  simpa [set_files_loop] using this

/-! ## Runs of the pipeline: an invariant -/

theorem first_unresolved_ne_ISOS (menu : OvirtForeignMenu) (current : OvirtForeignMenuState) :
    first_unresolved menu current ≠ OvirtForeignMenuState.STATE_ISOS := by
  rcases first_unresolved_mem menu current with h | h
  · rw [h]; decide
  · intro he
    rw [he] at h
    simp [cached_stages] at h

theorem pipeline_shape_finish (task t : GTask) (b : Bool) (menu : OvirtForeignMenu) (e : GError) :
    pipeline_shape task b (Outcome.finish menu t (TaskResult.error e)) := by
  simp [pipeline_shape, Outcome.finish]

theorem pipeline_shape_idle (task : GTask) (b : Bool) (menu : OvirtForeignMenu) :
    pipeline_shape task b (Outcome.idle menu) := by
  simp [pipeline_shape, Outcome.idle]

theorem next_async_step_shape (K : Govirt) (menu : OvirtForeignMenu) (task : GTask)
    (current : OvirtForeignMenuState) :
    pipeline_shape task (decide (current = OvirtForeignMenuState.STATE_CDROM_FILE))
      (ovirt_foreign_menu_next_async_step K menu task current) := by
  by_cases hcur : current.toNat ≤ OvirtForeignMenuState.STATE_STORAGE_DOMAIN.toNat
  · have hi := next_async_step_issues K menu task current hcur
    refine ⟨?_, ?_, ?_⟩
    · cases hr : stage_ready menu (first_unresolved menu current) with
      | false => exact Or.inl (hi.2.2 hr)
      | true =>
        obtain ⟨c, hc, -, -⟩ := hi.2.1 hr
        exact Or.inr ⟨c, hc⟩
    · intro t f hcall
      cases hr : stage_ready menu (first_unresolved menu current) with
      | false => rw [hi.2.2 hr] at hcall; cases hcall
      | true =>
        obtain ⟨c, hc, hst, -⟩ := hi.2.1 hr
        rw [hc] at hcall
        cases hcall
        simp only [Call.stage, Option.some.injEq] at hst
        exact absurd hst.symm (first_unresolved_ne_ISOS menu current)
    · intro t l
      rw [hi.1]
      simp
  · cases current <;> simp [OvirtForeignMenuState.toNat] at hcur
    · have h := case_STATE_CDROM_FILE_calls menu task
      show pipeline_shape task _ (case_STATE_CDROM_FILE menu task)
      refine ⟨?_, ?_, ?_⟩
      · rcases h.2 with h0 | h0
        · exact Or.inl h0
        · exact Or.inr ⟨_, h0⟩
      · intro t f hc
        rcases h.2 with h0 | h0 <;> rw [h0] at hc <;> cases hc
      · intro t l; rw [h.1]; simp
    · have h := case_STATE_ISOS_calls menu task
      show pipeline_shape task _ (case_STATE_ISOS menu task)
      refine ⟨?_, ?_, ?_⟩
      · rcases h.2 with h0 | h0
        · exact Or.inl h0
        · exact Or.inr ⟨_, h0⟩
      · intro t f hc
        rcases h.2 with h0 | h0
        · rw [h0] at hc; cases hc
        · rw [h0] at hc; cases hc; exact ⟨by decide, rfl⟩
      · intro t l; rw [h.1]; simp
    · simp [pipeline_shape, ovirt_foreign_menu_next_async_step, OvirtForeignMenuState.toNat,
        case_default, Outcome.finish]

theorem pipeline_shape_weaken (task : GTask) (o : Outcome)
    (h : pipeline_shape task false o) (b : Bool) : pipeline_shape task b o := by
  refine ⟨h.1, ?_, h.2.2⟩
  intro t f hc
  have := (h.2.1 t f hc).1
  cases this

theorem complete_shape (K : Govirt) (menu : OvirtForeignMenu) (call : Call) (c : Completion)
    (o : Outcome) (hcomp : complete K menu call c = some o) :
    (o.calls = [] ∨ ∃ call1, o.calls = [call1])
    ∧ (∀ t f, o.calls = [Call.fetch_iso_list t f] → ∃ cd, call = Call.refresh_cdrom t cd)
    ∧ (∀ t l, (t, TaskResult.pointer l) ∈ o.returns →
        o.calls = [] ∧ ∃ f, call = Call.fetch_iso_list t f) := by
  have key : ∀ (task : GTask) (b : Bool), pipeline_shape task b o →
      (b = true → ∃ cd, call = Call.refresh_cdrom task cd) →
      (o.calls = [] ∨ ∃ call1, o.calls = [call1])
      ∧ (∀ t f, o.calls = [Call.fetch_iso_list t f] → ∃ cd, call = Call.refresh_cdrom t cd)
      ∧ (∀ t l, (t, TaskResult.pointer l) ∈ o.returns →
          o.calls = [] ∧ ∃ f, call = Call.fetch_iso_list t f) := by
    intro task b hs hb
    refine ⟨hs.1, ?_, ?_⟩
    · intro t f hc
      obtain ⟨h1, h2⟩ := hs.2.1 t f hc
      subst h2
      exact hb h1
    · intro t l hm
      exact absurd hm (hs.2.2 t l)
  cases call <;> cases c <;> simp only [complete, reduceCtorEq] at hcomp
  all_goals
    simp only [Option.some.injEq] at hcomp
    subst hcomp
  case fetch_api.api_fetched t p api error =>
    refine key t false ?_ (by simp)
    unfold api_fetched_cb
    cases error with
    | some e => exact pipeline_shape_finish _ _ _ _ _
    | none =>
      dsimp only
      split
      · exact pipeline_shape_idle _ _ _
      · exact next_async_step_shape K _ t OvirtForeignMenuState.STATE_API
  case fetch_vms.vms_fetched t a q vms error =>
    refine key t false ?_ (by simp)
    unfold vms_fetched_cb
    cases error with
    | some e => exact pipeline_shape_finish _ _ _ _ _
    | none =>
      dsimp only
      split
      · exact next_async_step_shape K _ t OvirtForeignMenuState.STATE_VM
      · exact pipeline_shape_finish _ _ _ _ _
  case refresh_host.host_fetched t h error =>
    refine key t false ?_ (by simp)
    unfold host_fetched_cb
    cases error with
    | some e => exact pipeline_shape_finish _ _ _ _ _
    | none => exact next_async_step_shape K _ t OvirtForeignMenuState.STATE_HOST
  case refresh_cluster.cluster_fetched t h error =>
    refine key t false ?_ (by simp)
    unfold cluster_fetched_cb
    cases error with
    | some e => exact pipeline_shape_finish _ _ _ _ _
    | none => exact next_async_step_shape K _ t OvirtForeignMenuState.STATE_CLUSTER
  case refresh_data_center.data_center_fetched t h error =>
    refine key t false ?_ (by simp)
    unfold data_center_fetched_cb
    cases error with
    | some e => exact pipeline_shape_finish _ _ _ _ _
    | none => exact next_async_step_shape K _ t OvirtForeignMenuState.STATE_DATA_CENTER
  case fetch_storage_domains.storage_domains_fetched t h domains error =>
    refine key t false ?_ (by simp)
    unfold storage_domains_fetched_cb
    cases error with
    | some e => exact pipeline_shape_finish _ _ _ _ _
    | none =>
      dsimp only
      split
      · exact pipeline_shape_finish _ _ _ _ _
      · exact next_async_step_shape K _ t OvirtForeignMenuState.STATE_STORAGE_DOMAIN
  case fetch_cdroms.cdroms_fetched t h cdroms error =>
    refine key t false ?_ (by simp)
    unfold cdroms_fetched_cb
    cases error with
    | some e => exact pipeline_shape_finish _ _ _ _ _
    | none =>
      dsimp only
      split
      · exact next_async_step_shape K _ t OvirtForeignMenuState.STATE_VM_CDROM
      · exact pipeline_shape_finish _ _ _ _ _
  case refresh_cdrom.cdrom_file_refreshed t cd file error =>
    refine key t true ?_ (fun _ => ⟨cd, rfl⟩)
    generalize (if error = none then set_cdrom_file menu file else menu) = m
    unfold cdrom_file_refreshed_cb
    cases error with
    | some e => exact pipeline_shape_finish _ _ _ _ _
    | none =>
      dsimp only
      split
      · exact next_async_step_shape K _ t OvirtForeignMenuState.STATE_CDROM_FILE
      · exact pipeline_shape_finish _ _ _ _ _
  case fetch_iso_list.iso_list_fetched t fs heap files error =>
    unfold iso_list_fetched_cb
    cases error with
    | some e => simp [Outcome.finish]
    | none => simp [Outcome.finish]
  case update_cdrom.iso_name_set t cd cur updated error =>
    unfold iso_name_set_cb
    cases updated <;> cases error <;> simp [Outcome.finish]

theorem step_completed_inv (K : Govirt) (s s1 : Sys) (call : Call) (c : Completion)
    (hinv : run_inv s) (hstep : step K s (Event.completed call c) = some s1) : run_inv s1 := by
  obtain ⟨hI1, hI2, hI3⟩ := hinv
  simp only [step] at hstep
  split at hstep
  case isFalse => cases hstep
  case isTrue hmem =>
  obtain ⟨o, hcomp, hs1⟩ := Option.map_eq_some'.mp hstep
  subst hs1
  have hpend : s.pending = [call] ∧ s.issued.getLast? = some call := by
    rcases hI1 with h | ⟨c0, h, hl⟩
    · rw [h] at hmem; cases hmem
    · rw [h] at hmem
      have : call = c0 := by simpa using hmem
      subst this
      exact ⟨h, hl⟩
  have hnoptr : ∀ t l, (t, TaskResult.pointer l) ∉ s.returns := by
    intro t l hm
    have := (hI3 t l hm).1
    rw [hpend.1] at this
    cases this
  obtain ⟨hS1, hS2, hS3⟩ := complete_shape K s.menu call c o hcomp
  have hp1 : (s.after [call] o).pending = o.calls := by
    simp [Sys.after, hpend.1, List.diff]
  have hi1 : (s.after [call] o).issued = s.issued ++ o.calls := rfl
  have hr1 : (s.after [call] o).returns = s.returns ++ o.returns := rfl
  refine ⟨?_, ?_, ?_⟩
  · rw [hp1, hi1]
    rcases hS1 with h | ⟨c1, h⟩
    · exact Or.inl h
    · exact Or.inr ⟨c1, h, by rw [h]; exact List.getLast?_concat _⟩
  · intro t f hpf
    rw [hp1] at hpf
    obtain ⟨cd, hcd⟩ := hS2 t f hpf
    obtain ⟨pre, hpre⟩ := List.getLast?_eq_some_iff.mp hpend.2
    refine ⟨pre, cd, ?_⟩
    rw [hi1, hpre, hpf, hcd]
    simp
  · intro t l hm
    rw [hr1] at hm
    rcases List.mem_append.mp hm with h | h
    · exact absurd h (hnoptr t l)
    · obtain ⟨hc0, f, hf⟩ := hS3 t l h
      refine ⟨by rw [hp1]; exact hc0, ?_⟩
      obtain ⟨pre, cd, hpre⟩ := hI2 t f (by rw [hpend.1, hf])
      exact ⟨pre, cd, f, by rw [hi1, hc0, List.append_nil]; exact hpre⟩

theorem run_completions_inv (K : Govirt) (cs : List (Call × Completion)) (s s1 : Sys)
    (hinv : run_inv s) (hrun : run K s (completions cs) = some s1) : run_inv s1 := by
  induction cs generalizing s with
  | nil =>
    simp only [completions, List.map_nil, run, Option.some.injEq] at hrun
    subst hrun
    exact hinv
  | cons p rest ih =>
    simp only [completions, List.map_cons, run] at hrun
    cases hstep : step K s (Event.completed p.1 p.2) with
    | none => rw [hstep] at hrun; cases hrun
    | some s2 =>
      rw [hstep] at hrun
      exact ih s2 (step_completed_inv K s s2 p.1 p.2 hinv hstep) hrun

theorem fetch_iso_names_inv (K : Govirt) (menu : OvirtForeignMenu) (task : GTask) :
    run_inv ((Sys.init menu).after [] (ovirt_foreign_menu_fetch_iso_names_async K menu task)) := by
  have hs := next_async_step_shape K menu task OvirtForeignMenuState.STATE_0
  obtain ⟨h1, h2, h3⟩ := hs
  have hp : ((Sys.init menu).after []
      (ovirt_foreign_menu_fetch_iso_names_async K menu task)).pending
      = (ovirt_foreign_menu_next_async_step K menu task OvirtForeignMenuState.STATE_0).calls := by
    simp [Sys.after, Sys.init, ovirt_foreign_menu_fetch_iso_names_async, List.diff]
  have hi : ((Sys.init menu).after []
      (ovirt_foreign_menu_fetch_iso_names_async K menu task)).issued
      = (ovirt_foreign_menu_next_async_step K menu task OvirtForeignMenuState.STATE_0).calls := by
    simp [Sys.after, Sys.init, ovirt_foreign_menu_fetch_iso_names_async]
  have hr : ((Sys.init menu).after []
      (ovirt_foreign_menu_fetch_iso_names_async K menu task)).returns
      = (ovirt_foreign_menu_next_async_step K menu task OvirtForeignMenuState.STATE_0).returns := by
    simp [Sys.after, Sys.init, ovirt_foreign_menu_fetch_iso_names_async]
  refine ⟨?_, ?_, ?_⟩
  · rw [hp, hi]
    rcases h1 with h | ⟨c, h⟩
    · exact Or.inl h
    · exact Or.inr ⟨c, h, by rw [h]; rfl⟩
  · intro t f hpf
    rw [hp] at hpf
    have := (h2 t f hpf).1
    simp at this
  · intro t l hm
    rw [hr] at hm
    exact absurd hm (h3 t l)

/-! ## The file list: the inserted image -/

theorem g_strcmp0_eq_zero_iff (a b : Option CString) : g_strcmp0 a b = 0 ↔ a = b := by
  cases a <;> cases b <;> simp [g_strcmp0, strcmp_eq_zero_iff]

theorem matches_current_iff (f : CString) (it : OvirtResource) :
    matches_current (some f) it = true ↔ (it.name = some f ∨ it.guid = some f) := by
  simp only [matches_current, decide_eq_true_eq, g_strcmp0_eq_zero_iff, ne_eq,
    reduceCtorEq, not_false_eq_true, true_and]
  constructor
  · rintro (h | h)
    · exact Or.inl h.symm
    · exact Or.inr h.symm
  · rintro (h | h)
    · exact Or.inl h.symm
    · exact Or.inr h.symm

theorem set_files_body_menu (K : Govirt) (heap : Heap) (cur : Option CString)
    (s : SetFilesLoop) (it : OvirtResource) :
    (set_files_body K heap cur s it).menu
      = if recorded_entry K cur it = true then
          ovirt_foreign_menu_set_current_iso_info (heap (s.allocated + 1)) s.menu it.name it.guid
        else s.menu := by
  have hiff := is_iso_entry_iff K it
  unfold recorded_entry
  by_cases hA : K.HAVE_OVIRT_STORAGE_DOMAIN_GET_DISKS = true ∧ it.is_disk = true
      ∧ it.content_type ≠ K.OVIRT_DISK_CONTENT_TYPE_ISO
  · have hn : is_iso_entry K it = false := by
      cases h : is_iso_entry K it with
      | false => rfl
      | true => exact absurd hA (hiff.mp h).1
    rw [hn]
    unfold set_files_body
    dsimp only
    rw [if_pos hA]
    simp
  · by_cases hB : g_str_has_suffix it.name (some (ascii ".iso")) = true
    · have hy : is_iso_entry K it = true := hiff.mpr ⟨hA, hB⟩
      rw [hy]
      unfold set_files_body
      dsimp only
      rw [if_neg hA, if_neg (not_not.mpr hB)]
      by_cases hm : cur ≠ none
          ∧ (g_strcmp0 cur it.name = 0 ∨ g_strcmp0 cur it.guid = 0)
      · have hmc : matches_current cur it = true := by
          simp only [matches_current, decide_eq_true_eq]; exact hm
        rw [if_pos hm, hmc]
        simp
      · have hmc : matches_current cur it = false := by
          simp only [matches_current, decide_eq_false_iff_not]; exact hm
        rw [if_neg hm, hmc]
        simp
    · have hn : is_iso_entry K it = false := by
        cases h : is_iso_entry K it with
        | false => rfl
        | true => exact absurd (hiff.mp h).2 hB
      rw [hn]
      unfold set_files_body
      dsimp only
      rw [if_neg hA, if_pos hB]
      simp

theorem set_current_iso_info_frame (image : CString) (menu : OvirtForeignMenu)
    (name id : Option CString) :
    ovirt_foreign_menu_set_current_iso_info image menu name id
      = { menu with current_iso_info :=
            (ovirt_foreign_menu_set_current_iso_info image menu name id).current_iso_info } := by
  unfold ovirt_foreign_menu_set_current_iso_info
  split <;> rfl

theorem set_files_fold_frame (K : Govirt) (heap : Heap) (cur : Option CString)
    (files : List OvirtResource) (s : SetFilesLoop) :
    (files.foldl (set_files_body K heap cur) s).menu
      = { s.menu with current_iso_info :=
            (files.foldl (set_files_body K heap cur) s).menu.current_iso_info } := by
  induction files generalizing s with
  | nil => rfl
  | cons it rest ih =>
    simp only [List.foldl_cons]
    rw [ih (set_files_body K heap cur s it)]
    rw [set_files_body_menu]
    split
    · rw [set_current_iso_info_frame]
    · rfl

theorem set_files_fold_no_entry (K : Govirt) (heap : Heap) (cur : Option CString)
    (files : List OvirtResource) (s : SetFilesLoop)
    (hno : ∀ x ∈ files, recorded_entry K cur x = false) :
    (files.foldl (set_files_body K heap cur) s).menu = s.menu := by
  induction files generalizing s with
  | nil => rfl
  | cons it rest ih =>
    simp only [List.foldl_cons]
    rw [ih _ (fun x hx => hno x (List.mem_cons_of_mem _ hx)), set_files_body_menu,
      hno it (List.mem_cons_self _ _)]
    simp

theorem set_files_fold_last_entry (K : Govirt) (heap : Heap) (cur : Option CString)
    (pre post : List OvirtResource) (it : OvirtResource) (s : SetFilesLoop)
    (hit : recorded_entry K cur it = true)
    (hpost : ∀ x ∈ post, recorded_entry K cur x = false)
    (hcdrom : s.menu.cdrom ≠ none) :
    ∃ image, ((pre ++ it :: post).foldl (set_files_body K heap cur) s).menu.current_iso_info
      = some (iso_info_new image it.name it.guid) := by
  rw [List.foldl_append, List.foldl_cons, set_files_fold_no_entry K heap cur post _ hpost,
    set_files_body_menu, hit]
  simp only [if_true]
  have hc : (pre.foldl (set_files_body K heap cur) s).menu.cdrom ≠ none := by
    rw [set_files_fold_frame]; exact hcdrom
  have hname : it.name ≠ none := by
    intro hn
    simp [recorded_entry, is_iso_entry, hn] at hit
  refine ⟨heap ((pre.foldl (set_files_body K heap cur) s).allocated + 1), ?_⟩
  simp [ovirt_foreign_menu_set_current_iso_info, hc, hname]

theorem exists_last_of_exists {α : Type} (p : α → Bool) (l : List α)
    (h : ∃ x ∈ l, p x = true) :
    ∃ pre it post, l = pre ++ it :: post ∧ p it = true ∧ ∀ x ∈ post, p x = false := by
  induction l with
  | nil => obtain ⟨x, hx, -⟩ := h; cases hx
  | cons a rest ih =>
    by_cases hr : ∃ x ∈ rest, p x = true
    · obtain ⟨pre, it, post, hl, hit, hpost⟩ := ih hr
      exact ⟨a :: pre, it, post, by rw [hl]; rfl, hit, hpost⟩
    · obtain ⟨x, hx, hpx⟩ := h
      have hxa : x = a := by
        rcases List.mem_cons.mp hx with h1 | h1
        · exact h1
        · exact absurd ⟨x, h1, hpx⟩ hr
      subst hxa
      refine ⟨[], x, rest, rfl, hpx, ?_⟩
      intro y hy
      cases hpy : p y with
      | false => rfl
      | true => exact absurd ⟨y, hy, hpy⟩ hr

theorem set_files_current_iso_info (K : Govirt) (heap : Heap) (menu : OvirtForeignMenu)
    (files : List OvirtResource) :
    (ovirt_foreign_menu_set_files K heap menu files).current_iso_info
      = (set_files_loop K heap menu files).menu.current_iso_info := by
  unfold ovirt_foreign_menu_set_files
  dsimp only
  split <;> rfl

/-! ## The completion callbacks: what they leave unchanged -/

theorem set_files_frame (K : Govirt) (heap : Heap) (menu : OvirtForeignMenu)
    (files : List OvirtResource) :
    ovirt_foreign_menu_set_files K heap menu files
      = { menu with
          current_iso_info :=
            (ovirt_foreign_menu_set_files K heap menu files).current_iso_info,
          iso_names := (ovirt_foreign_menu_set_files K heap menu files).iso_names } := by
  have h := set_files_fold_frame K heap (ovirt_foreign_menu_get_current_iso_name menu) files
    { sorted_files := [], menu := menu, allocated := 0 }
  unfold ovirt_foreign_menu_set_files
  dsimp only
  unfold set_files_loop
  split
  · rw [h]
  · rw [h]

theorem stage_frame_of_fills (stage : OvirtForeignMenuState) (m0 m m1 : OvirtForeignMenu)
    (h0 : stage_frame stage m0 m)
    (hhost : m.host = m0.host) (hcluster : m.cluster = m0.cluster)
    (hdc : m.data_center = m0.data_center)
    (h1 : only_fills_refs m m1) : stage_frame stage m0 m1 := by
  obtain ⟨a1, a2, a3, a4, a5, a6, a7, -, -, -, a11⟩ := h0
  obtain ⟨b1, b2, b3, b4, b5, b6, b7, b8, b9, b10, b11, b12⟩ := h1
  refine ⟨b1.trans a1, b4.trans a2, b8.trans a3, fun h => b2.trans (a4 h),
    fun h => b3.trans (a5 h), fun h => b5.trans (a6 h), fun h => b6.trans (a7 h),
    ?_, ?_, ?_, fun h => ⟨b9.trans (a11 h).1, b7.trans (a11 h).2⟩⟩
  · intro h; rw [← hhost] at h ⊢; exact b10 h
  · intro h; rw [← hcluster] at h ⊢; exact b11 h
  · intro h; rw [← hdc] at h ⊢; exact b12 h

theorem stage_frame_refl (stage : OvirtForeignMenuState) (m : OvirtForeignMenu) :
    stage_frame stage m m := by
  simp [stage_frame]

theorem complete_success_frame (K : Govirt) (menu : OvirtForeignMenu) (call : Call)
    (c : Completion) (o : Outcome) (stage : OvirtForeignMenuState)
    (hstage : call.stage = some stage) (hok : c.error = none)
    (hcomp : complete K menu call c = some o) :
    stage_frame stage (at_callback menu call c) o.menu := by
  cases call <;> cases c <;> simp only [complete, reduceCtorEq] at hcomp
  all_goals
    simp only [Completion.error] at hok
    subst hok
    simp only [Option.some.injEq] at hcomp
    subst hcomp
    simp only [Call.stage, Option.some.injEq] at hstage
    try subst hstage
    simp only [at_callback]
  case fetch_api.api_fetched t p api =>
    unfold api_fetched_cb
    dsimp only
    split
    · simp [stage_frame, Outcome.idle]
    · exact stage_frame_of_fills _ _ { menu with api := api } _ (by simp [stage_frame])
        rfl rfl rfl (next_async_step_menu K _ t OvirtForeignMenuState.STATE_API)
  case fetch_vms.vms_fetched t a q vms =>
    unfold vms_fetched_cb
    dsimp only
    split
    · refine stage_frame_of_fills _ _ _ _ ?_ ?_ ?_ ?_
        (next_async_step_menu K _ t OvirtForeignMenuState.STATE_VM)
      all_goals split <;> simp [stage_frame]
    · split <;> simp [stage_frame, Outcome.finish]
  case refresh_host.host_fetched t h =>
    exact stage_frame_of_fills _ _ _ _ (stage_frame_refl _ _) rfl rfl rfl
      (next_async_step_menu K _ t OvirtForeignMenuState.STATE_HOST)
  case refresh_cluster.cluster_fetched t h =>
    exact stage_frame_of_fills _ _ _ _ (stage_frame_refl _ _) rfl rfl rfl
      (next_async_step_menu K _ t OvirtForeignMenuState.STATE_CLUSTER)
  case refresh_data_center.data_center_fetched t h =>
    exact stage_frame_of_fills _ _ _ _ (stage_frame_refl _ _) rfl rfl rfl
      (next_async_step_menu K _ t OvirtForeignMenuState.STATE_DATA_CENTER)
  case fetch_storage_domains.storage_domains_fetched t h domains =>
    unfold storage_domains_fetched_cb
    dsimp only
    split
    · have : (ovirt_foreign_menu_set_file_collection menu
          (storage_domain_get_files K (storage_domains_loop K menu domains))).1 = menu := by
        rename_i hset
        unfold ovirt_foreign_menu_set_file_collection at hset ⊢
        split <;> simp_all
      simp [Outcome.finish, this, stage_frame]
    · refine stage_frame_of_fills _ _ _ _ ?_ ?_ ?_ ?_
        (next_async_step_menu K _ t OvirtForeignMenuState.STATE_STORAGE_DOMAIN)
      all_goals
        unfold ovirt_foreign_menu_set_file_collection
        split <;> simp [stage_frame]
  case fetch_cdroms.cdroms_fetched t h cdroms =>
    unfold cdroms_fetched_cb
    dsimp only
    split
    · refine stage_frame_of_fills _ _ _ _ ?_ ?_ ?_ ?_
        (next_async_step_menu K _ t OvirtForeignMenuState.STATE_VM_CDROM)
      all_goals split <;> simp [stage_frame]
    · split <;> simp [stage_frame, Outcome.finish]
  case refresh_cdrom.cdrom_file_refreshed t cd file =>
    simp only [if_true]
    unfold cdrom_file_refreshed_cb
    dsimp only
    split
    · exact stage_frame_of_fills _ _ _ _ (stage_frame_refl _ _) rfl rfl rfl
        (next_async_step_menu K _ t OvirtForeignMenuState.STATE_CDROM_FILE)
    · simp [stage_frame, Outcome.finish]
  case fetch_iso_list.iso_list_fetched t fs heap files =>
    unfold iso_list_fetched_cb
    dsimp only [Outcome.finish]
    rw [set_files_frame]
    simp [stage_frame]
  case update_cdrom.iso_name_set =>
    cases hstage

/-! ## Runs of the pipeline: the order of the stages -/

theorem earlier_populated_iff (menu : OvirtForeignMenu) (stage : OvirtForeignMenuState) :
    earlier_populated menu stage ↔
      (1 < stage.toNat → menu.api ≠ none) ∧ (2 < stage.toNat → menu.vm ≠ none)
      ∧ (3 < stage.toNat → menu.host ≠ none) ∧ (4 < stage.toNat → menu.cluster ≠ none)
      ∧ (5 < stage.toNat → menu.data_center ≠ none) ∧ (6 < stage.toNat → menu.files ≠ none)
      ∧ (7 < stage.toNat → menu.cdrom ≠ none) := by
  simp [earlier_populated, cached_stages, field_empty, OvirtForeignMenuState.toNat]

theorem issues_in_order_idle (menu : OvirtForeignMenu) (h : chain_closed menu) :
    issues_in_order (Outcome.idle menu) :=
  ⟨h, Or.inl rfl⟩

theorem issues_in_order_finish (menu : OvirtForeignMenu) (task : GTask) (r : TaskResult)
    (h : chain_closed menu) : issues_in_order (Outcome.finish menu task r) :=
  ⟨h, Or.inl rfl⟩

theorem issues_in_order_issue (menu : OvirtForeignMenu) (call : Call)
    (stage : OvirtForeignMenuState) (h : chain_closed menu) (hs : call.stage = some stage)
    (he : earlier_populated menu stage) : issues_in_order (Outcome.issue menu call) :=
  ⟨h, Or.inr ⟨call, stage, rfl, hs, he⟩⟩

theorem case_STATE_CDROM_FILE_order (menu : OvirtForeignMenu) (task : GTask)
    (hc : chain_closed menu) (h1 : menu.api ≠ none) (h2 : menu.vm ≠ none)
    (h3 : menu.host ≠ none) (h4 : menu.cluster ≠ none) (h5 : menu.data_center ≠ none)
    (h6 : menu.files ≠ none) :
    issues_in_order (case_STATE_CDROM_FILE menu task) := by
  unfold case_STATE_CDROM_FILE ovirt_foreign_menu_refresh_cdrom_file_async
  by_cases h : menu.cdrom = none
  · rw [if_pos h]; exact issues_in_order_idle menu hc
  · rw [if_neg h]
    exact issues_in_order_issue menu _ OvirtForeignMenuState.STATE_CDROM_FILE hc rfl
      ((earlier_populated_iff _ _).mpr (by
        simp [OvirtForeignMenuState.toNat, h1, h2, h3, h4, h5, h6, h]))

theorem case_STATE_VM_CDROM_order (menu : OvirtForeignMenu) (task : GTask)
    (hc : chain_closed menu) (h1 : menu.api ≠ none) (h2 : menu.vm ≠ none)
    (h3 : menu.host ≠ none) (h4 : menu.cluster ≠ none) (h5 : menu.data_center ≠ none)
    (h6 : menu.files ≠ none) :
    issues_in_order (case_STATE_VM_CDROM menu task) := by
  unfold case_STATE_VM_CDROM
  by_cases h : menu.cdrom = none
  · rw [if_pos h]
    exact issues_in_order_issue menu _ OvirtForeignMenuState.STATE_VM_CDROM hc rfl
      ((earlier_populated_iff _ _).mpr (by
        simp [OvirtForeignMenuState.toNat, h1, h2, h3, h4, h5, h6]))
  · rw [if_neg h]
    exact case_STATE_CDROM_FILE_order menu task hc h1 h2 h3 h4 h5 h6

theorem case_STATE_STORAGE_DOMAIN_order (menu : OvirtForeignMenu) (task : GTask)
    (hc : chain_closed menu) (h1 : menu.api ≠ none) (h2 : menu.vm ≠ none)
    (h3 : menu.host ≠ none) (h4 : menu.cluster ≠ none) (h5 : menu.data_center ≠ none) :
    issues_in_order (case_STATE_STORAGE_DOMAIN menu task) := by
  unfold case_STATE_STORAGE_DOMAIN
  by_cases h : menu.files = none
  · rw [if_pos h]
    unfold ovirt_foreign_menu_fetch_storage_domain_async
    by_cases hp : menu.proxy = none
    · rw [if_pos hp]; exact issues_in_order_idle menu hc
    · rw [if_neg hp]
      cases hd : menu.data_center with
      | none => exact absurd hd h5
      | some dc =>
        exact issues_in_order_issue menu _ OvirtForeignMenuState.STATE_STORAGE_DOMAIN hc rfl
          ((earlier_populated_iff _ _).mpr (by
            simp [OvirtForeignMenuState.toNat, h1, h2, h3, h4, hd]))
  · rw [if_neg h]
    exact case_STATE_VM_CDROM_order menu task hc h1 h2 h3 h4 h5 h

theorem case_STATE_DATA_CENTER_order (menu : OvirtForeignMenu) (task : GTask)
    (hc : chain_closed menu) (h1 : menu.api ≠ none) (h2 : menu.vm ≠ none)
    (h3 : menu.host ≠ none) (h4 : menu.cluster ≠ none) :
    issues_in_order (case_STATE_DATA_CENTER menu task) := by
  unfold case_STATE_DATA_CENTER
  by_cases h : menu.data_center = none
  · rw [if_pos h]
    unfold ovirt_foreign_menu_fetch_data_center_async
    by_cases hp : menu.proxy = none
    · rw [if_pos hp]; exact issues_in_order_idle menu hc
    · rw [if_neg hp]
      cases hd : menu.cluster with
      | none => exact absurd hd h4
      | some cl =>
        have hfiles : menu.files = none := by
          by_contra hf
          exact hc.2.2 hf h
        refine issues_in_order_issue _ _ OvirtForeignMenuState.STATE_DATA_CENTER ?_ rfl
          ((earlier_populated_iff _ _).mpr (by
            simp [OvirtForeignMenuState.toNat, h1, h2, h3, hd]))
        exact ⟨fun _ => h3, by simp [hd], by simp [hfiles]⟩
  · rw [if_neg h]
    exact case_STATE_STORAGE_DOMAIN_order menu task hc h1 h2 h3 h4 h

theorem case_STATE_CLUSTER_order (menu : OvirtForeignMenu) (task : GTask)
    (hc : chain_closed menu) (h1 : menu.api ≠ none) (h2 : menu.vm ≠ none)
    (h3 : menu.host ≠ none) :
    issues_in_order (case_STATE_CLUSTER menu task) := by
  unfold case_STATE_CLUSTER
  by_cases h : menu.cluster = none
  · rw [if_pos h]
    unfold ovirt_foreign_menu_fetch_cluster_async
    by_cases hp : menu.proxy = none
    · rw [if_pos hp]; exact issues_in_order_idle menu hc
    · rw [if_neg hp]
      cases hd : menu.host with
      | none => exact absurd hd h3
      | some host =>
        have hdc : menu.data_center = none := by
          by_contra hf
          exact hc.2.1 hf h
        refine issues_in_order_issue _ _ OvirtForeignMenuState.STATE_CLUSTER ?_ rfl
          ((earlier_populated_iff _ _).mpr (by
            simp [OvirtForeignMenuState.toNat, h1, h2, hd]))
        exact ⟨by simp [hd], by simp [hdc], by simpa using hc.2.2⟩
  · rw [if_neg h]
    exact case_STATE_DATA_CENTER_order menu task hc h1 h2 h3 h

theorem case_STATE_HOST_order (menu : OvirtForeignMenu) (task : GTask)
    (hc : chain_closed menu) (h1 : menu.api ≠ none) (h2 : menu.vm ≠ none) :
    issues_in_order (case_STATE_HOST menu task) := by
  unfold case_STATE_HOST
  by_cases h : menu.host = none
  · rw [if_pos h]
    unfold ovirt_foreign_menu_fetch_host_async
    by_cases hp : menu.proxy = none
    · rw [if_pos hp]; exact issues_in_order_idle menu hc
    · rw [if_neg hp]
      cases hd : menu.vm with
      | none => exact absurd hd h2
      | some vm =>
        have hcl : menu.cluster = none := by
          by_contra hf
          exact hc.1 hf h
        refine issues_in_order_issue _ _ OvirtForeignMenuState.STATE_HOST ?_ rfl
          ((earlier_populated_iff _ _).mpr (by
            simp [OvirtForeignMenuState.toNat, h1, hd]))
        exact ⟨by simp [hcl], by simpa using hc.2.1, by simpa using hc.2.2⟩
  · rw [if_neg h]
    exact case_STATE_CLUSTER_order menu task hc h1 h2 h

theorem case_STATE_VM_order (menu : OvirtForeignMenu) (task : GTask)
    (hc : chain_closed menu) (h1 : menu.api ≠ none) :
    issues_in_order (case_STATE_VM menu task) := by
  unfold case_STATE_VM
  by_cases h : menu.vm = none
  · rw [if_pos h]
    unfold ovirt_foreign_menu_fetch_vm_async
    by_cases hp : menu.proxy = none
    · rw [if_pos hp]; exact issues_in_order_idle menu hc
    · rw [if_neg hp, if_neg h1]
      exact issues_in_order_issue _ _ OvirtForeignMenuState.STATE_VM hc rfl
        ((earlier_populated_iff _ _).mpr (by simp [OvirtForeignMenuState.toNat, h1]))
  · rw [if_neg h]
    exact case_STATE_HOST_order menu task hc h1 h

theorem case_STATE_API_order (menu : OvirtForeignMenu) (task : GTask)
    (hc : chain_closed menu) : issues_in_order (case_STATE_API menu task) := by
  unfold case_STATE_API
  by_cases h : menu.api = none
  · rw [if_pos h]
    unfold ovirt_foreign_menu_fetch_api_async
    by_cases hp : menu.proxy = none
    · rw [if_pos hp]; exact issues_in_order_idle menu hc
    · rw [if_neg hp]
      exact issues_in_order_issue _ _ OvirtForeignMenuState.STATE_API hc rfl
        ((earlier_populated_iff _ _).mpr (by simp [OvirtForeignMenuState.toNat]))
  · rw [if_neg h]
    exact case_STATE_VM_order menu task hc h

theorem case_STATE_ISOS_order (menu : OvirtForeignMenu) (task : GTask)
    (hc : chain_closed menu) (h1 : menu.api ≠ none) (h2 : menu.vm ≠ none)
    (h3 : menu.host ≠ none) (h4 : menu.cluster ≠ none) (h5 : menu.data_center ≠ none)
    (h7 : menu.cdrom ≠ none) :
    issues_in_order (case_STATE_ISOS menu task) := by
  unfold case_STATE_ISOS ovirt_foreign_menu_fetch_iso_list_async
  by_cases h : menu.files = none
  · rw [if_pos h]; exact issues_in_order_idle menu hc
  · rw [if_neg h]
    exact issues_in_order_issue menu _ OvirtForeignMenuState.STATE_ISOS hc rfl
      ((earlier_populated_iff _ _).mpr (by
        simp [OvirtForeignMenuState.toNat, h1, h2, h3, h4, h5, h, h7]))

theorem case_STATE_CLUSTER_blocked (menu : OvirtForeignMenu) (task : GTask)
    (hc : chain_closed menu) (h : menu.host = none) :
    case_STATE_CLUSTER menu task = Outcome.idle menu := by
  have hcl : menu.cluster = none := by
    by_contra hf
    exact hc.1 hf h
  unfold case_STATE_CLUSTER ovirt_foreign_menu_fetch_cluster_async
  rw [if_pos hcl]
  split
  · rfl
  · simp [h]

theorem case_STATE_DATA_CENTER_blocked (menu : OvirtForeignMenu) (task : GTask)
    (hc : chain_closed menu) (h : menu.cluster = none) :
    case_STATE_DATA_CENTER menu task = Outcome.idle menu := by
  have hdc : menu.data_center = none := by
    by_contra hf
    exact hc.2.1 hf h
  unfold case_STATE_DATA_CENTER ovirt_foreign_menu_fetch_data_center_async
  rw [if_pos hdc]
  split
  · rfl
  · simp [h]

theorem case_STATE_STORAGE_DOMAIN_blocked (menu : OvirtForeignMenu) (task : GTask)
    (hc : chain_closed menu) (h : menu.data_center = none) :
    case_STATE_STORAGE_DOMAIN menu task = Outcome.idle menu := by
  have hf : menu.files = none := by
    by_contra hf
    exact hc.2.2 hf h
  unfold case_STATE_STORAGE_DOMAIN ovirt_foreign_menu_fetch_storage_domain_async
  rw [if_pos hf]
  split
  · rfl
  · simp [h]

theorem chain_closed_set_files (K : Govirt) (heap : Heap) (menu : OvirtForeignMenu)
    (files : List OvirtResource) (hc : chain_closed menu) :
    chain_closed (ovirt_foreign_menu_set_files K heap menu files) := by
  rw [set_files_frame]
  exact hc

theorem complete_in_order (K : Govirt) (menu : OvirtForeignMenu) (call : Call)
    (c : Completion) (o : Outcome) (stage : OvirtForeignMenuState)
    (hc : chain_closed menu) (hstage : call.stage = some stage)
    (he : earlier_populated menu stage)
    (hcomp : complete K menu call c = some o) : issues_in_order o := by
  rw [earlier_populated_iff] at he
  obtain ⟨e1, e2, e3, e4, e5, e6, e7⟩ := he
  cases call <;> cases c <;> simp only [complete, reduceCtorEq] at hcomp
  all_goals
    simp only [Option.some.injEq] at hcomp
    subst hcomp
    simp only [Call.stage, Option.some.injEq] at hstage
    try subst hstage
    simp only [OvirtForeignMenuState.toNat] at e1 e2 e3 e4 e5 e6 e7
  case fetch_api.api_fetched t p api error =>
    have hc1 : chain_closed { menu with api := api } := hc
    unfold api_fetched_cb
    dsimp only
    cases error with
    | some e => exact issues_in_order_finish _ _ _ hc1
    | none =>
      dsimp only
      by_cases ha : api = none
      · rw [if_pos ha]; exact issues_in_order_idle _ hc1
      · rw [if_neg ha]
        exact case_STATE_VM_order _ t hc1 ha
  case fetch_vms.vms_fetched t a q vms error =>
    have h1 := e1 (by decide)
    unfold vms_fetched_cb
    cases error with
    | some e => exact issues_in_order_finish _ _ _ hc
    | none =>
      dsimp only
      cases hf : vms.find? (fun vm : OvirtVm => decide (g_strcmp0 vm.guid menu.vm_guid = 0)) with
      | none =>
        dsimp only
        split
        · rename_i hv
          exact case_STATE_HOST_order menu t hc h1 hv
        · exact issues_in_order_finish _ _ _ hc
      | some vm =>
        dsimp only
        split
        · exact case_STATE_HOST_order { menu with vm := some vm } t hc h1 (by simp)
        · exact issues_in_order_finish _ _ _ hc
  case refresh_host.host_fetched t h error =>
    have h1 := e1 (by decide)
    have h2 := e2 (by decide)
    unfold host_fetched_cb
    cases error with
    | some e => exact issues_in_order_finish _ _ _ hc
    | none =>
      show issues_in_order (case_STATE_CLUSTER menu t)
      by_cases hh : menu.host = none
      · rw [case_STATE_CLUSTER_blocked menu t hc hh]; exact issues_in_order_idle _ hc
      · exact case_STATE_CLUSTER_order menu t hc h1 h2 hh
  case refresh_cluster.cluster_fetched t h error =>
    have h1 := e1 (by decide)
    have h2 := e2 (by decide)
    have h3 := e3 (by decide)
    unfold cluster_fetched_cb
    cases error with
    | some e => exact issues_in_order_finish _ _ _ hc
    | none =>
      show issues_in_order (case_STATE_DATA_CENTER menu t)
      by_cases hh : menu.cluster = none
      · rw [case_STATE_DATA_CENTER_blocked menu t hc hh]; exact issues_in_order_idle _ hc
      · exact case_STATE_DATA_CENTER_order menu t hc h1 h2 h3 hh
  case refresh_data_center.data_center_fetched t h error =>
    have h1 := e1 (by decide)
    have h2 := e2 (by decide)
    have h3 := e3 (by decide)
    have h4 := e4 (by decide)
    unfold data_center_fetched_cb
    cases error with
    | some e => exact issues_in_order_finish _ _ _ hc
    | none =>
      show issues_in_order (case_STATE_STORAGE_DOMAIN menu t)
      by_cases hh : menu.data_center = none
      · rw [case_STATE_STORAGE_DOMAIN_blocked menu t hc hh]; exact issues_in_order_idle _ hc
      · exact case_STATE_STORAGE_DOMAIN_order menu t hc h1 h2 h3 h4 hh
  case fetch_storage_domains.storage_domains_fetched t h domains error =>
    have h1 := e1 (by decide)
    have h2 := e2 (by decide)
    have h3 := e3 (by decide)
    have h4 := e4 (by decide)
    have h5 := e5 (by decide)
    unfold storage_domains_fetched_cb
    cases error with
    | some e => exact issues_in_order_finish _ _ _ hc
    | none =>
      dsimp only
      cases hfc : storage_domain_get_files K (storage_domains_loop K menu domains) with
      | none =>
        simp only [ovirt_foreign_menu_set_file_collection, Bool.false_eq_true,
          not_false_eq_true, if_true]
        exact issues_in_order_finish _ _ _ hc
      | some fc =>
        simp only [ovirt_foreign_menu_set_file_collection, not_true_eq_false, if_false]
        show issues_in_order (case_STATE_VM_CDROM { menu with files := some fc } t)
        exact case_STATE_VM_CDROM_order _ t ⟨hc.1, hc.2.1, fun _ => h5⟩ h1 h2 h3 h4 h5
          (by simp)
  case fetch_cdroms.cdroms_fetched t h cdroms error =>
    have h1 := e1 (by decide)
    have h2 := e2 (by decide)
    have h3 := e3 (by decide)
    have h4 := e4 (by decide)
    have h5 := e5 (by decide)
    have h6 := e6 (by decide)
    unfold cdroms_fetched_cb
    cases error with
    | some e => exact issues_in_order_finish _ _ _ hc
    | none =>
      dsimp only
      cases cdroms with
      | nil =>
        dsimp only
        split
        · exact case_STATE_CDROM_FILE_order menu t hc h1 h2 h3 h4 h5 h6
        · exact issues_in_order_finish _ _ _ hc
      | cons cd rest =>
        dsimp only
        split
        · exact case_STATE_CDROM_FILE_order { menu with cdrom := some cd } t hc h1 h2 h3 h4
            h5 h6
        · exact issues_in_order_finish _ _ _ hc
  case refresh_cdrom.cdrom_file_refreshed t cd file error =>
    have h1 := e1 (by decide)
    have h2 := e2 (by decide)
    have h3 := e3 (by decide)
    have h4 := e4 (by decide)
    have h5 := e5 (by decide)
    unfold cdrom_file_refreshed_cb
    cases error with
    | some e => exact issues_in_order_finish _ _ _ hc
    | none =>
      simp only [if_true]
      split
      · rename_i hcd
        exact case_STATE_ISOS_order (set_cdrom_file menu file) t hc h1 h2 h3 h4 h5 hcd
      · exact issues_in_order_finish _ _ _ hc
  case fetch_iso_list.iso_list_fetched t fs heap files error =>
    unfold iso_list_fetched_cb
    cases error with
    | some e => exact issues_in_order_finish _ _ _ hc
    | none => exact issues_in_order_finish _ _ _ (chain_closed_set_files K heap menu files hc)
  case update_cdrom.iso_name_set =>
    cases hstage

theorem step_completed_order (K : Govirt) (s s1 : Sys) (call : Call) (c : Completion)
    (hinv : order_inv s) (hstep : step K s (Event.completed call c) = some s1) :
    order_inv s1 := by
  obtain ⟨hc, hp⟩ := hinv
  simp only [step] at hstep
  split at hstep
  case isFalse => cases hstep
  case isTrue hmem =>
  obtain ⟨o, hcomp, hs1⟩ := Option.map_eq_some'.mp hstep
  subst hs1
  rcases hp with hp | ⟨c0, stage, hp, hst, he⟩
  · rw [hp] at hmem; cases hmem
  · rw [hp] at hmem
    have : call = c0 := by simpa using hmem
    subst this
    have ho := complete_in_order K s.menu call c o stage hc hst he hcomp
    have hpend : (s.after [call] o).pending = o.calls := by
      simp [Sys.after, hp, List.diff]
    exact ⟨ho.1, by rw [hpend]; exact ho.2⟩

theorem run_completions_order (K : Govirt) (cs : List (Call × Completion)) (s s1 : Sys)
    (hinv : order_inv s) (hrun : run K s (completions cs) = some s1) : order_inv s1 := by
  induction cs generalizing s with
  | nil =>
    simp only [completions, List.map_nil, run, Option.some.injEq] at hrun
    subst hrun
    exact hinv
  | cons p rest ih =>
    simp only [completions, List.map_cons, run] at hrun
    cases hstep : step K s (Event.completed p.1 p.2) with
    | none => rw [hstep] at hrun; cases hrun
    | some s2 =>
      rw [hstep] at hrun
      exact ih s2 (step_completed_order K s s2 p.1 p.2 hinv hstep) hrun

theorem fetch_iso_names_order (K : Govirt) (menu : OvirtForeignMenu) (task : GTask)
    (hc : chain_closed menu) :
    order_inv ((Sys.init menu).after [] (ovirt_foreign_menu_fetch_iso_names_async K menu task))
    := by
  have ho : issues_in_order (ovirt_foreign_menu_fetch_iso_names_async K menu task) :=
    case_STATE_API_order menu task hc
  have hpend : ((Sys.init menu).after []
      (ovirt_foreign_menu_fetch_iso_names_async K menu task)).pending
      = (ovirt_foreign_menu_fetch_iso_names_async K menu task).calls := by
    simp [Sys.after, Sys.init, List.diff]
  exact ⟨ho.1, by rw [hpend]; exact ho.2⟩

theorem next_async_step_guard (K : Govirt) (menu : OvirtForeignMenu) (task : GTask)
    (current : OvirtForeignMenuState) (call : Call)
    (h : (ovirt_foreign_menu_next_async_step K menu task current).calls = [call]) :
    ∃ stage, call.stage = some stage ∧ stage_ready menu stage = true := by
  by_cases hcur : current.toNat ≤ OvirtForeignMenuState.STATE_STORAGE_DOMAIN.toNat
  · have hi := next_async_step_issues K menu task current hcur
    cases hr : stage_ready menu (first_unresolved menu current) with
    | false => rw [hi.2.2 hr] at h; cases h
    | true =>
      obtain ⟨c, hc, hst, -⟩ := hi.2.1 hr
      rw [hc] at h
      cases h
      exact ⟨_, hst, hr⟩
  · cases current <;> simp [OvirtForeignMenuState.toNat] at hcur
    · have hh : (case_STATE_CDROM_FILE menu task).calls = [call] := h
      unfold case_STATE_CDROM_FILE ovirt_foreign_menu_refresh_cdrom_file_async at hh
      by_cases hcd : menu.cdrom = none
      · simp [hcd, Outcome.idle] at hh
      · simp only [if_neg hcd, Outcome.issue, List.cons.injEq, and_true] at hh
        subst hh
        exact ⟨OvirtForeignMenuState.STATE_CDROM_FILE, rfl, by simp [stage_ready, hcd]⟩
    · have hh : (case_STATE_ISOS menu task).calls = [call] := h
      unfold case_STATE_ISOS ovirt_foreign_menu_fetch_iso_list_async at hh
      by_cases hf : menu.files = none
      · simp [hf, Outcome.idle] at hh
      · simp only [if_neg hf, Outcome.issue, List.cons.injEq, and_true] at hh
        subst hh
        exact ⟨OvirtForeignMenuState.STATE_ISOS, rfl, by simp [stage_ready, hf]⟩
    · simp [ovirt_foreign_menu_next_async_step, OvirtForeignMenuState.toNat, case_default,
        Outcome.finish] at h

theorem storage_domains_fold_none_iff (K : Govirt) (menu : OvirtForeignMenu)
    (domains : List OvirtStorageDomain) (acc : Option OvirtStorageDomain) :
    domains.foldl (storage_domains_body K menu) acc = none ↔
      acc = none ∧ ∀ d ∈ domains, storage_domain_validate K menu d = false := by
  induction domains generalizing acc with
  | nil => simp
  | cons d rest ih =>
    rw [List.foldl_cons, ih]
    cases hv : storage_domain_validate K menu d with
    | false => simp [storage_domains_body, hv]
    | true =>
      cases acc with
      | none => simp [storage_domains_body, hv]
      | some v =>
        by_cases hgt : d.type > v.type <;> simp [storage_domains_body, hv, hgt]

theorem storage_domains_fold_some (K : Govirt) (menu : OvirtForeignMenu)
    (domains : List OvirtStorageDomain) (acc : Option OvirtStorageDomain)
    (v : OvirtStorageDomain)
    (h : domains.foldl (storage_domains_body K menu) acc = some v) :
    acc = some v ∨ (v ∈ domains ∧ storage_domain_validate K menu v = true) := by
  induction domains generalizing acc with
  | nil => left; simpa using h
  | cons d rest ih =>
    rw [List.foldl_cons] at h
    rcases ih _ h with h1 | h1
    · cases hv : storage_domain_validate K menu d with
      | false =>
        simp [storage_domains_body, hv] at h1
        exact Or.inl h1
      | true =>
        cases acc with
        | none =>
          simp [storage_domains_body, hv] at h1
          subst h1
          exact Or.inr ⟨by simp, hv⟩
        | some a =>
          simp only [storage_domains_body, hv] at h1
          by_cases hgt : d.type > a.type
          · simp [hgt] at h1
            subst h1
            exact Or.inr ⟨by simp, hv⟩
          · simp [hgt] at h1
            subst h1
            exact Or.inl rfl
    · exact Or.inr ⟨List.mem_cons_of_mem _ h1.1, h1.2⟩

theorem next_async_step_no_return (K : Govirt) (menu : OvirtForeignMenu) (task : GTask)
    (current : OvirtForeignMenuState)
    (hcur : current.toNat ≤ OvirtForeignMenuState.STATE_STORAGE_DOMAIN.toNat) :
    (ovirt_foreign_menu_next_async_step K menu task current).returns = [] :=
  (next_async_step_issues K menu task current hcur).1

theorem case_STATE_STORAGE_DOMAIN_refreshes (menu : OvirtForeignMenu) (task : GTask) :
    assigns_then_refreshes menu task (case_STATE_STORAGE_DOMAIN menu task) := by
  intro call stage hc hs hr
  exfalso
  have h := case_STATE_STORAGE_DOMAIN_issues menu task
  obtain ⟨_, h1, h2⟩ := h
  cases hready : stage_ready menu (first_empty_in menu
      [OvirtForeignMenuState.STATE_STORAGE_DOMAIN, OvirtForeignMenuState.STATE_VM_CDROM]) with
  | false => rw [h2 hready] at hc; cases hc
  | true =>
    obtain ⟨call1, hc1, hs1, _⟩ := h1 hready
    rw [hc1] at hc
    cases hc
    rw [hs] at hs1
    cases hs1
    unfold first_empty_in refresh_stage at hr
    simp only [List.find?, field_empty] at hr
    rcases hr with hr | hr | hr <;> revert hr <;>
      cases menu.files <;> cases menu.cdrom <;> simp

theorem case_STATE_DATA_CENTER_refreshes (menu : OvirtForeignMenu) (task : GTask) :
    assigns_then_refreshes menu task (case_STATE_DATA_CENTER menu task) := by
  unfold case_STATE_DATA_CENTER
  by_cases h : menu.data_center = none
  · rw [if_pos h]
    intro call stage hc hs hr
    unfold ovirt_foreign_menu_fetch_data_center_async at hc ⊢
    by_cases hp : menu.proxy = none
    · simp [hp, Outcome.idle] at hc
    · cases hcl : menu.cluster with
      | none => simp [hp, hcl, Outcome.idle] at hc
      | some cluster =>
        simp only [hp, hcl, if_false, Outcome.issue, List.cons.injEq, and_true] at hc
        subst hc
        simp only [Call.stage, Option.some.injEq] at hs
        subst hs
        simp [field_empty, h, assigned_refresh, hcl, hp, Outcome.issue]
  · rw [if_neg h]
    exact case_STATE_STORAGE_DOMAIN_refreshes menu task

theorem case_STATE_CLUSTER_refreshes (menu : OvirtForeignMenu) (task : GTask) :
    assigns_then_refreshes menu task (case_STATE_CLUSTER menu task) := by
  unfold case_STATE_CLUSTER
  by_cases h : menu.cluster = none
  · rw [if_pos h]
    intro call stage hc hs hr
    unfold ovirt_foreign_menu_fetch_cluster_async at hc ⊢
    by_cases hp : menu.proxy = none
    · simp [hp, Outcome.idle] at hc
    · cases hcl : menu.host with
      | none => simp [hp, hcl, Outcome.idle] at hc
      | some host =>
        simp only [hp, hcl, if_false, Outcome.issue, List.cons.injEq, and_true] at hc
        subst hc
        simp only [Call.stage, Option.some.injEq] at hs
        subst hs
        simp [field_empty, h, assigned_refresh, hcl, hp, Outcome.issue]
  · rw [if_neg h]
    exact case_STATE_DATA_CENTER_refreshes menu task

theorem case_STATE_HOST_refreshes (menu : OvirtForeignMenu) (task : GTask) :
    assigns_then_refreshes menu task (case_STATE_HOST menu task) := by
  unfold case_STATE_HOST
  by_cases h : menu.host = none
  · rw [if_pos h]
    intro call stage hc hs hr
    unfold ovirt_foreign_menu_fetch_host_async at hc ⊢
    by_cases hp : menu.proxy = none
    · simp [hp, Outcome.idle] at hc
    · cases hcl : menu.vm with
      | none => simp [hp, hcl, Outcome.idle] at hc
      | some vm =>
        simp only [hp, hcl, if_false, Outcome.issue, List.cons.injEq, and_true] at hc
        subst hc
        simp only [Call.stage, Option.some.injEq] at hs
        subst hs
        simp [field_empty, h, assigned_refresh, hcl, hp, Outcome.issue]
  · rw [if_neg h]
    exact case_STATE_CLUSTER_refreshes menu task

theorem case_STATE_VM_refreshes (menu : OvirtForeignMenu) (task : GTask) :
    assigns_then_refreshes menu task (case_STATE_VM menu task) := by
  unfold case_STATE_VM
  by_cases h : menu.vm = none
  · rw [if_pos h]
    intro call stage hc hs hr
    exfalso
    unfold ovirt_foreign_menu_fetch_vm_async at hc
    by_cases hp : menu.proxy = none
    · simp [hp, Outcome.idle] at hc
    · by_cases ha : menu.api = none
      · simp [hp, ha, Outcome.idle] at hc
      · simp only [hp, ha, if_false, Outcome.issue, List.cons.injEq, and_true] at hc
        subst hc
        simp only [Call.stage, Option.some.injEq] at hs
        subst hs
        simp [refresh_stage] at hr
  · rw [if_neg h]
    exact case_STATE_HOST_refreshes menu task

theorem case_STATE_API_refreshes (menu : OvirtForeignMenu) (task : GTask) :
    assigns_then_refreshes menu task (case_STATE_API menu task) := by
  unfold case_STATE_API
  by_cases h : menu.api = none
  · rw [if_pos h]
    intro call stage hc hs hr
    exfalso
    unfold ovirt_foreign_menu_fetch_api_async at hc
    by_cases hp : menu.proxy = none
    · simp [hp, Outcome.idle] at hc
    · simp only [hp, if_false, Outcome.issue, List.cons.injEq, and_true] at hc
      subst hc
      simp only [Call.stage, Option.some.injEq] at hs
      subst hs
      simp [refresh_stage] at hr
  · rw [if_neg h]
    exact case_STATE_VM_refreshes menu task

theorem next_async_step_refreshes (K : Govirt) (menu : OvirtForeignMenu) (task : GTask)
    (current : OvirtForeignMenuState) :
    assigns_then_refreshes menu task (ovirt_foreign_menu_next_async_step K menu task current)
    := by
  cases current
  case STATE_0 => exact case_STATE_API_refreshes menu task
  case STATE_API => exact case_STATE_VM_refreshes menu task
  case STATE_VM => exact case_STATE_HOST_refreshes menu task
  case STATE_HOST => exact case_STATE_CLUSTER_refreshes menu task
  case STATE_CLUSTER => exact case_STATE_DATA_CENTER_refreshes menu task
  case STATE_DATA_CENTER => exact case_STATE_STORAGE_DOMAIN_refreshes menu task
  case STATE_ISOS =>
    intro call stage hc hs hr
    simp [ovirt_foreign_menu_next_async_step, OvirtForeignMenuState.toNat, case_default,
      Outcome.finish] at hc
  all_goals
    intro call stage hc hs hr
    exfalso
    have hcall := hc
    simp only [ovirt_foreign_menu_next_async_step, OvirtForeignMenuState.toNat,
      case_STATE_VM_CDROM, case_STATE_CDROM_FILE, case_STATE_ISOS, case_default,
      ovirt_foreign_menu_fetch_vm_cdrom_async, ovirt_foreign_menu_refresh_cdrom_file_async,
      ovirt_foreign_menu_fetch_iso_list_async, Outcome.idle, Outcome.issue, Outcome.finish]
      at hcall
    split_ifs at hcall <;> simp at hcall <;> subst hcall <;>
      simp only [Call.stage, Option.some.injEq] at hs <;> subst hs <;>
      simp [refresh_stage] at hr

theorem fetch_iso_names_skips_populated (K : Govirt) (menu : OvirtForeignMenu) (task : GTask)
    (call : Call) (stage : OvirtForeignMenuState)
    (hcall : call ∈ (ovirt_foreign_menu_fetch_iso_names_async K menu task).calls)
    (hstage : call.stage = some stage) (hmem : stage ∈ cached_stages) :
    field_empty menu stage = true := by
  have h := next_async_step_issues K menu task OvirtForeignMenuState.STATE_0 (by decide)
  obtain ⟨_, h1, h2⟩ := h
  unfold ovirt_foreign_menu_fetch_iso_names_async at hcall
  cases hready : stage_ready menu (first_unresolved menu OvirtForeignMenuState.STATE_0) with
  | false => rw [h2 hready] at hcall; cases hcall
  | true =>
    obtain ⟨call1, hc1, hs1, _⟩ := h1 hready
    rw [hc1] at hcall
    have : call = call1 := by simpa using hcall
    subst this
    rw [hstage] at hs1
    cases hs1
    rcases first_unresolved_mem menu OvirtForeignMenuState.STATE_0 with h | h
    · rw [h] at hmem
      exact absurd hmem (by decide)
    · exact h.1

theorem issues_late_idle (menu : OvirtForeignMenu) : issues_late (Outcome.idle menu) := by
  intro call hc
  cases hc

theorem issues_late_finish (menu : OvirtForeignMenu) (task : GTask) (r : TaskResult) :
    issues_late (Outcome.finish menu task r) := by
  intro call hc
  cases hc

theorem issues_late_issue (menu : OvirtForeignMenu) (call : Call)
    (h : ∀ stage, call.stage = some stage → late_fields menu stage) :
    issues_late (Outcome.issue menu call) := by
  intro call1 hc stage hs
  have : call1 = call := by simpa [Outcome.issue] using hc
  subst this
  exact h stage hs

theorem case_STATE_ISOS_late (menu : OvirtForeignMenu) (task : GTask)
    (hcd : menu.cdrom ≠ none) : issues_late (case_STATE_ISOS menu task) := by
  unfold case_STATE_ISOS ovirt_foreign_menu_fetch_iso_list_async
  by_cases hf : menu.files = none
  · rw [if_pos hf]; exact issues_late_idle menu
  · rw [if_neg hf]
    apply issues_late_issue
    intro stage hs
    exact ⟨fun _ => hf, fun _ => hcd⟩

theorem case_STATE_CDROM_FILE_late (menu : OvirtForeignMenu) (task : GTask)
    (hf : menu.files ≠ none) : issues_late (case_STATE_CDROM_FILE menu task) := by
  unfold case_STATE_CDROM_FILE ovirt_foreign_menu_refresh_cdrom_file_async
  by_cases hcd : menu.cdrom = none
  · rw [if_pos hcd]; exact issues_late_idle menu
  · rw [if_neg hcd]
    apply issues_late_issue
    intro stage hs
    exact ⟨fun _ => hf, fun _ => hcd⟩

theorem case_STATE_VM_CDROM_late (menu : OvirtForeignMenu) (task : GTask)
    (hf : menu.files ≠ none) : issues_late (case_STATE_VM_CDROM menu task) := by
  unfold case_STATE_VM_CDROM
  by_cases hcd : menu.cdrom = none
  · rw [if_pos hcd]
    unfold ovirt_foreign_menu_fetch_vm_cdrom_async
    apply issues_late_issue
    intro stage hs
    simp only [Call.stage, Option.some.injEq] at hs
    subst hs
    exact ⟨fun _ => hf, fun h => absurd h (by decide)⟩
  · rw [if_neg hcd]
    exact case_STATE_CDROM_FILE_late menu task hf

theorem case_STATE_STORAGE_DOMAIN_late (menu : OvirtForeignMenu) (task : GTask) :
    issues_late (case_STATE_STORAGE_DOMAIN menu task) := by
  unfold case_STATE_STORAGE_DOMAIN
  by_cases hf : menu.files = none
  · rw [if_pos hf]
    unfold ovirt_foreign_menu_fetch_storage_domain_async
    by_cases hp : menu.proxy = none
    · rw [if_pos hp]; exact issues_late_idle menu
    · rw [if_neg hp]
      cases menu.data_center with
      | none => exact issues_late_idle menu
      | some dc =>
        apply issues_late_issue
        intro stage hs
        simp only [Call.stage, Option.some.injEq] at hs
        subst hs
        exact ⟨fun h => absurd h (by decide), fun h => absurd h (by decide)⟩
  · rw [if_neg hf]
    exact case_STATE_VM_CDROM_late menu task hf

theorem case_STATE_DATA_CENTER_late (menu : OvirtForeignMenu) (task : GTask) :
    issues_late (case_STATE_DATA_CENTER menu task) := by
  unfold case_STATE_DATA_CENTER
  by_cases hf : menu.data_center = none
  · rw [if_pos hf]
    unfold ovirt_foreign_menu_fetch_data_center_async
    by_cases hp : menu.proxy = none
    · rw [if_pos hp]; exact issues_late_idle menu
    · rw [if_neg hp]
      cases menu.cluster with
      | none => exact issues_late_idle menu
      | some x =>
        apply issues_late_issue
        intro stage hs
        simp only [Call.stage, Option.some.injEq] at hs
        subst hs
        exact ⟨fun h => absurd h (by decide), fun h => absurd h (by decide)⟩
  · rw [if_neg hf]
    exact case_STATE_STORAGE_DOMAIN_late menu task

theorem case_STATE_CLUSTER_late (menu : OvirtForeignMenu) (task : GTask) :
    issues_late (case_STATE_CLUSTER menu task) := by
  unfold case_STATE_CLUSTER
  by_cases hf : menu.cluster = none
  · rw [if_pos hf]
    unfold ovirt_foreign_menu_fetch_cluster_async
    by_cases hp : menu.proxy = none
    · rw [if_pos hp]; exact issues_late_idle menu
    · rw [if_neg hp]
      cases menu.host with
      | none => exact issues_late_idle menu
      | some x =>
        apply issues_late_issue
        intro stage hs
        simp only [Call.stage, Option.some.injEq] at hs
        subst hs
        exact ⟨fun h => absurd h (by decide), fun h => absurd h (by decide)⟩
  · rw [if_neg hf]
    exact case_STATE_DATA_CENTER_late menu task

theorem case_STATE_HOST_late (menu : OvirtForeignMenu) (task : GTask) :
    issues_late (case_STATE_HOST menu task) := by
  unfold case_STATE_HOST
  by_cases hf : menu.host = none
  · rw [if_pos hf]
    unfold ovirt_foreign_menu_fetch_host_async
    by_cases hp : menu.proxy = none
    · rw [if_pos hp]; exact issues_late_idle menu
    · rw [if_neg hp]
      cases menu.vm with
      | none => exact issues_late_idle menu
      | some x =>
        apply issues_late_issue
        intro stage hs
        simp only [Call.stage, Option.some.injEq] at hs
        subst hs
        exact ⟨fun h => absurd h (by decide), fun h => absurd h (by decide)⟩
  · rw [if_neg hf]
    exact case_STATE_CLUSTER_late menu task

theorem case_STATE_VM_late (menu : OvirtForeignMenu) (task : GTask) :
    issues_late (case_STATE_VM menu task) := by
  unfold case_STATE_VM
  by_cases hf : menu.vm = none
  · rw [if_pos hf]
    unfold ovirt_foreign_menu_fetch_vm_async
    by_cases hp : menu.proxy = none
    · rw [if_pos hp]; exact issues_late_idle menu
    · rw [if_neg hp]
      by_cases ha : menu.api = none
      · rw [if_pos ha]; exact issues_late_idle menu
      · rw [if_neg ha]
        apply issues_late_issue
        intro stage hs
        simp only [Call.stage, Option.some.injEq] at hs
        subst hs
        exact ⟨fun h => absurd h (by decide), fun h => absurd h (by decide)⟩
  · rw [if_neg hf]
    exact case_STATE_HOST_late menu task

theorem case_STATE_API_late (menu : OvirtForeignMenu) (task : GTask) :
    issues_late (case_STATE_API menu task) := by
  unfold case_STATE_API
  by_cases hf : menu.api = none
  · rw [if_pos hf]
    unfold ovirt_foreign_menu_fetch_api_async
    by_cases hp : menu.proxy = none
    · rw [if_pos hp]; exact issues_late_idle menu
    · rw [if_neg hp]
      apply issues_late_issue
      intro stage hs
      simp only [Call.stage, Option.some.injEq] at hs
      subst hs
      exact ⟨fun h => absurd h (by decide), fun h => absurd h (by decide)⟩
  · rw [if_neg hf]
    exact case_STATE_VM_late menu task

theorem next_async_step_late (K : Govirt) (menu : OvirtForeignMenu) (task : GTask)
    (current : OvirtForeignMenuState)
    (h6 : OvirtForeignMenuState.STATE_STORAGE_DOMAIN.toNat ≤ current.toNat → menu.files ≠ none)
    (h8 : OvirtForeignMenuState.STATE_CDROM_FILE.toNat ≤ current.toNat → menu.cdrom ≠ none) :
    issues_late (ovirt_foreign_menu_next_async_step K menu task current)
    ∧ (ovirt_foreign_menu_next_async_step K menu task current).menu.files = menu.files
    ∧ (ovirt_foreign_menu_next_async_step K menu task current).menu.cdrom = menu.cdrom := by
  have hm := next_async_step_menu K menu task current
  refine ⟨?_, hm.2.2.2.2.1, hm.2.2.2.2.2.1⟩
  cases current
  case STATE_0 => exact case_STATE_API_late menu task
  case STATE_API => exact case_STATE_VM_late menu task
  case STATE_VM => exact case_STATE_HOST_late menu task
  case STATE_HOST => exact case_STATE_CLUSTER_late menu task
  case STATE_CLUSTER => exact case_STATE_DATA_CENTER_late menu task
  case STATE_DATA_CENTER => exact case_STATE_STORAGE_DOMAIN_late menu task
  case STATE_STORAGE_DOMAIN => exact case_STATE_VM_CDROM_late menu task (h6 (by decide))
  case STATE_VM_CDROM => exact case_STATE_CDROM_FILE_late menu task (h6 (by decide))
  case STATE_CDROM_FILE => exact case_STATE_ISOS_late menu task (h8 (by decide))
  case STATE_ISOS => exact issues_late_finish _ _ _

theorem complete_late (K : Govirt) (menu : OvirtForeignMenu) (call : Call) (c : Completion)
    (o : Outcome)
    (hpre : ∀ stage, call.stage = some stage → late_fields menu stage)
    (hcomp : complete K menu call c = some o) :
    issues_late o ∧ (menu.files ≠ none → o.menu.files ≠ none)
      ∧ (menu.cdrom ≠ none → o.menu.cdrom ≠ none) := by
  have hfin : ∀ (m : OvirtForeignMenu) (t : GTask) (r : TaskResult),
      m.files = menu.files → (menu.cdrom ≠ none → m.cdrom ≠ none) →
      issues_late (Outcome.finish m t r)
        ∧ (menu.files ≠ none → (Outcome.finish m t r).menu.files ≠ none)
        ∧ (menu.cdrom ≠ none → (Outcome.finish m t r).menu.cdrom ≠ none) := by
    intro m t r h1 h2
    exact ⟨issues_late_finish _ _ _, fun h => by simpa [Outcome.finish, h1] using h, h2⟩
  have hidle : ∀ (m : OvirtForeignMenu),
      m.files = menu.files → (menu.cdrom ≠ none → m.cdrom ≠ none) →
      issues_late (Outcome.idle m)
        ∧ (menu.files ≠ none → (Outcome.idle m).menu.files ≠ none)
        ∧ (menu.cdrom ≠ none → (Outcome.idle m).menu.cdrom ≠ none) := by
    intro m h1 h2
    exact ⟨issues_late_idle _, fun h => by simpa [Outcome.idle, h1] using h, h2⟩
  have hnext : ∀ (m : OvirtForeignMenu) (t : GTask) (current : OvirtForeignMenuState),
      (menu.files ≠ none → m.files ≠ none) → (menu.cdrom ≠ none → m.cdrom ≠ none) →
      (OvirtForeignMenuState.STATE_STORAGE_DOMAIN.toNat ≤ current.toNat → m.files ≠ none) →
      (OvirtForeignMenuState.STATE_CDROM_FILE.toNat ≤ current.toNat → m.cdrom ≠ none) →
      issues_late (ovirt_foreign_menu_next_async_step K m t current)
        ∧ (menu.files ≠ none →
            (ovirt_foreign_menu_next_async_step K m t current).menu.files ≠ none)
        ∧ (menu.cdrom ≠ none →
            (ovirt_foreign_menu_next_async_step K m t current).menu.cdrom ≠ none) := by
    intro m t current h1 h2 h6 h8
    obtain ⟨hl, hf, hcd⟩ := next_async_step_late K m t current h6 h8
    exact ⟨hl, fun h => by rw [hf]; exact h1 h, fun h => by rw [hcd]; exact h2 h⟩
  cases call <;> cases c <;> simp only [complete, reduceCtorEq] at hcomp
  all_goals
    simp only [Option.some.injEq] at hcomp
    subst hcomp
  case fetch_api.api_fetched t p api error =>
    unfold api_fetched_cb
    dsimp only
    cases error with
    | some e => exact hfin _ _ _ rfl id
    | none =>
      dsimp only
      split
      · exact hidle _ rfl id
      · exact hnext _ _ _ id id (fun h => absurd h (by decide)) (fun h => absurd h (by decide))
  case fetch_vms.vms_fetched t a q vms error =>
    unfold vms_fetched_cb
    cases error with
    | some e => exact hfin _ _ _ rfl id
    | none =>
      dsimp only
      cases hf : vms.find? (fun vm : OvirtVm => decide (g_strcmp0 vm.guid menu.vm_guid = 0)) with
      | none =>
        dsimp only
        split
        · exact hnext _ _ _ id id (fun h => absurd h (by decide))
            (fun h => absurd h (by decide))
        · exact hfin _ _ _ rfl id
      | some vm =>
        dsimp only
        split
        · exact hnext _ _ _ id id (fun h => absurd h (by decide))
            (fun h => absurd h (by decide))
        · exact hfin _ _ _ rfl id
  case refresh_host.host_fetched t h error =>
    unfold host_fetched_cb
    cases error with
    | some e => exact hfin _ _ _ rfl id
    | none =>
      exact hnext _ _ _ id id (fun h => absurd h (by decide)) (fun h => absurd h (by decide))
  case refresh_cluster.cluster_fetched t h error =>
    unfold cluster_fetched_cb
    cases error with
    | some e => exact hfin _ _ _ rfl id
    | none =>
      exact hnext _ _ _ id id (fun h => absurd h (by decide)) (fun h => absurd h (by decide))
  case refresh_data_center.data_center_fetched t h error =>
    unfold data_center_fetched_cb
    cases error with
    | some e => exact hfin _ _ _ rfl id
    | none =>
      exact hnext _ _ _ id id (fun h => absurd h (by decide)) (fun h => absurd h (by decide))
  case fetch_storage_domains.storage_domains_fetched t h domains error =>
    unfold storage_domains_fetched_cb
    cases error with
    | some e => exact hfin _ _ _ rfl id
    | none =>
      dsimp only
      cases hfc : storage_domain_get_files K (storage_domains_loop K menu domains) with
      | none =>
        simp only [ovirt_foreign_menu_set_file_collection, Bool.false_eq_true,
          not_false_eq_true, if_true]
        exact hfin _ _ _ rfl id
      | some fc =>
        simp only [ovirt_foreign_menu_set_file_collection, not_true_eq_false, if_false]
        exact hnext { menu with files := some fc } _ _ (fun _ => by simp) id (fun _ => by simp)
          (fun h => absurd h (by decide))
  case fetch_cdroms.cdroms_fetched t h cdroms error =>
    have hf := (hpre _ rfl).1 (by decide)
    unfold cdroms_fetched_cb
    cases error with
    | some e => exact hfin _ _ _ rfl id
    | none =>
      dsimp only
      cases cdroms with
      | nil =>
        dsimp only
        split
        · exact hnext _ _ _ id id (fun _ => hf) (fun h => absurd h (by decide))
        · exact hfin _ _ _ rfl id
      | cons cd rest =>
        dsimp only
        split
        · exact hnext { menu with cdrom := some cd } _ _ id (fun _ => by simp) (fun _ => hf)
            (fun h => absurd h (by decide))
        · exact hfin { menu with cdrom := some cd } _ _ rfl (fun _ => by simp)
  case refresh_cdrom.cdrom_file_refreshed t cd file error =>
    have hf := (hpre _ rfl).1 (by decide)
    have hcd := (hpre _ rfl).2 (by decide)
    have hset : (set_cdrom_file menu file).cdrom ≠ none := by
      cases hm : menu.cdrom with
      | none => exact absurd hm hcd
      | some x => simp [set_cdrom_file, hm]
    cases error with
    | some e =>
      unfold cdrom_file_refreshed_cb
      exact hfin _ _ _ rfl id
    | none =>
      rw [if_pos rfl]
      unfold cdrom_file_refreshed_cb
      dsimp only
      rw [if_pos hset]
      exact hnext (set_cdrom_file menu file) _ _ id (fun _ => hset) (fun _ => hf)
        (fun _ => hset)
  case fetch_iso_list.iso_list_fetched t fs heap files error =>
    unfold iso_list_fetched_cb
    cases error with
    | some e => exact hfin _ _ _ rfl id
    | none =>
      dsimp only
      refine hfin _ _ _ ?_ ?_
      · rw [set_files_frame]
      · rw [set_files_frame]; exact id
  case update_cdrom.iso_name_set t cd flag updated error =>
    unfold iso_name_set_cb
    cases updated with
    | true =>
      simp only [if_true]
      exact hfin _ _ _ rfl id
    | false =>
      simp only [Bool.false_eq_true, if_false]
      have hset : ∀ f, menu.cdrom ≠ none → (set_cdrom_file menu f).cdrom ≠ none := by
        intro f hcd
        cases hm : menu.cdrom with
        | none => exact absurd hm hcd
        | some x => simp [set_cdrom_file, hm]
      cases error with
      | some e => exact hfin _ _ _ rfl (hset _)
      | none => exact hfin _ _ _ rfl (hset _)

theorem late_inv_after (s : Sys) (done : List Call) (o : Outcome) (hinv : late_inv s)
    (hlate : issues_late o) (hf : s.menu.files ≠ none → o.menu.files ≠ none)
    (hcd : s.menu.cdrom ≠ none → o.menu.cdrom ≠ none) : late_inv (s.after done o) := by
  intro call hmem stage hst
  simp only [Sys.after, List.mem_append] at hmem
  rcases hmem with hmem | hmem
  · have := hinv call (List.diff_subset _ _ hmem) stage hst
    exact ⟨fun h => hf (this.1 h), fun h => hcd (this.2 h)⟩
  · exact hlate call hmem stage hst

theorem step_late (K : Govirt) (s s1 : Sys) (e : Event) (hinv : late_inv s)
    (hstep : step K s e = some s1) : late_inv s1 := by
  cases e with
  | fetch_iso_names task =>
    simp only [step, Option.some.injEq] at hstep
    subst hstep
    obtain ⟨hl, hf, hcd⟩ := next_async_step_late K s.menu task OvirtForeignMenuState.STATE_0
      (fun h => absurd h (by decide)) (fun h => absurd h (by decide))
    exact late_inv_after s [] _ hinv hl (fun h => by
      unfold ovirt_foreign_menu_fetch_iso_names_async; rw [hf]; exact h) (fun h => by
      unfold ovirt_foreign_menu_fetch_iso_names_async; rw [hcd]; exact h)
  | set_current_iso_name image name id task =>
    simp only [step, Option.some.injEq] at hstep
    subst hstep
    apply late_inv_after s [] _ hinv
    · intro call hc stage hs
      unfold ovirt_foreign_menu_set_current_iso_name_async at hc
      split_ifs at hc <;> simp [Outcome.idle, Outcome.issue] at hc
      all_goals
        subst hc
        simp [Call.stage] at hs
    · intro h
      unfold ovirt_foreign_menu_set_current_iso_name_async
      split_ifs <;> simpa [Outcome.idle, Outcome.issue, set_cdrom_file] using h
    · intro h
      unfold ovirt_foreign_menu_set_current_iso_name_async
      obtain ⟨x, hx⟩ := Option.ne_none_iff_exists'.mp h
      split_ifs <;> simp [Outcome.idle, Outcome.issue, set_cdrom_file, hx]
  | completed call c =>
    simp only [step] at hstep
    split at hstep
    case isFalse => cases hstep
    case isTrue hmem =>
    obtain ⟨o, hcomp, hs1⟩ := Option.map_eq_some'.mp hstep
    subst hs1
    obtain ⟨hl, hf, hcd⟩ := complete_late K s.menu call c o (hinv call hmem) hcomp
    exact late_inv_after s [call] o hinv hl hf hcd

theorem run_late (K : Govirt) (events : List Event) (s s1 : Sys) (hinv : late_inv s)
    (hrun : run K s events = some s1) : late_inv s1 := by
  induction events generalizing s with
  | nil =>
    simp only [run, Option.some.injEq] at hrun
    subst hrun
    exact hinv
  | cons e rest ih =>
    simp only [run] at hrun
    cases hstep : step K s e with
    | none => rw [hstep] at hrun; cases hrun
    | some s2 =>
      rw [hstep] at hrun
      exact ih s2 (step_late K s s2 e hinv hstep) hrun

theorem storage_domains_loop_congr (K : Govirt) (m1 m2 : OvirtForeignMenu)
    (domains : List OvirtStorageDomain) (h : m1.data_center = m2.data_center) :
    storage_domains_loop K m1 domains = storage_domains_loop K m2 domains := by
  have hb : storage_domains_body K m1 = storage_domains_body K m2 := by
    funext v d
    simp [storage_domains_body, storage_domain_validate, h]
  unfold storage_domains_loop
  rw [hb]

theorem cooperative_congr (K : Govirt) (remote : Remote) (m m1 : OvirtForeignMenu)
    (hp : m1.proxy = m.proxy)
    (hvm : expected_vm remote m1 = expected_vm remote m)
    (hhost : expected_host remote m1 = expected_host remote m)
    (hcluster : expected_cluster remote m1 = expected_cluster remote m)
    (hdc : expected_data_center remote m1 = expected_data_center remote m)
    (hfiles : m1.files = none → m.files = none)
    (hcdrom : m1.cdrom = none → m.cdrom = none)
    (h : cooperative K remote m) : cooperative K remote m1 := by
  obtain ⟨h1, h2, h3, h4, h5, h6, h7⟩ := h
  refine ⟨by rw [hp]; exact h1, by rw [hvm]; exact h2, by rw [hhost]; exact h3,
    by rw [hcluster]; exact h4, by rw [hdc]; exact h5, ?_, fun h => h7 (hcdrom h)⟩
  intro hf
  have hl := storage_domains_loop_congr K
    { m1 with data_center := expected_data_center remote m }
    { m with data_center := expected_data_center remote m } remote.domains rfl
  rw [hdc, hl]
  exact h6 (hfiles hf)

theorem drive_done (K : Govirt) (remote : Remote) (n : Nat) (s : Sys) (h : s.pending = []) :
    drive K remote n s = some s := by
  cases n with
  | zero => rfl
  | succ n => simp [drive, h]

theorem drive_succ_cons (K : Govirt) (remote : Remote) (n : Nat) (s : Sys) (call : Call)
    (rest : List Call) (h : s.pending = call :: rest) :
    drive K remote (n + 1) s
      = (step K s (Event.completed call (remote.answer call))).bind (drive K remote n) := by
  simp [drive, h]

theorem drive_mono (K : Govirt) (remote : Remote) (n : Nat) (s s1 : Sys)
    (h : drive K remote n s = some s1) (hp : s1.pending = []) :
    drive K remote (n + 1) s = some s1 := by
  induction n generalizing s with
  | zero =>
    simp only [drive, Option.some.injEq] at h
    subst h
    exact drive_done K remote 1 s hp
  | succ n ih =>
    cases hpe : s.pending with
    | nil =>
      rw [drive_done K remote _ s hpe] at h
      rw [drive_done K remote _ s hpe]
      exact h
    | cons call rest =>
      rw [drive_succ_cons K remote _ s call rest hpe] at h ⊢
      cases hs : step K s (Event.completed call (remote.answer call)) with
      | none => rw [hs] at h; cases h
      | some s2 =>
        rw [hs] at h
        exact ih s2 h

theorem drive_mono_le (K : Govirt) (remote : Remote) (n m : Nat) (s s1 : Sys)
    (h : drive K remote n s = some s1) (hp : s1.pending = []) (hle : n ≤ m) :
    drive K remote m s = some s1 := by
  induction m, hle using Nat.le_induction with
  | base => exact h
  | succ k _ ih => exact drive_mono K remote k s s1 ih hp

theorem answer_error (remote : Remote) (call : Call) : (remote.answer call).error = none := by
  cases call <;> rfl

theorem drive_run (K : Govirt) (remote : Remote) (n : Nat) (s s1 : Sys)
    (h : drive K remote n s = some s1) :
    ∃ cs : List (Call × Completion), run K s (completions cs) = some s1
      ∧ ∀ p ∈ cs, p.2.error = none := by
  induction n generalizing s with
  | zero =>
    simp only [drive, Option.some.injEq] at h
    subst h
    exact ⟨[], rfl, by intro p hp; cases hp⟩
  | succ n ih =>
    cases hpe : s.pending with
    | nil =>
      rw [drive_done K remote _ s hpe] at h
      simp only [Option.some.injEq] at h
      subst h
      exact ⟨[], rfl, by intro p hp; cases hp⟩
    | cons call rest =>
      rw [drive_succ_cons K remote _ s call rest hpe] at h
      cases hs : step K s (Event.completed call (remote.answer call)) with
      | none => rw [hs] at h; cases h
      | some s2 =>
        rw [hs] at h
        obtain ⟨cs, hrun, herr⟩ := ih s2 h
        refine ⟨(call, remote.answer call) :: cs, ?_, ?_⟩
        · simp only [completions, List.map_cons, run, hs, Option.bind_some]
          exact hrun
        · intro p hp
          rcases List.mem_cons.mp hp with hp | hp
          · subst hp; exact answer_error remote call
          · exact herr p hp

theorem drive_issue (K : Govirt) (remote : Remote) (n : Nat) (issued : List Call)
    (m : OvirtForeignMenu) (call : Call) (o : Outcome)
    (h : complete K m call (remote.answer call) = some o) :
    drive K remote (n + 1) (Sys.resumed issued (Outcome.issue m call))
      = drive K remote n (Sys.resumed (issued ++ [call]) o) := by
  simp [drive, Sys.resumed, Outcome.issue, step, h, Sys.after, List.diff]

theorem completes_issue (K : Govirt) (remote : Remote) (task : GTask)
    (stages : List OvirtForeignMenuState) (issued : List Call) (m : OvirtForeignMenu)
    (call : Call) (stage : OvirtForeignMenuState) (o : Outcome)
    (hstage : call.stage = some stage)
    (hcomp : complete K m call (remote.answer call) = some o)
    (h : completes K remote task stages (issued ++ [call]) o) :
    completes K remote task (stage :: stages) issued (Outcome.issue m call) := by
  obtain ⟨s, hd, hp, hi, hr⟩ := h
  refine ⟨s, ?_, hp, ?_, hr⟩
  · rw [List.length_cons, drive_issue K remote _ issued m call o hcomp]
    exact hd
  · rw [hi]
    simp [hstage]

theorem completes_finish (K : Govirt) (remote : Remote) (task : GTask) (issued : List Call)
    (m : OvirtForeignMenu) :
    completes K remote task [] issued (Outcome.finish m task (TaskResult.pointer m.iso_names))
    := by
  refine ⟨_, rfl, rfl, ?_, rfl⟩
  simp [Sys.resumed, Outcome.finish]

theorem drive_from_ISOS (K : Govirt) (remote : Remote) (task : GTask) (issued : List Call)
    (m : OvirtForeignMenu) (hf : m.files ≠ none) :
    completes K remote task [OvirtForeignMenuState.STATE_ISOS] issued
      (case_STATE_ISOS m task) := by
  unfold case_STATE_ISOS ovirt_foreign_menu_fetch_iso_list_async
  rw [if_neg hf]
  apply completes_issue K remote task [] issued m (Call.fetch_iso_list task m.files)
    OvirtForeignMenuState.STATE_ISOS
    (Outcome.finish (ovirt_foreign_menu_set_files K remote.heap m remote.files) task
      (TaskResult.pointer (ovirt_foreign_menu_set_files K remote.heap m remote.files).iso_names))
    rfl rfl
  exact completes_finish K remote task _ _

theorem drive_from_CDROM_FILE (K : Govirt) (remote : Remote) (task : GTask)
    (issued : List Call) (m : OvirtForeignMenu) (hf : m.files ≠ none)
    (hcd : m.cdrom ≠ none) :
    completes K remote task
      [OvirtForeignMenuState.STATE_CDROM_FILE, OvirtForeignMenuState.STATE_ISOS] issued
      (case_STATE_CDROM_FILE m task) := by
  unfold case_STATE_CDROM_FILE ovirt_foreign_menu_refresh_cdrom_file_async
  rw [if_neg hcd]
  have hset : (set_cdrom_file m remote.file).cdrom ≠ none := by
    obtain ⟨x, hx⟩ := Option.ne_none_iff_exists'.mp hcd
    simp [set_cdrom_file, hx]
  apply completes_issue K remote task _ issued m (Call.refresh_cdrom task m.cdrom)
    OvirtForeignMenuState.STATE_CDROM_FILE
    (case_STATE_ISOS (set_cdrom_file m remote.file) task) rfl
  · simp only [Remote.answer, complete, if_true]
    unfold cdrom_file_refreshed_cb
    dsimp only
    rw [if_pos hset]
    rfl
  · exact drive_from_ISOS K remote task _ _ hf

theorem drive_from_VM_CDROM (K : Govirt) (remote : Remote) (task : GTask)
    (issued : List Call) (m : OvirtForeignMenu) (hf : m.files ≠ none)
    (hcd : m.cdrom = none → remote.cdroms ≠ []) :
    completes K remote task
      ([OvirtForeignMenuState.STATE_VM_CDROM].filter (field_empty m)
        ++ [OvirtForeignMenuState.STATE_CDROM_FILE, OvirtForeignMenuState.STATE_ISOS]) issued
      (case_STATE_VM_CDROM m task) := by
  unfold case_STATE_VM_CDROM
  by_cases h : m.cdrom = none
  · rw [if_pos h]
    have hl : [OvirtForeignMenuState.STATE_VM_CDROM].filter (field_empty m)
        = [OvirtForeignMenuState.STATE_VM_CDROM] := by
      simp [List.filter, field_empty, h]
    rw [hl]
    unfold ovirt_foreign_menu_fetch_vm_cdrom_async
    cases hc : remote.cdroms with
    | nil => exact absurd hc (hcd h)
    | cons cdrom rest =>
      apply completes_issue K remote task _ issued m
        (Call.fetch_cdroms task (m.vm.bind (fun vm => vm.cdroms)))
        OvirtForeignMenuState.STATE_VM_CDROM
        (case_STATE_CDROM_FILE { m with cdrom := some cdrom } task) rfl
      · simp [Remote.answer, complete, cdroms_fetched_cb, hc,
          ovirt_foreign_menu_next_async_step, OvirtForeignMenuState.toNat]
      · exact drive_from_CDROM_FILE K remote task _ _ hf (by simp)
  · rw [if_neg h]
    have hl : [OvirtForeignMenuState.STATE_VM_CDROM].filter (field_empty m) = [] := by
      simp [List.filter, field_empty, h]
    rw [hl]
    exact drive_from_CDROM_FILE K remote task _ _ hf h

theorem expected_vm_congr (remote : Remote) (m m1 : OvirtForeignMenu) (h : m1.vm = m.vm)
    (hg : m1.vm_guid = m.vm_guid) : expected_vm remote m1 = expected_vm remote m := by
  unfold expected_vm
  rw [h, hg]

theorem expected_host_congr (remote : Remote) (m m1 : OvirtForeignMenu) (h : m1.host = m.host)
    (hprev : expected_vm remote m1 = expected_vm remote m) :
    expected_host remote m1 = expected_host remote m := by
  unfold expected_host
  rw [h, hprev]

theorem expected_cluster_congr (remote : Remote) (m m1 : OvirtForeignMenu)
    (h : m1.cluster = m.cluster)
    (hprev : expected_host remote m1 = expected_host remote m) :
    expected_cluster remote m1 = expected_cluster remote m := by
  unfold expected_cluster
  rw [h, hprev]

theorem expected_data_center_congr (remote : Remote) (m m1 : OvirtForeignMenu)
    (h : m1.data_center = m.data_center)
    (hprev : expected_cluster remote m1 = expected_cluster remote m) :
    expected_data_center remote m1 = expected_data_center remote m := by
  unfold expected_data_center
  rw [h, hprev]

theorem drive_from_STORAGE_DOMAIN (K : Govirt) (remote : Remote) (task : GTask)
    (issued : List Call) (m : OvirtForeignMenu) (hco : cooperative K remote m)
    (hprev : m.data_center ≠ none) :
    completes K remote task
      ([OvirtForeignMenuState.STATE_STORAGE_DOMAIN,
          OvirtForeignMenuState.STATE_VM_CDROM].filter (field_empty m)
        ++ [OvirtForeignMenuState.STATE_CDROM_FILE, OvirtForeignMenuState.STATE_ISOS]) issued
      (case_STATE_STORAGE_DOMAIN m task) := by
  obtain ⟨hp, _, _, _, _, hfiles, hcdrom⟩ := hco
  unfold case_STATE_STORAGE_DOMAIN
  by_cases h : m.files = none
  · rw [if_pos h]
    obtain ⟨dc, hdc⟩ := Option.ne_none_iff_exists'.mp hprev
    have hexp : expected_data_center remote m = some dc := by
      simp [expected_data_center, hdc]
    have hsel := hfiles h
    rw [hexp, storage_domains_loop_congr K { m with data_center := some dc } m remote.domains
      hdc.symm] at hsel
    obtain ⟨fc, hfc⟩ := Option.ne_none_iff_exists'.mp hsel
    have hl : [OvirtForeignMenuState.STATE_STORAGE_DOMAIN,
          OvirtForeignMenuState.STATE_VM_CDROM].filter (field_empty m)
        = OvirtForeignMenuState.STATE_STORAGE_DOMAIN
            :: [OvirtForeignMenuState.STATE_VM_CDROM].filter
                (field_empty { m with files := some fc }) := by
      simp [List.filter, field_empty, h]
    have hfetch : ovirt_foreign_menu_fetch_storage_domain_async m task
        = Outcome.issue m (Call.fetch_storage_domains task dc.storage_domains) := by
      simp [ovirt_foreign_menu_fetch_storage_domain_async, hp, hdc]
    rw [hl, hfetch, List.cons_append]
    apply completes_issue K remote task _ issued m
      (Call.fetch_storage_domains task dc.storage_domains)
      OvirtForeignMenuState.STATE_STORAGE_DOMAIN
      (case_STATE_VM_CDROM { m with files := some fc } task) rfl
    · simp [Remote.answer, complete, storage_domains_fetched_cb, hfc,
        ovirt_foreign_menu_set_file_collection, ovirt_foreign_menu_next_async_step,
        OvirtForeignMenuState.toNat]
    · exact drive_from_VM_CDROM K remote task _ _ (by simp) hcdrom
  · rw [if_neg h]
    have hl : [OvirtForeignMenuState.STATE_STORAGE_DOMAIN,
          OvirtForeignMenuState.STATE_VM_CDROM].filter (field_empty m)
        = [OvirtForeignMenuState.STATE_VM_CDROM].filter (field_empty m) := by
      simp [List.filter, field_empty, h]
    rw [hl]
    exact drive_from_VM_CDROM K remote task _ _ h hcdrom

theorem drive_from_DATA_CENTER (K : Govirt) (remote : Remote) (task : GTask)
    (issued : List Call) (m : OvirtForeignMenu) (hco : cooperative K remote m)
    (hprev : m.cluster ≠ none) :
    completes K remote task
      ([OvirtForeignMenuState.STATE_DATA_CENTER, OvirtForeignMenuState.STATE_STORAGE_DOMAIN,
          OvirtForeignMenuState.STATE_VM_CDROM].filter (field_empty m)
        ++ [OvirtForeignMenuState.STATE_CDROM_FILE, OvirtForeignMenuState.STATE_ISOS]) issued
      (case_STATE_DATA_CENTER m task) := by
  have hp := hco.1
  have hfound := hco.2.2.2.2.1
  unfold case_STATE_DATA_CENTER
  by_cases h : m.data_center = none
  · rw [if_pos h]
    obtain ⟨prev, hprev1⟩ := Option.ne_none_iff_exists'.mp hprev
    have hexp : expected_data_center remote m = prev.data_center := by
      simp [expected_data_center, expected_cluster, h, hprev1]
    rw [hexp] at hfound
    obtain ⟨x, hx⟩ := Option.ne_none_iff_exists'.mp hfound
    have hl : [OvirtForeignMenuState.STATE_DATA_CENTER,
          OvirtForeignMenuState.STATE_STORAGE_DOMAIN,
          OvirtForeignMenuState.STATE_VM_CDROM].filter (field_empty m)
        = OvirtForeignMenuState.STATE_DATA_CENTER
            :: [OvirtForeignMenuState.STATE_STORAGE_DOMAIN,
                OvirtForeignMenuState.STATE_VM_CDROM].filter
                (field_empty { m with data_center := some x }) := by
      simp [List.filter, field_empty, h]
    have hfetch : ovirt_foreign_menu_fetch_data_center_async m task
        = Outcome.issue { m with data_center := some x }
            (Call.refresh_data_center task (some x)) := by
      simp [ovirt_foreign_menu_fetch_data_center_async, hp, hprev1, hx]
    have hdcx : expected_data_center remote { m with data_center := some x }
        = expected_data_center remote m := by
      rw [hexp, hx]
      simp [expected_data_center]
    have hco1 : cooperative K remote { m with data_center := some x } :=
      cooperative_congr K remote m { m with data_center := some x } rfl rfl rfl rfl hdcx id id
        hco
    rw [hl, hfetch, List.cons_append]
    apply completes_issue K remote task _ issued _ (Call.refresh_data_center task (some x))
      OvirtForeignMenuState.STATE_DATA_CENTER
      (case_STATE_STORAGE_DOMAIN { m with data_center := some x } task) rfl rfl
    exact drive_from_STORAGE_DOMAIN K remote task _ _ hco1 (by simp)
  · rw [if_neg h]
    have hl : [OvirtForeignMenuState.STATE_DATA_CENTER,
          OvirtForeignMenuState.STATE_STORAGE_DOMAIN,
          OvirtForeignMenuState.STATE_VM_CDROM].filter (field_empty m)
        = [OvirtForeignMenuState.STATE_STORAGE_DOMAIN,
            OvirtForeignMenuState.STATE_VM_CDROM].filter (field_empty m) := by
      simp [List.filter, field_empty, h]
    rw [hl]
    exact drive_from_STORAGE_DOMAIN K remote task _ _ hco h

theorem drive_from_CLUSTER (K : Govirt) (remote : Remote) (task : GTask)
    (issued : List Call) (m : OvirtForeignMenu) (hco : cooperative K remote m)
    (hprev : m.host ≠ none) :
    completes K remote task
      ([OvirtForeignMenuState.STATE_CLUSTER, OvirtForeignMenuState.STATE_DATA_CENTER,
          OvirtForeignMenuState.STATE_STORAGE_DOMAIN,
          OvirtForeignMenuState.STATE_VM_CDROM].filter (field_empty m)
        ++ [OvirtForeignMenuState.STATE_CDROM_FILE, OvirtForeignMenuState.STATE_ISOS]) issued
      (case_STATE_CLUSTER m task) := by
  have hp := hco.1
  have hfound := hco.2.2.2.1
  unfold case_STATE_CLUSTER
  by_cases h : m.cluster = none
  · rw [if_pos h]
    obtain ⟨prev, hprev1⟩ := Option.ne_none_iff_exists'.mp hprev
    have hexp : expected_cluster remote m = prev.cluster := by
      simp [expected_cluster, expected_host, h, hprev1]
    rw [hexp] at hfound
    obtain ⟨x, hx⟩ := Option.ne_none_iff_exists'.mp hfound
    have hl : [OvirtForeignMenuState.STATE_CLUSTER, OvirtForeignMenuState.STATE_DATA_CENTER,
          OvirtForeignMenuState.STATE_STORAGE_DOMAIN,
          OvirtForeignMenuState.STATE_VM_CDROM].filter (field_empty m)
        = OvirtForeignMenuState.STATE_CLUSTER
            :: [OvirtForeignMenuState.STATE_DATA_CENTER,
                OvirtForeignMenuState.STATE_STORAGE_DOMAIN,
                OvirtForeignMenuState.STATE_VM_CDROM].filter
                (field_empty { m with cluster := some x }) := by
      simp [List.filter, field_empty, h]
    have hfetch : ovirt_foreign_menu_fetch_cluster_async m task
        = Outcome.issue { m with cluster := some x } (Call.refresh_cluster task (some x)) := by
      simp [ovirt_foreign_menu_fetch_cluster_async, hp, hprev1, hx]
    have hcl : expected_cluster remote { m with cluster := some x }
        = expected_cluster remote m := by
      rw [hexp, hx]
      simp [expected_cluster]
    have hco1 : cooperative K remote { m with cluster := some x } :=
      cooperative_congr K remote m _ rfl rfl rfl hcl
        (expected_data_center_congr remote m _ rfl hcl) id id hco
    rw [hl, hfetch, List.cons_append]
    apply completes_issue K remote task _ issued _ (Call.refresh_cluster task (some x))
      OvirtForeignMenuState.STATE_CLUSTER
      (case_STATE_DATA_CENTER { m with cluster := some x } task) rfl rfl
    exact drive_from_DATA_CENTER K remote task _ _ hco1 (by simp)
  · rw [if_neg h]
    have hl : [OvirtForeignMenuState.STATE_CLUSTER, OvirtForeignMenuState.STATE_DATA_CENTER,
          OvirtForeignMenuState.STATE_STORAGE_DOMAIN,
          OvirtForeignMenuState.STATE_VM_CDROM].filter (field_empty m)
        = [OvirtForeignMenuState.STATE_DATA_CENTER,
            OvirtForeignMenuState.STATE_STORAGE_DOMAIN,
            OvirtForeignMenuState.STATE_VM_CDROM].filter (field_empty m) := by
      simp [List.filter, field_empty, h]
    rw [hl]
    exact drive_from_DATA_CENTER K remote task _ _ hco h

theorem drive_from_HOST (K : Govirt) (remote : Remote) (task : GTask)
    (issued : List Call) (m : OvirtForeignMenu) (hco : cooperative K remote m)
    (hprev : m.vm ≠ none) :
    completes K remote task
      ([OvirtForeignMenuState.STATE_HOST, OvirtForeignMenuState.STATE_CLUSTER,
          OvirtForeignMenuState.STATE_DATA_CENTER, OvirtForeignMenuState.STATE_STORAGE_DOMAIN,
          OvirtForeignMenuState.STATE_VM_CDROM].filter (field_empty m)
        ++ [OvirtForeignMenuState.STATE_CDROM_FILE, OvirtForeignMenuState.STATE_ISOS]) issued
      (case_STATE_HOST m task) := by
  have hp := hco.1
  have hfound := hco.2.2.1
  unfold case_STATE_HOST
  by_cases h : m.host = none
  · rw [if_pos h]
    obtain ⟨prev, hprev1⟩ := Option.ne_none_iff_exists'.mp hprev
    have hexp : expected_host remote m = prev.host := by
      simp [expected_host, expected_vm, h, hprev1]
    rw [hexp] at hfound
    obtain ⟨x, hx⟩ := Option.ne_none_iff_exists'.mp hfound
    have hl : [OvirtForeignMenuState.STATE_HOST, OvirtForeignMenuState.STATE_CLUSTER,
          OvirtForeignMenuState.STATE_DATA_CENTER, OvirtForeignMenuState.STATE_STORAGE_DOMAIN,
          OvirtForeignMenuState.STATE_VM_CDROM].filter (field_empty m)
        = OvirtForeignMenuState.STATE_HOST
            :: [OvirtForeignMenuState.STATE_CLUSTER, OvirtForeignMenuState.STATE_DATA_CENTER,
                OvirtForeignMenuState.STATE_STORAGE_DOMAIN,
                OvirtForeignMenuState.STATE_VM_CDROM].filter
                (field_empty { m with host := some x }) := by
      simp [List.filter, field_empty, h]
    have hfetch : ovirt_foreign_menu_fetch_host_async m task
        = Outcome.issue { m with host := some x } (Call.refresh_host task (some x)) := by
      simp [ovirt_foreign_menu_fetch_host_async, hp, hprev1, hx]
    have hh : expected_host remote { m with host := some x } = expected_host remote m := by
      rw [hexp, hx]
      simp [expected_host]
    have hcl := expected_cluster_congr remote m { m with host := some x } rfl hh
    have hco1 : cooperative K remote { m with host := some x } :=
      cooperative_congr K remote m _ rfl rfl hh hcl
        (expected_data_center_congr remote m _ rfl hcl) id id hco
    rw [hl, hfetch, List.cons_append]
    apply completes_issue K remote task _ issued _ (Call.refresh_host task (some x))
      OvirtForeignMenuState.STATE_HOST
      (case_STATE_CLUSTER { m with host := some x } task) rfl rfl
    exact drive_from_CLUSTER K remote task _ _ hco1 (by simp)
  · rw [if_neg h]
    have hl : [OvirtForeignMenuState.STATE_HOST, OvirtForeignMenuState.STATE_CLUSTER,
          OvirtForeignMenuState.STATE_DATA_CENTER, OvirtForeignMenuState.STATE_STORAGE_DOMAIN,
          OvirtForeignMenuState.STATE_VM_CDROM].filter (field_empty m)
        = [OvirtForeignMenuState.STATE_CLUSTER, OvirtForeignMenuState.STATE_DATA_CENTER,
            OvirtForeignMenuState.STATE_STORAGE_DOMAIN,
            OvirtForeignMenuState.STATE_VM_CDROM].filter (field_empty m) := by
      simp [List.filter, field_empty, h]
    rw [hl]
    exact drive_from_CLUSTER K remote task _ _ hco h

theorem drive_from_VM (K : Govirt) (remote : Remote) (task : GTask)
    (issued : List Call) (m : OvirtForeignMenu) (hco : cooperative K remote m)
    (hprev : m.api ≠ none) :
    completes K remote task
      ([OvirtForeignMenuState.STATE_VM, OvirtForeignMenuState.STATE_HOST,
          OvirtForeignMenuState.STATE_CLUSTER,
          OvirtForeignMenuState.STATE_DATA_CENTER, OvirtForeignMenuState.STATE_STORAGE_DOMAIN,
          OvirtForeignMenuState.STATE_VM_CDROM].filter (field_empty m)
        ++ [OvirtForeignMenuState.STATE_CDROM_FILE, OvirtForeignMenuState.STATE_ISOS]) issued
      (case_STATE_VM m task) := by
  have hp := hco.1
  have hfound := hco.2.1
  unfold case_STATE_VM
  by_cases h : m.vm = none
  · rw [if_pos h]
    have hexp : expected_vm remote m
        = remote.vms.find? (fun vm => decide (g_strcmp0 vm.guid m.vm_guid = 0)) := by
      simp [expected_vm, h]
    rw [hexp] at hfound
    obtain ⟨x, hx⟩ := Option.ne_none_iff_exists'.mp hfound
    have hl : [OvirtForeignMenuState.STATE_VM, OvirtForeignMenuState.STATE_HOST,
          OvirtForeignMenuState.STATE_CLUSTER,
          OvirtForeignMenuState.STATE_DATA_CENTER, OvirtForeignMenuState.STATE_STORAGE_DOMAIN,
          OvirtForeignMenuState.STATE_VM_CDROM].filter (field_empty m)
        = OvirtForeignMenuState.STATE_VM
            :: [OvirtForeignMenuState.STATE_HOST, OvirtForeignMenuState.STATE_CLUSTER,
                OvirtForeignMenuState.STATE_DATA_CENTER,
                OvirtForeignMenuState.STATE_STORAGE_DOMAIN,
                OvirtForeignMenuState.STATE_VM_CDROM].filter
                (field_empty { m with vm := some x }) := by
      simp [List.filter, field_empty, h]
    have hfetch : ovirt_foreign_menu_fetch_vm_async m task
        = Outcome.issue m (Call.fetch_vms task m.api (ascii "id=" ++ printf_s m.vm_guid)) := by
      simp [ovirt_foreign_menu_fetch_vm_async, hp, hprev]
    have hv : expected_vm remote { m with vm := some x } = expected_vm remote m := by
      rw [hexp, hx]
      simp [expected_vm]
    have hh := expected_host_congr remote m { m with vm := some x } rfl hv
    have hcl := expected_cluster_congr remote m { m with vm := some x } rfl hh
    have hco1 : cooperative K remote { m with vm := some x } :=
      cooperative_congr K remote m _ rfl hv hh hcl
        (expected_data_center_congr remote m _ rfl hcl) id id hco
    rw [hl, hfetch, List.cons_append]
    apply completes_issue K remote task _ issued _
      (Call.fetch_vms task m.api (ascii "id=" ++ printf_s m.vm_guid))
      OvirtForeignMenuState.STATE_VM
      (case_STATE_HOST { m with vm := some x } task) rfl
    · simp [Remote.answer, complete, vms_fetched_cb, hx,
        ovirt_foreign_menu_next_async_step, OvirtForeignMenuState.toNat]
    · exact drive_from_HOST K remote task _ _ hco1 (by simp)
  · rw [if_neg h]
    have hl : [OvirtForeignMenuState.STATE_VM, OvirtForeignMenuState.STATE_HOST,
          OvirtForeignMenuState.STATE_CLUSTER,
          OvirtForeignMenuState.STATE_DATA_CENTER, OvirtForeignMenuState.STATE_STORAGE_DOMAIN,
          OvirtForeignMenuState.STATE_VM_CDROM].filter (field_empty m)
        = [OvirtForeignMenuState.STATE_HOST, OvirtForeignMenuState.STATE_CLUSTER,
            OvirtForeignMenuState.STATE_DATA_CENTER,
            OvirtForeignMenuState.STATE_STORAGE_DOMAIN,
            OvirtForeignMenuState.STATE_VM_CDROM].filter (field_empty m) := by
      simp [List.filter, field_empty, h]
    rw [hl]
    exact drive_from_HOST K remote task _ _ hco h

theorem drive_from_API (K : Govirt) (remote : Remote) (task : GTask)
    (issued : List Call) (m : OvirtForeignMenu) (hco : cooperative K remote m) :
    completes K remote task (stages_to_run m) issued (case_STATE_API m task) := by
  have hp := hco.1
  unfold case_STATE_API stages_to_run cached_stages
  by_cases h : m.api = none
  · rw [if_pos h]
    have hl : [OvirtForeignMenuState.STATE_API, OvirtForeignMenuState.STATE_VM,
          OvirtForeignMenuState.STATE_HOST, OvirtForeignMenuState.STATE_CLUSTER,
          OvirtForeignMenuState.STATE_DATA_CENTER, OvirtForeignMenuState.STATE_STORAGE_DOMAIN,
          OvirtForeignMenuState.STATE_VM_CDROM].filter (field_empty m)
        = OvirtForeignMenuState.STATE_API
            :: [OvirtForeignMenuState.STATE_VM, OvirtForeignMenuState.STATE_HOST,
                OvirtForeignMenuState.STATE_CLUSTER, OvirtForeignMenuState.STATE_DATA_CENTER,
                OvirtForeignMenuState.STATE_STORAGE_DOMAIN,
                OvirtForeignMenuState.STATE_VM_CDROM].filter
                (field_empty { m with api := some remote.api }) := by
      simp [List.filter, field_empty, h]
    have hfetch : ovirt_foreign_menu_fetch_api_async m task
        = Outcome.issue m (Call.fetch_api task m.proxy) := by
      simp [ovirt_foreign_menu_fetch_api_async, hp]
    have hco1 : cooperative K remote { m with api := some remote.api } :=
      cooperative_congr K remote m _ rfl rfl rfl rfl rfl id id hco
    rw [hl, hfetch, List.cons_append]
    apply completes_issue K remote task _ issued _ (Call.fetch_api task m.proxy)
      OvirtForeignMenuState.STATE_API
      (case_STATE_VM { m with api := some remote.api } task) rfl
    · simp [Remote.answer, complete, api_fetched_cb,
        ovirt_foreign_menu_next_async_step, OvirtForeignMenuState.toNat]
    · exact drive_from_VM K remote task _ _ hco1 (by simp)
  · rw [if_neg h]
    have hl : [OvirtForeignMenuState.STATE_API, OvirtForeignMenuState.STATE_VM,
          OvirtForeignMenuState.STATE_HOST, OvirtForeignMenuState.STATE_CLUSTER,
          OvirtForeignMenuState.STATE_DATA_CENTER, OvirtForeignMenuState.STATE_STORAGE_DOMAIN,
          OvirtForeignMenuState.STATE_VM_CDROM].filter (field_empty m)
        = [OvirtForeignMenuState.STATE_VM, OvirtForeignMenuState.STATE_HOST,
            OvirtForeignMenuState.STATE_CLUSTER, OvirtForeignMenuState.STATE_DATA_CENTER,
            OvirtForeignMenuState.STATE_STORAGE_DOMAIN,
            OvirtForeignMenuState.STATE_VM_CDROM].filter (field_empty m) := by
      simp [List.filter, field_empty, h]
    rw [hl]
    exact drive_from_VM K remote task _ _ hco h

theorem stages_to_run_nodup (menu : OvirtForeignMenu) :
    ((stages_to_run menu).map some).Nodup := by
  apply List.Nodup.map (fun a b h => Option.some.inj h)
  have hsub : (stages_to_run menu).Sublist
      (cached_stages
        ++ [OvirtForeignMenuState.STATE_CDROM_FILE, OvirtForeignMenuState.STATE_ISOS]) :=
    List.Sublist.append (List.filter_sublist _) (List.Sublist.refl _)
  exact List.Nodup.sublist hsub (by decide)

/-! ## The claims -/

/-- C1, as the code has it. For every cache state and every just-completed state `current`
from START through STORAGE_DOMAIN, one invocation of `ovirt_foreign_menu_next_async_step`
completes no task and issues at most one call. The call is the fetch of the first stage after
`current` whose cache field is empty, or the CDROM_FILE refresh when none is empty; it is
issued when the checks made by the function of that stage pass (the proxy is set and so is
the object the call is made from), and nothing is issued when they fail. The checks pass
whenever the proxy is set and the fields of the stages up to `current` are populated. When
api, vm, host, cluster, data_center and files are populated and cdrom is empty, a run from
START issues exactly one call, the VM_CDROM fetch. -/
theorem next_async_step_first_unresolved (K : Govirt) (menu : OvirtForeignMenu) (task : GTask)
    (current : OvirtForeignMenuState)
    (hcur : current.toNat ≤ OvirtForeignMenuState.STATE_STORAGE_DOMAIN.toNat) :
    (ovirt_foreign_menu_next_async_step K menu task current).returns = []
    ∧ (stage_ready menu (first_unresolved menu current) = true →
        ∃ call, (ovirt_foreign_menu_next_async_step K menu task current).calls = [call]
          ∧ call.stage = some (first_unresolved menu current) ∧ call.task = task)
    ∧ (stage_ready menu (first_unresolved menu current) = false →
        (ovirt_foreign_menu_next_async_step K menu task current).calls = [])
    ∧ (menu.proxy ≠ none →
        (∀ s ∈ cached_stages, s.toNat ≤ current.toNat → field_empty menu s = false) →
        stage_ready menu (first_unresolved menu current) = true)
    ∧ (menu.api ≠ none → menu.vm ≠ none → menu.host ≠ none → menu.cluster ≠ none →
        menu.data_center ≠ none → menu.files ≠ none → menu.cdrom = none →
        (ovirt_foreign_menu_fetch_iso_names_async K menu task).calls
          = [Call.fetch_cdroms task (menu.vm.bind (fun vm => vm.cdroms))]) := by
  have h := next_async_step_issues K menu task current hcur
  refine ⟨h.1, h.2.1, h.2.2, next_async_step_ready menu current hcur, ?_⟩
  intro h1 h2 h3 h4 h5 h6 h7
  simp [ovirt_foreign_menu_fetch_iso_names_async, ovirt_foreign_menu_next_async_step,
    OvirtForeignMenuState.toNat, case_STATE_API, case_STATE_VM, case_STATE_HOST,
    case_STATE_CLUSTER, case_STATE_DATA_CENTER, case_STATE_STORAGE_DOMAIN, case_STATE_VM_CDROM,
    ovirt_foreign_menu_fetch_vm_cdrom_async, Outcome.issue, h1, h2, h3, h4, h5, h6, h7]

/-- C1, witness: on a cache filled up to the file collection and without cdrom, the one call
of a run from START is the VM_CDROM fetch. -/
theorem next_async_step_first_unresolved_witness :
    (∃ call, (ovirt_foreign_menu_next_async_step example_govirt example_menu_no_cdrom 7
        OvirtForeignMenuState.STATE_0).calls = [call]
      ∧ call.stage = some (first_unresolved example_menu_no_cdrom OvirtForeignMenuState.STATE_0)
      ∧ call.task = 7)
    ∧ (ovirt_foreign_menu_fetch_iso_names_async example_govirt example_menu_no_cdrom 7).calls
        = [Call.fetch_cdroms 7 (example_menu_no_cdrom.vm.bind (fun vm => vm.cdroms))] :=
  ⟨(next_async_step_first_unresolved example_govirt example_menu_no_cdrom 7
      OvirtForeignMenuState.STATE_0 (by decide)).2.1 (by decide),
   (next_async_step_first_unresolved example_govirt example_menu_no_cdrom 7
      OvirtForeignMenuState.STATE_0 (by decide)).2.2.2.2
      (by decide) (by decide) (by decide) (by decide) (by decide) (by decide) (by decide)⟩

/-- C1, counterexample to the claim as stated. With the proxy set and an empty cache, the
invocation for the just-completed state API is to fetch the VM stage (the first stage after
API whose field is empty) and issues no call at all, because `api` is not set. And on a menu
built without a proxy, the invocation for START is to fetch the API stage and issues no call
either. -/
theorem next_async_step_no_call_example :
    OvirtForeignMenuState.STATE_API.toNat ≤ OvirtForeignMenuState.STATE_STORAGE_DOMAIN.toNat
    ∧ first_unresolved example_menu_empty OvirtForeignMenuState.STATE_API
        = OvirtForeignMenuState.STATE_VM
    ∧ (ovirt_foreign_menu_next_async_step example_govirt example_menu_empty 7
        OvirtForeignMenuState.STATE_API).calls = []
    ∧ first_unresolved example_menu_no_proxy OvirtForeignMenuState.STATE_0
        = OvirtForeignMenuState.STATE_API
    ∧ (ovirt_foreign_menu_next_async_step example_govirt example_menu_no_proxy 7
        OvirtForeignMenuState.STATE_0).calls = [] := by
  decide

/-- C2. Cached data never makes the pipeline skip a terminal stage. On a cache in which api,
vm, host, cluster, data_center, files and cdrom are all populated, a run started from START
issues the CDROM_FILE refresh of the cdrom as its first call and, when that refresh succeeds,
issues the ISOS fetch of the file collection next. And for every cache state and every run
started from START, whatever the remote answers: if the run hands a list to the caller, the
last two calls it has issued are the CDROM_FILE refresh and, after it, the ISOS fetch. -/
theorem terminal_stages_never_skipped (K : Govirt) (menu : OvirtForeignMenu) (task : GTask) :
    (menu.api ≠ none → menu.vm ≠ none → menu.host ≠ none → menu.cluster ≠ none →
      menu.data_center ≠ none → menu.files ≠ none → menu.cdrom ≠ none →
      (ovirt_foreign_menu_fetch_iso_names_async K menu task
          = { menu := menu, calls := [Call.refresh_cdrom task menu.cdrom], returns := [] })
      ∧ ∀ file, ∃ s,
          run K (Sys.init menu)
            [Event.fetch_iso_names task,
             Event.completed (Call.refresh_cdrom task menu.cdrom)
               (Completion.cdrom_file_refreshed file none)] = some s
          ∧ s.issued = [Call.refresh_cdrom task menu.cdrom, Call.fetch_iso_list task menu.files]
          ∧ s.pending = [Call.fetch_iso_list task menu.files]
          ∧ s.returns = [])
    ∧ (∀ (cs : List (Call × Completion)) (s : Sys),
        run K (Sys.init menu) (Event.fetch_iso_names task :: completions cs) = some s →
        ∀ t l, (t, TaskResult.pointer l) ∈ s.returns →
          ∃ pre cdrom files,
            s.issued = pre ++ [Call.refresh_cdrom t cdrom, Call.fetch_iso_list t files]) := by
  constructor
  · intro h1 h2 h3 h4 h5 h6 h7
    have hfirst : ovirt_foreign_menu_fetch_iso_names_async K menu task
        = { menu := menu, calls := [Call.refresh_cdrom task menu.cdrom], returns := [] } := by
      simp [ovirt_foreign_menu_fetch_iso_names_async, ovirt_foreign_menu_next_async_step,
        OvirtForeignMenuState.toNat, case_STATE_API, case_STATE_VM, case_STATE_HOST,
        case_STATE_CLUSTER, case_STATE_DATA_CENTER, case_STATE_STORAGE_DOMAIN,
        case_STATE_VM_CDROM, case_STATE_CDROM_FILE, ovirt_foreign_menu_refresh_cdrom_file_async,
        Outcome.issue, h1, h2, h3, h4, h5, h6, h7]
    refine ⟨hfirst, ?_⟩
    intro file
    have hc : (set_cdrom_file menu file).cdrom ≠ none := by
      cases hcd : menu.cdrom with
      | none => exact absurd hcd h7
      | some cd => simp [set_cdrom_file, hcd]
    have hf : (set_cdrom_file menu file).files = menu.files := rfl
    simp [run, step, hfirst, Sys.after, Sys.init, List.diff, complete, cdrom_file_refreshed_cb,
      hc, ovirt_foreign_menu_next_async_step, OvirtForeignMenuState.toNat, case_STATE_ISOS,
      ovirt_foreign_menu_fetch_iso_list_async, hf, h6, Outcome.issue]
  · intro cs s hrun t l hm
    simp only [run, step, Option.bind_some] at hrun
    have hinv := run_completions_inv K cs _ s (fetch_iso_names_inv K menu task) hrun
    exact (hinv.2.2 t l hm).2

/-- C2, witness: the run on the full cache of the examples. -/
theorem terminal_stages_never_skipped_witness :
    ovirt_foreign_menu_fetch_iso_names_async example_govirt example_menu_full 7
      = { menu := example_menu_full, calls := [Call.refresh_cdrom 7 example_menu_full.cdrom],
          returns := [] }
    ∧ ∃ s,
        run example_govirt (Sys.init example_menu_full)
          [Event.fetch_iso_names 7,
           Event.completed (Call.refresh_cdrom 7 example_menu_full.cdrom)
             (Completion.cdrom_file_refreshed (some (ascii "id-a")) none)] = some s
        ∧ s.issued = [Call.refresh_cdrom 7 example_menu_full.cdrom,
            Call.fetch_iso_list 7 example_menu_full.files]
        ∧ s.pending = [Call.fetch_iso_list 7 example_menu_full.files]
        ∧ s.returns = [] :=
  have h := (terminal_stages_never_skipped example_govirt example_menu_full 7).1
    (by decide) (by decide) (by decide) (by decide) (by decide) (by decide) (by decide)
  ⟨h.1, h.2 (some (ascii "id-a"))⟩

/-- C3. For every stage of the pipeline: when the call that the sequencer has issued for the
stage completes with an error, its completion callback reports that error to the caller of
the task, issues no further call, and every cache field that was populated before the call
was issued (and every field populated when it was issued) is still populated, with the same
value. -/
theorem failed_call_aborts_pipeline (K : Govirt) (menu : OvirtForeignMenu) (task : GTask)
    (current : OvirtForeignMenuState) (call : Call) (c : Completion) (e : GError) (o : Outcome)
    (hissued : (ovirt_foreign_menu_next_async_step K menu task current).calls = [call])
    (herror : c.error = some e)
    (hcompleted :
      complete K (ovirt_foreign_menu_next_async_step K menu task current).menu call c = some o) :
    o.returns = [(task, TaskResult.error e)]
    ∧ o.calls = []
    ∧ keeps_populated menu o.menu
    ∧ keeps_populated (ovirt_foreign_menu_next_async_step K menu task current).menu o.menu := by
  obtain ⟨htask, hstage, hapi⟩ := next_async_step_call K menu task current call hissued
  have hfill := next_async_step_menu K menu task current
  have hapi1 : ∀ t p, call = Call.fetch_api t p →
      (ovirt_foreign_menu_next_async_step K menu task current).menu.api = none := by
    intro t p hc
    rw [hfill.2.1]
    exact hapi t p hc
  have h := complete_error K _ call c e o herror hstage hapi1 hcompleted
  rw [htask] at h
  exact ⟨h.1, h.2.1,
    keeps_populated_trans _ _ _ (only_fills_refs_keeps _ _ hfill) h.2.2, h.2.2⟩

/-- C3, witness: on the empty cache the sequencer issues the fetch of the API; when that fetch
fails the error goes to the caller and nothing else happens. -/
theorem failed_call_aborts_pipeline_witness :
    (api_fetched_cb example_govirt example_menu_empty 7 none
        (some { domain := 2, code := 5, message := ascii "timeout" })).returns
      = [(7, TaskResult.error { domain := 2, code := 5, message := ascii "timeout" })]
    ∧ (api_fetched_cb example_govirt example_menu_empty 7 none
        (some { domain := 2, code := 5, message := ascii "timeout" })).calls = []
    ∧ keeps_populated example_menu_empty
        (api_fetched_cb example_govirt example_menu_empty 7 none
          (some { domain := 2, code := 5, message := ascii "timeout" })).menu
    ∧ keeps_populated example_menu_empty
        (api_fetched_cb example_govirt example_menu_empty 7 none
          (some { domain := 2, code := 5, message := ascii "timeout" })).menu :=
  failed_call_aborts_pipeline example_govirt example_menu_empty 7 OvirtForeignMenuState.STATE_0
    (Call.fetch_api 7 (some example_proxy))
    (Completion.api_fetched none (some { domain := 2, code := 5, message := ascii "timeout" }))
    { domain := 2, code := 5, message := ascii "timeout" }
    (api_fetched_cb example_govirt example_menu_empty 7 none
      (some { domain := 2, code := 5, message := ascii "timeout" }))
    (by decide) rfl rfl

/-- C4. With ISO ranked above data by the library (`OVIRT_STORAGE_DOMAIN_TYPE_DATA <
OVIRT_STORAGE_DOMAIN_TYPE_ISO`) and a current data center: for every fetched collection of
storage domains, in whatever order it is enumerated, the domain kept by the loop of
`storage_domains_fetched_cb` is the first enumerated valid ISO domain if there is a valid ISO
domain, otherwise the first enumerated valid data domain if there is one, otherwise none.
Given one valid data domain and one valid ISO domain, the ISO domain is kept whichever comes
first, and its file collection becomes the file collection of the cache. -/
theorem storage_domains_loop_selects (K : Govirt) (menu : OvirtForeignMenu)
    (hK : K.OVIRT_STORAGE_DOMAIN_TYPE_DATA < K.OVIRT_STORAGE_DOMAIN_TYPE_ISO)
    (hdc : menu.data_center ≠ none) :
    (∀ domains, storage_domains_loop K menu domains = select_domain K menu domains)
    ∧ (∀ (d i : OvirtStorageDomain) (task : GTask),
        valid_of_type K menu K.OVIRT_STORAGE_DOMAIN_TYPE_DATA d = true →
        valid_of_type K menu K.OVIRT_STORAGE_DOMAIN_TYPE_ISO i = true →
        storage_domains_loop K menu [d, i] = some i
        ∧ storage_domains_loop K menu [i, d] = some i
        ∧ ∀ c, i.files = some c →
            (storage_domains_fetched_cb K menu task [d, i] none).menu.files = some c
            ∧ (storage_domains_fetched_cb K menu task [i, d] none).menu.files = some c) := by
  have _ := hdc
  refine ⟨storage_domains_loop_eq_select K menu hK, ?_⟩
  intro d i task hd hi
  simp only [valid_of_type, Bool.and_eq_true, decide_eq_true_eq] at hd hi
  have hdi : valid_of_type K menu K.OVIRT_STORAGE_DOMAIN_TYPE_ISO d = false := by
    simp [valid_of_type, hd.1, hd.2]; omega
  have hii : valid_of_type K menu K.OVIRT_STORAGE_DOMAIN_TYPE_ISO i = true := by
    simp [valid_of_type, hi.1, hi.2]
  have h1 : storage_domains_loop K menu [d, i] = some i := by
    rw [storage_domains_loop_eq_select K menu hK]
    simp [select_domain, List.find?_cons, hdi, hii]
  have h2 : storage_domains_loop K menu [i, d] = some i := by
    rw [storage_domains_loop_eq_select K menu hK]
    simp [select_domain, List.find?_cons, hii]
  refine ⟨h1, h2, ?_⟩
  intro c hc
  have hcb : ∀ l, storage_domains_loop K menu l = some i →
      (storage_domains_fetched_cb K menu task l none).menu.files = some c := by
    intro l hl
    simp only [storage_domains_fetched_cb, hl, storage_domain_get_files, hi.2, if_true, hc,
      ovirt_foreign_menu_set_file_collection, Bool.not_true, not_true_eq_false, if_false]
    rw [(next_async_step_menu K _ task OvirtForeignMenuState.STATE_STORAGE_DOMAIN).2.2.2.2.1]
  exact ⟨hcb _ h1, hcb _ h2⟩

/-- C4, witness: with a valid data domain and a valid ISO domain attached to the data center
of the menu, the ISO domain is kept in both orders and its files become the files of the
cache. -/
theorem storage_domains_loop_selects_witness :
    storage_domains_loop example_govirt example_menu_no_cdrom
        [example_domain_data, example_domain_iso] = some example_domain_iso
    ∧ storage_domains_loop example_govirt example_menu_no_cdrom
        [example_domain_iso, example_domain_data] = some example_domain_iso
    ∧ (storage_domains_fetched_cb example_govirt example_menu_no_cdrom 7
        [example_domain_data, example_domain_iso] none).menu.files = example_domain_iso.files
    ∧ (storage_domains_fetched_cb example_govirt example_menu_no_cdrom 7
        [example_domain_iso, example_domain_data] none).menu.files = example_domain_iso.files :=
  have h := (storage_domains_loop_selects example_govirt example_menu_no_cdrom
    (by decide) (by decide)).2 example_domain_data example_domain_iso 7 (by decide) (by decide)
  ⟨h.1, h.2.1, (h.2.2 _ rfl).1, (h.2.2 _ rfl).2⟩

/-- C5. For every storage domain and every current data center, `storage_domain_validate`
returns true if and only if the type of the domain is ISO or data, its state is active, and
the identifier of the data center is an element of the list of the data center identifiers of
the domain. -/
theorem storage_domain_validate_iff (K : Govirt) (menu : OvirtForeignMenu)
    (data_center : OvirtDataCenter) (domain : OvirtStorageDomain)
    (hdc : menu.data_center = some data_center) :
    storage_domain_validate K menu domain = true ↔
      (domain.type = K.OVIRT_STORAGE_DOMAIN_TYPE_ISO
        ∨ domain.type = K.OVIRT_STORAGE_DOMAIN_TYPE_DATA)
      ∧ domain.state = K.OVIRT_STORAGE_DOMAIN_STATE_ACTIVE
      ∧ ∃ guid ids, data_center.guid = some guid ∧ domain.data_center_ids = some ids
          ∧ guid ∈ ids := by
  have hatt : storage_domain_attached_to_data_center domain menu.data_center = true ↔
      ∃ guid ids, data_center.guid = some guid ∧ domain.data_center_ids = some ids
        ∧ guid ∈ ids := by
    unfold storage_domain_attached_to_data_center
    rw [hdc]
    have hb : (some data_center).bind (fun d => d.guid) = data_center.guid := rfl
    cases hg : data_center.guid with
    | none => cases hi : domain.data_center_ids <;> simp [hb, hg, g_strv_contains]
    | some guid =>
      cases hi : domain.data_center_ids with
      | none => simp [hb, hg, g_strv_contains]
      | some ids => simp [hb, hg, g_strv_contains_iff]
  rw [← hatt]
  unfold storage_domain_validate
  by_cases h1 : domain.type = K.OVIRT_STORAGE_DOMAIN_TYPE_ISO
    <;> by_cases h2 : domain.type = K.OVIRT_STORAGE_DOMAIN_TYPE_DATA
    <;> by_cases h3 : domain.state = K.OVIRT_STORAGE_DOMAIN_STATE_ACTIVE
    <;> by_cases h4 : storage_domain_attached_to_data_center domain menu.data_center = true
    <;> simp [h1, h2, h3, h4]

/-- C5, witness: an active ISO domain attached to the data center of the menu. -/
theorem storage_domain_validate_iff_witness :
    storage_domain_validate example_govirt example_menu_no_cdrom example_domain_iso = true ↔
      (example_domain_iso.type = example_govirt.OVIRT_STORAGE_DOMAIN_TYPE_ISO
        ∨ example_domain_iso.type = example_govirt.OVIRT_STORAGE_DOMAIN_TYPE_DATA)
      ∧ example_domain_iso.state = example_govirt.OVIRT_STORAGE_DOMAIN_STATE_ACTIVE
      ∧ ∃ guid ids, example_data_center.guid = some guid
          ∧ example_domain_iso.data_center_ids = some ids ∧ guid ∈ ids :=
  storage_domain_validate_iff example_govirt example_menu_no_cdrom example_data_center
    example_domain_iso rfl

/-- C6. For every list of remote file entries, the list that `ovirt_foreign_menu_set_files`
computes holds exactly the (name, id) pairs of the entries whose display name ends with
`.iso` (and whose content type is ISO, when disk introspection is compiled in and the entry
is a disk), each as often as it occurs. For entries named `disk.img`, `ubuntu.iso`,
`readme.txt`, `Debian.ISO` the only entry kept is `ubuntu.iso`. -/
theorem set_files_keeps_iso_entries (K : Govirt) (heap : Heap) (menu : OvirtForeignMenu)
    (files : List OvirtResource) :
    (((set_files_loop K heap menu files).sorted_files.map GStrv.pair).Perm
      ((files.filter (is_iso_entry K)).map entry_pair))
    ∧ (∀ p, p ∈ (set_files_loop K heap menu files).sorted_files.map GStrv.pair ↔
        ∃ it ∈ files, is_iso_entry K it = true ∧ entry_pair it = p)
    ∧ (∀ id1 id2 id3 id4 : String,
        (set_files_loop K heap menu
          [example_file "disk.img" id1, example_file "ubuntu.iso" id2,
           example_file "readme.txt" id3, example_file "Debian.ISO" id4]).sorted_files.map
            GStrv.pair
          = [(some (ascii "ubuntu.iso"), some (ascii id2))]) := by
  have hperm := set_files_keeps_iso_entries_aux K heap menu
  refine ⟨hperm files, ?_, ?_⟩
  · intro p
    rw [(hperm files).mem_iff]
    simp only [List.mem_map, List.mem_filter]
    constructor
    · rintro ⟨it, ⟨hm, hi⟩, hp⟩
      exact ⟨it, hm, hi, hp⟩
    · rintro ⟨it, hm, hi, hp⟩
      exact ⟨it, ⟨hm, hi⟩, hp⟩
  · intro id1 id2 id3 id4
    have h := hperm [example_file "disk.img" id1, example_file "ubuntu.iso" id2,
      example_file "readme.txt" id3, example_file "Debian.ISO" id4]
    have hf : ([example_file "disk.img" id1, example_file "ubuntu.iso" id2,
        example_file "readme.txt" id3, example_file "Debian.ISO" id4].filter
          (is_iso_entry K)).map entry_pair
        = [(some (ascii "ubuntu.iso"), some (ascii id2))] := by
      have e1 : is_iso_entry K (example_file "disk.img" id1) = false := by
        simp [is_iso_entry, example_file]; decide
      have e2 : is_iso_entry K (example_file "ubuntu.iso" id2) = true := by
        simp [is_iso_entry, example_file]; decide
      have e3 : is_iso_entry K (example_file "readme.txt" id3) = false := by
        simp [is_iso_entry, example_file]; decide
      have e4 : is_iso_entry K (example_file "Debian.ISO" id4) = false := by
        simp [is_iso_entry, example_file]; decide
      simp only [List.filter, e1, e2, e3, e4, List.map_cons, List.map_nil]
      simp [entry_pair, example_file]
    rw [hf] at h
    exact List.perm_singleton.mp h

/-- C7, the code at an input where it departs from the claim: the list is ordered by the
bytes of the pointers of the arrays, not by the display names. With an allocator that hands
out increasing addresses, the entries `b.iso`, `a.iso` received in this order give the list
`b.iso`, `a.iso`, which is not in the order of the names, and the same entries received in
the other order give `a.iso`, `b.iso`. -/
theorem set_files_order_example :
    (set_files_loop example_govirt (example_heap 0x55d0c8a412a0) example_menu_full
        [example_file "b.iso" "id-b", example_file "a.iso" "id-a"]).sorted_files.map GStrv.pair
      = [(some (ascii "b.iso"), some (ascii "id-b")), (some (ascii "a.iso"), some (ascii "id-a"))]
    ∧ 0 < g_strcmp0 (some (ascii "b.iso")) (some (ascii "a.iso"))
    ∧ (set_files_loop example_govirt (example_heap 0x55d0c8a412a0) example_menu_full
        [example_file "a.iso" "id-a", example_file "b.iso" "id-b"]).sorted_files.map GStrv.pair
      = [(some (ascii "a.iso"), some (ascii "id-a")), (some (ascii "b.iso"), some (ascii "id-b"))]
    := by
  decide

/-- C8, the code at an input where it departs from the claim: the second loop compares the
bytes of the pointers of the arrays, not the display names. The cached list holds `a.iso` and
the newly computed list holds `a.iso`: same length, equal names at every position. The arrays
are distinct allocations, the comparison tells them apart, and the cached list is replaced by
the new one (here with another identifier) instead of being kept. -/
theorem set_files_replaces_example :
    (set_files_loop example_govirt (example_heap 0x55d0c8a412a0) example_menu_listed
        [example_file "a.iso" "id-2"]).sorted_files.map GStrv.name
      = example_menu_listed.iso_names.map GStrv.name
    ∧ set_files_compare
        (set_files_loop example_govirt (example_heap 0x55d0c8a412a0) example_menu_listed
          [example_file "a.iso" "id-2"]).sorted_files
        example_menu_listed.iso_names ≠ ([], [])
    ∧ (ovirt_foreign_menu_set_files example_govirt (example_heap 0x55d0c8a412a0)
        example_menu_listed [example_file "a.iso" "id-2"]).iso_names
      = (set_files_loop example_govirt (example_heap 0x55d0c8a412a0) example_menu_listed
          [example_file "a.iso" "id-2"]).sorted_files
    ∧ (ovirt_foreign_menu_set_files example_govirt (example_heap 0x55d0c8a412a0)
        example_menu_listed [example_file "a.iso" "id-2"]).iso_names.map GStrv.pair
      = [(some (ascii "a.iso"), some (ascii "id-2"))]
    ∧ example_menu_listed.iso_names.map GStrv.pair
      = [(some (ascii "a.iso"), some (ascii "id-1"))] := by
  decide

/-- C9, amended. For every two input lists that are permutations of one another, the lists
computed by `ovirt_foreign_menu_set_files` for them hold the same (name, id) pairs, each as
often in one as in the other: each is a permutation of the other. -/
theorem set_files_permutation (K : Govirt) (heap1 heap2 : Heap) (menu1 menu2 : OvirtForeignMenu)
    (files1 files2 : List OvirtResource) (hperm : files1.Perm files2) :
    ((set_files_loop K heap1 menu1 files1).sorted_files.map GStrv.pair).Perm
      ((set_files_loop K heap2 menu2 files2).sorted_files.map GStrv.pair) := by
  have h1 := (set_files_keeps_iso_entries_aux K heap1 menu1 files1)
  have h2 := (set_files_keeps_iso_entries_aux K heap2 menu2 files2)
  exact h1.trans (((hperm.filter _).map _).trans h2.symm)

/-- C9, witness: the entries `a.iso`, `b.iso` in the two orders. -/
theorem set_files_permutation_witness :
    ((set_files_loop example_govirt (example_heap 0x55d0c8a412a0) example_menu_full
        [example_file "a.iso" "id-a", example_file "b.iso" "id-b"]).sorted_files.map
          GStrv.pair).Perm
      ((set_files_loop example_govirt (example_heap 0x55d0c8a416e0) example_menu_full
        [example_file "b.iso" "id-b", example_file "a.iso" "id-a"]).sorted_files.map
          GStrv.pair) :=
  set_files_permutation example_govirt _ _ _ _ _ _ (List.Perm.swap _ _ [])

/-- C9, counterexample to the claim as stated: two entries with the display name `a.iso` and
the identifiers `1` and `2`, received in the two orders. The two inputs are permutations of
the same set of entries with the suffix `.iso`, and the lists computed differ at the first
position. -/
theorem set_files_permutation_example :
    [example_file "a.iso" "1", example_file "a.iso" "2"].Perm
      [example_file "a.iso" "2", example_file "a.iso" "1"]
    ∧ (∀ it ∈ [example_file "a.iso" "1", example_file "a.iso" "2"],
        g_str_has_suffix it.name (some (ascii ".iso")) = true)
    ∧ (set_files_loop example_govirt (example_heap 0x55d0c8a412a0) example_menu_full
        [example_file "a.iso" "1", example_file "a.iso" "2"]).sorted_files.map GStrv.pair
      = [(some (ascii "a.iso"), some (ascii "1")), (some (ascii "a.iso"), some (ascii "2"))]
    ∧ (set_files_loop example_govirt (example_heap 0x55d0c8a412a0) example_menu_full
        [example_file "a.iso" "2", example_file "a.iso" "1"]).sorted_files.map GStrv.pair
      = [(some (ascii "a.iso"), some (ascii "2")), (some (ascii "a.iso"), some (ascii "1"))] :=
  ⟨List.Perm.swap _ _ [], by decide, by decide, by decide⟩

/-- C10, the code at an input where it departs from the claim: the same input processed
twice in a row. The second run computes the same names and identifiers in arrays that are new
allocations; the comparison of the second loop tells them from the cached ones, so the second
run takes the replacement branch and the cached list after it is the new list, not the list
left by the first run. -/
theorem set_files_twice_example :
    (ovirt_foreign_menu_set_files example_govirt (example_heap 0x55d0c8a412a0)
        example_menu_full [example_file "a.iso" "id-a"]).iso_names
      = [{ image := pointer_image 0x55d0c8a412a0, name := some (ascii "a.iso"),
           id := some (ascii "id-a") }]
    ∧ set_files_compare
        (set_files_loop example_govirt (example_heap 0x55d0c8a416e0)
          (ovirt_foreign_menu_set_files example_govirt (example_heap 0x55d0c8a412a0)
            example_menu_full [example_file "a.iso" "id-a"])
          [example_file "a.iso" "id-a"]).sorted_files
        (ovirt_foreign_menu_set_files example_govirt (example_heap 0x55d0c8a412a0)
          example_menu_full [example_file "a.iso" "id-a"]).iso_names ≠ ([], [])
    ∧ (ovirt_foreign_menu_set_files example_govirt (example_heap 0x55d0c8a416e0)
        (ovirt_foreign_menu_set_files example_govirt (example_heap 0x55d0c8a412a0)
          example_menu_full [example_file "a.iso" "id-a"])
        [example_file "a.iso" "id-a"]).iso_names
      = [{ image := pointer_image 0x55d0c8a416e0, name := some (ascii "a.iso"),
           id := some (ascii "id-a") }]
    ∧ pointer_image 0x55d0c8a416e0 ≠ pointer_image 0x55d0c8a412a0 := by
  decide

/-- C11. For every input list: if the cdrom is resolved, its inserted-file attribute is set
and at least one entry that passes the filter has a display name or an identifier equal to
it, then after `ovirt_foreign_menu_set_files` currentIsoInfo is the (name, id) pair of an
entry of the list that passes the filter and whose name or identifier equals that attribute.
And in every case currentIsoInfo after the call is either what it was before or the pair of
such an entry: an entry rejected by the filter is never recorded. -/
theorem set_files_records_inserted (K : Govirt) (heap : Heap) (menu : OvirtForeignMenu)
    (files : List OvirtResource) :
    (∀ cdrom f, menu.cdrom = some cdrom → cdrom.file = some f →
      (∃ it ∈ files, is_iso_entry K it = true ∧ (it.name = some f ∨ it.guid = some f)) →
      ∃ it ∈ files, is_iso_entry K it = true ∧ (it.name = some f ∨ it.guid = some f)
        ∧ (ovirt_foreign_menu_set_files K heap menu files).current_iso_info.map GStrv.pair
            = some (entry_pair it))
    ∧ ((ovirt_foreign_menu_set_files K heap menu files).current_iso_info
          = menu.current_iso_info
        ∨ ∃ it ∈ files, ∃ f, is_iso_entry K it = true
            ∧ ovirt_foreign_menu_get_current_iso_name menu = some f
            ∧ (it.name = some f ∨ it.guid = some f)
            ∧ (ovirt_foreign_menu_set_files K heap menu files).current_iso_info.map GStrv.pair
                = some (entry_pair it)) := by
  have key : ∀ f, ovirt_foreign_menu_get_current_iso_name menu = some f →
      (∃ it ∈ files, recorded_entry K (some f) it = true) →
      ∃ it ∈ files, is_iso_entry K it = true ∧ (it.name = some f ∨ it.guid = some f)
        ∧ (ovirt_foreign_menu_set_files K heap menu files).current_iso_info.map GStrv.pair
            = some (entry_pair it) := by
    intro f hcur hex
    have hcd : menu.cdrom ≠ none := by
      intro hn
      simp [ovirt_foreign_menu_get_current_iso_name, hn] at hcur
    obtain ⟨pre, it, post, hl, hit, hpost⟩ := exists_last_of_exists _ files hex
    obtain ⟨image, himg⟩ := set_files_fold_last_entry K heap (some f) pre post it
      { sorted_files := [], menu := menu, allocated := 0 } hit hpost hcd
    have hrec := hit
    simp only [recorded_entry, Bool.and_eq_true] at hrec
    refine ⟨it, by rw [hl]; simp, hrec.1, (matches_current_iff f it).mp hrec.2, ?_⟩
    rw [set_files_current_iso_info, set_files_loop, hcur, hl, himg]
    simp only [Option.map_some']
    exact congrArg some (iso_info_new_pair image it)
  constructor
  · intro cdrom f hcd hf hex
    have hcur : ovirt_foreign_menu_get_current_iso_name menu = some f := by
      simp [ovirt_foreign_menu_get_current_iso_name, hcd, hf]
    obtain ⟨it, hm, hi, hmatch⟩ := hex
    exact key f hcur ⟨it, hm, by
      simp only [recorded_entry, Bool.and_eq_true]
      exact ⟨hi, (matches_current_iff f it).mpr hmatch⟩⟩
  · cases hcur : ovirt_foreign_menu_get_current_iso_name menu with
    | none =>
      left
      rw [set_files_current_iso_info, set_files_loop, hcur,
        set_files_fold_no_entry K heap none files _ (by
          intro x _
          simp [recorded_entry, matches_current])]
    | some f =>
      by_cases hex : ∃ it ∈ files, recorded_entry K (some f) it = true
      · right
        obtain ⟨it, hm, hi, hmatch, hres⟩ := key f hcur hex
        exact ⟨it, hm, f, hi, rfl, hmatch, hres⟩
      · left
        rw [set_files_current_iso_info, set_files_loop, hcur,
          set_files_fold_no_entry K heap (some f) files _ (by
            intro x hx
            cases hr : recorded_entry K (some f) x with
            | false => rfl
            | true => exact absurd ⟨x, hx, hr⟩ hex)]

/-- C11, witness: the cdrom reports `a.iso`; among `a.iso`, `b.iso` and `c.img` the entry
recorded is `a.iso`. -/
theorem set_files_records_inserted_witness :
    ∃ it ∈ [example_file "a.iso" "id-a", example_file "b.iso" "id-b",
        example_file "c.img" "a.iso"],
      is_iso_entry example_govirt it = true
      ∧ (it.name = some (ascii "a.iso") ∨ it.guid = some (ascii "a.iso"))
      ∧ (ovirt_foreign_menu_set_files example_govirt (example_heap 0x55d0c8a412a0)
          example_menu_inserted
          [example_file "a.iso" "id-a", example_file "b.iso" "id-b",
            example_file "c.img" "a.iso"]).current_iso_info.map GStrv.pair
          = some (entry_pair it) :=
  (set_files_records_inserted example_govirt (example_heap 0x55d0c8a412a0)
    example_menu_inserted
    [example_file "a.iso" "id-a", example_file "b.iso" "id-b",
      example_file "c.img" "a.iso"]).1
    { guid := some (ascii "cdrom-1"), file := some (ascii "a.iso") } (ascii "a.iso") rfl rfl
    ⟨example_file "a.iso" "id-a", by decide, by decide, by decide⟩

/-- C12, amended. For every input list in which entries that pass the filter match the
inserted file of the cdrom (by name or by identifier), the entry recorded as currentIsoInfo
by `ovirt_foreign_menu_set_files` is the last matching entry in scan order: every match
replaces the one recorded before. -/
theorem set_files_records_last_match (K : Govirt) (heap : Heap) (menu : OvirtForeignMenu)
    (cdrom : OvirtCdrom) (f : CString) (pre post : List OvirtResource) (it : OvirtResource)
    (hcdrom : menu.cdrom = some cdrom) (hfile : cdrom.file = some f)
    (hpasses : is_iso_entry K it = true)
    (hmatches : it.name = some f ∨ it.guid = some f)
    (hlast : ∀ x ∈ post, is_iso_entry K x = true → ¬ (x.name = some f ∨ x.guid = some f)) :
    (ovirt_foreign_menu_set_files K heap menu (pre ++ it :: post)).current_iso_info.map
        GStrv.pair
      = some (entry_pair it) := by
  have hcur : ovirt_foreign_menu_get_current_iso_name menu = some f := by
    simp [ovirt_foreign_menu_get_current_iso_name, hcdrom, hfile]
  have hit : recorded_entry K (some f) it = true := by
    simp only [recorded_entry, Bool.and_eq_true]
    exact ⟨hpasses, (matches_current_iff f it).mpr hmatches⟩
  have hpost : ∀ x ∈ post, recorded_entry K (some f) x = false := by
    intro x hx
    cases hr : recorded_entry K (some f) x with
    | false => rfl
    | true =>
      simp only [recorded_entry, Bool.and_eq_true] at hr
      exact absurd ((matches_current_iff f x).mp hr.2) (hlast x hx hr.1)
  obtain ⟨image, himg⟩ := set_files_fold_last_entry K heap (some f) pre post it
    { sorted_files := [], menu := menu, allocated := 0 } hit hpost (by simp [hcdrom])
  rw [set_files_current_iso_info, set_files_loop, hcur, himg]
  simp only [Option.map_some']
  exact congrArg some (iso_info_new_pair image it)

/-- C12, witness: two entries named `a.iso` with the identifiers `1` and `2`, the cdrom
reporting `a.iso`; the second one is recorded. -/
theorem set_files_records_last_match_witness :
    (ovirt_foreign_menu_set_files example_govirt (example_heap 0x55d0c8a412a0)
        example_menu_inserted
        ([example_file "a.iso" "1"] ++ example_file "a.iso" "2" :: [])).current_iso_info.map
          GStrv.pair
      = some (entry_pair (example_file "a.iso" "2")) :=
  set_files_records_last_match example_govirt (example_heap 0x55d0c8a412a0)
    example_menu_inserted { guid := some (ascii "cdrom-1"), file := some (ascii "a.iso") }
    (ascii "a.iso") [example_file "a.iso" "1"] [] (example_file "a.iso" "2")
    rfl rfl (by decide) (by decide) (by intro x hx; cases hx)

/-- C12, counterexample to the claim as stated: the cdrom reports `a.iso` and the list holds
two entries named `a.iso`, with the identifiers `1` and `2`, in this order. Both pass the
filter and match; the first match in scan order is the entry with the identifier `1`, and
the entry recorded is the one with the identifier `2`. -/
theorem set_files_records_last_match_example :
    recorded_entry example_govirt
        (ovirt_foreign_menu_get_current_iso_name example_menu_inserted)
        (example_file "a.iso" "1") = true
    ∧ recorded_entry example_govirt
        (ovirt_foreign_menu_get_current_iso_name example_menu_inserted)
        (example_file "a.iso" "2") = true
    ∧ (ovirt_foreign_menu_set_files example_govirt (example_heap 0x55d0c8a412a0)
        example_menu_inserted
        [example_file "a.iso" "1", example_file "a.iso" "2"]).current_iso_info.map GStrv.pair
      = some (some (ascii "a.iso"), some (ascii "2"))
    ∧ entry_pair (example_file "a.iso" "1") = (some (ascii "a.iso"), some (ascii "1")) := by
  decide

/-- C13, the code at an input where it departs from the claim. A first run of the pipeline
finds `a.iso` inserted and records it as currentIsoInfo. The image is then ejected behind the
back of the viewer; the next run refreshes the cdrom, which now reports no inserted file, and
fetches the file list. `ovirt_foreign_menu_set_files` only writes currentIsoInfo when an
entry matches, so the pair of `a.iso` stays, and `ovirt_foreign_menu_get_current_iso_info`
returns it although the inserted-file attribute of the resolved cdrom is empty. -/
theorem get_current_iso_info_stale_example :
    (run example_govirt (Sys.init example_menu_full) (example_eject_events.take 3)).map
        (fun s => (s.menu.cdrom.map (fun cdrom => cdrom.file),
          (ovirt_foreign_menu_get_current_iso_info s.menu).map GStrv.pair))
      = some (some (some (ascii "id-a")), some (some (ascii "a.iso"), some (ascii "id-a")))
    ∧ (run example_govirt (Sys.init example_menu_full) example_eject_events).map
        (fun s => (s.menu.cdrom.map (fun cdrom => cdrom.file),
          (ovirt_foreign_menu_get_current_iso_info s.menu).map GStrv.pair))
      = some (some none, some (some (ascii "a.iso"), some (ascii "id-a"))) :=
  ⟨by decide, by decide⟩

/-- C14. For every accepted swap request with target (name, id), completed before another
request is made: if the remote update reports success then, when success is reported to the
caller, currentIsoInfo is the value that the request staged in nextIsoInfo (the pair built
from the target, nothing for an eject) and nextIsoInfo is empty. In every state the success
branch of `iso_name_set_cb` moves nextIsoInfo to currentIsoInfo, empties nextIsoInfo and
reports TRUE. With (`old.iso`, `id-1`) mounted and the target (`new.iso`, `id-2`),
currentIsoInfo becomes (`new.iso`, `id-2`). -/
theorem swap_success_commits (K : Govirt) (image : CString) (menu : OvirtForeignMenu)
    (name id : Option CString) (task : GTask) (error : Option GError) :
    (menu.cdrom ≠ none → menu.next_iso_info = none →
      ∃ s, run K (Sys.init menu)
          [Event.set_current_iso_name image name id task,
           Event.completed (swap_call menu id task) (Completion.iso_name_set true error)]
          = some s
        ∧ s.menu.current_iso_info = staged_iso_info image name id
        ∧ s.menu.next_iso_info = none
        ∧ s.returns = [(task, TaskResult.boolean true)]
        ∧ s.issued = [swap_call menu id task]
        ∧ s.pending = [])
    ∧ ((iso_name_set_cb K menu task true error).menu.current_iso_info = menu.next_iso_info
        ∧ (iso_name_set_cb K menu task true error).menu.next_iso_info = none
        ∧ (iso_name_set_cb K menu task true error).returns = [(task, TaskResult.boolean true)])
    ∧ (∀ n i, (staged_iso_info image (some n) (some i)).map GStrv.pair
        = some (some n, some i))
    ∧ (∀ i, staged_iso_info image none i = none)
    ∧ (run K (Sys.init example_menu_mounted)
          [Event.set_current_iso_name image (some (ascii "new.iso")) (some (ascii "id-2")) task,
           Event.completed (swap_call example_menu_mounted (some (ascii "id-2")) task)
             (Completion.iso_name_set true error)]).map
          (fun s => (s.menu.current_iso_info.map GStrv.pair, s.menu.next_iso_info))
        = some (some (some (ascii "new.iso"), some (ascii "id-2")), none) := by
  have hrun : ∀ (m : OvirtForeignMenu) (nm i : Option CString), m.cdrom ≠ none →
      m.next_iso_info = none →
      ∃ s, run K (Sys.init m)
          [Event.set_current_iso_name image nm i task,
           Event.completed (swap_call m i task) (Completion.iso_name_set true error)]
          = some s
        ∧ s.menu.current_iso_info = staged_iso_info image nm i
        ∧ s.menu.next_iso_info = none
        ∧ s.returns = [(task, TaskResult.boolean true)]
        ∧ s.issued = [swap_call m i task]
        ∧ s.pending = [] := by
    intro m nm i hcd hnext
    by_cases hn : nm = none
    · simp [run, step, ovirt_foreign_menu_set_current_iso_name_async, hcd, hnext, hn,
        Outcome.issue, Sys.after, Sys.init, List.diff, swap_call, set_cdrom_file, complete,
        iso_name_set_cb, Outcome.finish, staged_iso_info]
    · simp [run, step, ovirt_foreign_menu_set_current_iso_name_async, hcd, hnext, hn,
        Outcome.issue, Sys.after, Sys.init, List.diff, swap_call, set_cdrom_file, complete,
        iso_name_set_cb, Outcome.finish, staged_iso_info]
  refine ⟨hrun menu name id, ?_, ?_, ?_, ?_⟩
  · simp [iso_name_set_cb, Outcome.finish]
  · intro n i
    simp [staged_iso_info, iso_info_new, GStrv.pair]
  · intro i
    simp [staged_iso_info]
  · obtain ⟨s, hs, h1, h2, -⟩ := hrun example_menu_mounted (some (ascii "new.iso"))
      (some (ascii "id-2")) (by decide) (by decide)
    rw [hs]
    simp [h1, h2, staged_iso_info, iso_info_new, GStrv.pair]

/-- C14, witness: the swap of the example, run to its successful end. -/
theorem swap_success_commits_witness :
    ∃ s, run example_govirt (Sys.init example_menu_mounted)
        [Event.set_current_iso_name (pointer_image 0x55d0c8a412a0) (some (ascii "new.iso"))
           (some (ascii "id-2")) 7,
         Event.completed (swap_call example_menu_mounted (some (ascii "id-2")) 7)
           (Completion.iso_name_set true none)]
        = some s
      ∧ s.menu.current_iso_info
          = staged_iso_info (pointer_image 0x55d0c8a412a0) (some (ascii "new.iso"))
              (some (ascii "id-2"))
      ∧ s.menu.next_iso_info = none
      ∧ s.returns = [(7, TaskResult.boolean true)]
      ∧ s.issued = [swap_call example_menu_mounted (some (ascii "id-2")) 7]
      ∧ s.pending = [] :=
  (swap_success_commits example_govirt (pointer_image 0x55d0c8a412a0) example_menu_mounted
    (some (ascii "new.iso")) (some (ascii "id-2")) 7 none).1 (by decide) (by decide)

/-- C15. For every accepted swap request, completed before another request is made: if the
remote update fails (the result is negative, with or without an error) then, when the
failure is reported, currentIsoInfo is what it was before the request, the inserted-file
attribute of the cdrom has been set back to the identifier held in currentIsoInfo (to
nothing if currentIsoInfo was empty), nextIsoInfo is empty, and the caller receives the
remote error, or the generic error `failed to update cdrom resource` when there is none.
With (`old.iso`, `id-1`) mounted and a failed swap to (`new.iso`, `id-2`), currentIsoInfo
stays (`old.iso`, `id-1`) and the attribute is `id-1`. -/
theorem swap_failure_rolls_back (K : Govirt) (image : CString) (menu : OvirtForeignMenu)
    (name id : Option CString) (task : GTask) (error : Option GError) :
    (menu.cdrom ≠ none → menu.next_iso_info = none →
      ∃ s, run K (Sys.init menu)
          [Event.set_current_iso_name image name id task,
           Event.completed (swap_call menu id task) (Completion.iso_name_set false error)]
          = some s
        ∧ s.menu.current_iso_info = menu.current_iso_info
        ∧ s.menu.cdrom.map (fun cdrom => cdrom.file)
            = some (menu.current_iso_info.bind (fun info => info.id))
        ∧ s.menu.next_iso_info = none
        ∧ s.returns = [(task, TaskResult.error (error.getD (update_failed_error K)))]
        ∧ s.issued = [swap_call menu id task]
        ∧ s.pending = [])
    ∧ (run K (Sys.init example_menu_mounted)
          [Event.set_current_iso_name image (some (ascii "new.iso")) (some (ascii "id-2")) task,
           Event.completed (swap_call example_menu_mounted (some (ascii "id-2")) task)
             (Completion.iso_name_set false error)]).map
          (fun s => (s.menu.current_iso_info.map GStrv.pair,
            s.menu.cdrom.map (fun cdrom => cdrom.file)))
        = some (some (some (ascii "old.iso"), some (ascii "id-1")),
            some (some (ascii "id-1"))) := by
  have hrun : ∀ (m : OvirtForeignMenu) (nm i : Option CString), m.cdrom ≠ none →
      m.next_iso_info = none →
      ∃ s, run K (Sys.init m)
          [Event.set_current_iso_name image nm i task,
           Event.completed (swap_call m i task) (Completion.iso_name_set false error)]
          = some s
        ∧ s.menu.current_iso_info = m.current_iso_info
        ∧ s.menu.cdrom.map (fun cdrom => cdrom.file)
            = some (m.current_iso_info.bind (fun info => info.id))
        ∧ s.menu.next_iso_info = none
        ∧ s.returns = [(task, TaskResult.error (error.getD (update_failed_error K)))]
        ∧ s.issued = [swap_call m i task]
        ∧ s.pending = [] := by
    intro m nm i hcd hnext
    obtain ⟨cd, hcd1⟩ := Option.ne_none_iff_exists'.mp hcd
    by_cases hn : nm = none <;> cases error <;> cases hci : m.current_iso_info <;>
      simp [run, step, ovirt_foreign_menu_set_current_iso_name_async, hcd1, hnext, hn, hci,
        Outcome.issue, Sys.after, Sys.init, List.diff, swap_call, set_cdrom_file, complete,
        iso_name_set_cb, Outcome.finish, update_failed_error]
  refine ⟨hrun menu name id, ?_⟩
  obtain ⟨s, hs, h1, h2, -⟩ := hrun example_menu_mounted (some (ascii "new.iso"))
    (some (ascii "id-2")) (by decide) (by decide)
  rw [hs]
  simp only [Option.map_some', h1, h2]
  decide

/-- C15, witness: the swap of the example, run to its failure. -/
theorem swap_failure_rolls_back_witness :
    ∃ s, run example_govirt (Sys.init example_menu_mounted)
        [Event.set_current_iso_name (pointer_image 0x55d0c8a412a0) (some (ascii "new.iso"))
           (some (ascii "id-2")) 7,
         Event.completed (swap_call example_menu_mounted (some (ascii "id-2")) 7)
           (Completion.iso_name_set false none)]
        = some s
      ∧ s.menu.current_iso_info = example_menu_mounted.current_iso_info
      ∧ s.menu.cdrom.map (fun cdrom => cdrom.file)
          = some (example_menu_mounted.current_iso_info.bind (fun info => info.id))
      ∧ s.menu.next_iso_info = none
      ∧ s.returns = [(7, TaskResult.error
          ((none : Option GError).getD (update_failed_error example_govirt)))]
      ∧ s.issued = [swap_call example_menu_mounted (some (ascii "id-2")) 7]
      ∧ s.pending = [] :=
  (swap_failure_rolls_back example_govirt (pointer_image 0x55d0c8a412a0) example_menu_mounted
    (some (ascii "new.iso")) (some (ascii "id-2")) 7 none).1 (by decide) (by decide)

/-- C16. For every cache state in which nextIsoInfo is not empty or the cdrom is not
resolved, `ovirt_foreign_menu_set_current_iso_name_async` rejects the request before doing
anything: it issues no call, completes no task and leaves the menu as it is, so nextIsoInfo,
currentIsoInfo and the inserted-file attribute of the cdrom are unchanged. -/
theorem swap_rejected (image : CString) (menu : OvirtForeignMenu) (name id : Option CString)
    (task : GTask) (h : menu.next_iso_info ≠ none ∨ menu.cdrom = none) :
    ovirt_foreign_menu_set_current_iso_name_async image menu name id task
      = { menu := menu, calls := [], returns := [] } := by
  unfold ovirt_foreign_menu_set_current_iso_name_async
  by_cases hcd : menu.cdrom = none
  · simp [hcd, Outcome.idle]
  · rcases h with h | h
    · simp [hcd, h, Outcome.idle]
    · exact absurd h hcd

/-- C16, witness: a request made on the empty cache, where no cdrom is resolved. -/
theorem swap_rejected_witness :
    ovirt_foreign_menu_set_current_iso_name_async (pointer_image 0x55d0c8a412a0)
        example_menu_empty (some (ascii "new.iso")) (some (ascii "id-2")) 7
      = { menu := example_menu_empty, calls := [], returns := [] } :=
  swap_rejected (pointer_image 0x55d0c8a412a0) example_menu_empty (some (ascii "new.iso"))
    (some (ascii "id-2")) 7 (Or.inr rfl)

/-- C17, amended. For every stage whose call completes successfully, every cache field
among api, vm, host, cluster, data_center, files, cdrom and vm_guid that was populated when
the completion callback of the stage started is still populated with the same value after
it, the field of the stage itself apart. Besides the field of the stage (and, at the stage
ISOS, isoNames and currentIsoInfo), the only fields that can change are host, cluster and
data_center, and only when they were empty: the sequencer that the callback runs assigns the
field of the stage it issues next before it issues its refresh. -/
theorem successful_callback_frame (K : Govirt) (menu : OvirtForeignMenu) (call : Call)
    (c : Completion) (o : Outcome) (stage : OvirtForeignMenuState)
    (hstage : call.stage = some stage) (hsuccess : c.error = none)
    (hcompleted : complete K menu call c = some o) :
    o.menu.proxy = (at_callback menu call c).proxy
    ∧ o.menu.vm_guid = (at_callback menu call c).vm_guid
    ∧ o.menu.next_iso_info = (at_callback menu call c).next_iso_info
    ∧ (stage ≠ OvirtForeignMenuState.STATE_API → o.menu.api = (at_callback menu call c).api)
    ∧ (stage ≠ OvirtForeignMenuState.STATE_VM → o.menu.vm = (at_callback menu call c).vm)
    ∧ (stage ≠ OvirtForeignMenuState.STATE_STORAGE_DOMAIN →
        o.menu.files = (at_callback menu call c).files)
    ∧ (stage ≠ OvirtForeignMenuState.STATE_VM_CDROM →
        o.menu.cdrom = (at_callback menu call c).cdrom)
    ∧ ((at_callback menu call c).host ≠ none → o.menu.host = (at_callback menu call c).host)
    ∧ ((at_callback menu call c).cluster ≠ none →
        o.menu.cluster = (at_callback menu call c).cluster)
    ∧ ((at_callback menu call c).data_center ≠ none →
        o.menu.data_center = (at_callback menu call c).data_center)
    ∧ (stage ≠ OvirtForeignMenuState.STATE_ISOS →
        o.menu.iso_names = (at_callback menu call c).iso_names
        ∧ o.menu.current_iso_info = (at_callback menu call c).current_iso_info) :=
  complete_success_frame K menu call c o stage hstage hsuccess hcompleted

/-- C17, witness: the VM stage completes on a menu that holds the API. -/
theorem successful_callback_frame_witness :
    (vms_fetched_cb example_govirt example_menu_api 7 [example_vm] none).menu.proxy
      = example_menu_api.proxy
    ∧ (vms_fetched_cb example_govirt example_menu_api 7 [example_vm] none).menu.api
      = example_menu_api.api
    ∧ (vms_fetched_cb example_govirt example_menu_api 7 [example_vm] none).menu.vm_guid
      = example_menu_api.vm_guid :=
  have h := successful_callback_frame example_govirt example_menu_api
    (Call.fetch_vms 7 example_menu_api.api (ascii "id=vm-42"))
    (Completion.vms_fetched [example_vm] none)
    (vms_fetched_cb example_govirt example_menu_api 7 [example_vm] none)
    OvirtForeignMenuState.STATE_VM rfl rfl rfl
  ⟨h.1, h.2.2.2.1 (by decide), h.2.1⟩

/-- C17, counterexample to the claim as stated: the VM stage completes successfully on a
menu that holds the API and no host. Its callback stores the vm and runs the sequencer, which
assigns `host` before issuing the refresh of the host: a field that is not the one of the VM
stage has changed. -/
theorem successful_callback_frame_example :
    (Call.fetch_vms 7 example_menu_api.api (ascii "id=vm-42")).stage
      = some OvirtForeignMenuState.STATE_VM
    ∧ complete example_govirt example_menu_api
        (Call.fetch_vms 7 example_menu_api.api (ascii "id=vm-42"))
        (Completion.vms_fetched [example_vm] none)
      = some (vms_fetched_cb example_govirt example_menu_api 7 [example_vm] none)
    ∧ example_menu_api.host = none
    ∧ (vms_fetched_cb example_govirt example_menu_api 7 [example_vm] none).menu.host
      = some example_host
    ∧ (vms_fetched_cb example_govirt example_menu_api 7 [example_vm] none).calls
      = [Call.refresh_host 7 (some example_host)] :=
  ⟨rfl, rfl, rfl, by decide, by decide⟩

/-- C18. Whenever the sequencer issues the call of a stage, the object the call is made from
is set: VM is attempted only with api set, HOST only with vm set, CLUSTER only with host set,
DATA_CENTER only with cluster set, STORAGE_DOMAIN only with data_center set, CDROM_FILE only
with cdrom set. And in every run of the pipeline started from START on a cache in which a
cluster, a data center and a file collection are only there together with the host, the
cluster and the data center they were found from, whenever a call for a stage is outstanding
the cache fields of all the earlier stages, in the order api, vm, host, cluster, data_center,
files, cdrom, are non-empty. A new menu, which has no cluster, data center or file
collection, is such a cache, and so is the cache that a run leaves. -/
theorem stages_issued_in_order (K : Govirt) (menu : OvirtForeignMenu) (task : GTask) :
    (∀ current call,
      (ovirt_foreign_menu_next_async_step K menu task current).calls = [call] →
      (call.stage = some OvirtForeignMenuState.STATE_VM → menu.api ≠ none)
      ∧ (call.stage = some OvirtForeignMenuState.STATE_HOST → menu.vm ≠ none)
      ∧ (call.stage = some OvirtForeignMenuState.STATE_CLUSTER → menu.host ≠ none)
      ∧ (call.stage = some OvirtForeignMenuState.STATE_DATA_CENTER → menu.cluster ≠ none)
      ∧ (call.stage = some OvirtForeignMenuState.STATE_STORAGE_DOMAIN →
          menu.data_center ≠ none)
      ∧ (call.stage = some OvirtForeignMenuState.STATE_CDROM_FILE → menu.cdrom ≠ none))
    ∧ (chain_closed menu →
        ∀ (cs : List (Call × Completion)) (s : Sys),
          run K (Sys.init menu) (Event.fetch_iso_names task :: completions cs) = some s →
          chain_closed s.menu
          ∧ ∀ call ∈ s.pending, ∀ stage, call.stage = some stage →
              earlier_populated s.menu stage)
    ∧ (menu.cluster = none → menu.data_center = none → menu.files = none →
        chain_closed menu) := by
  refine ⟨?_, ?_, ?_⟩
  · intro current call hcall
    obtain ⟨stage, hst, hready⟩ := next_async_step_guard K menu task current call hcall
    rw [hst]
    refine ⟨?_, ?_, ?_, ?_, ?_, ?_⟩ <;> intro h <;> simp only [Option.some.injEq] at h <;>
      subst h <;> simp [stage_ready] at hready <;> tauto
  · intro hc cs s hrun
    simp only [run, step, Option.bind_some] at hrun
    have hinv := run_completions_order K cs _ s (fetch_iso_names_order K menu task hc) hrun
    refine ⟨hinv.1, ?_⟩
    intro call hmem stage hst
    rcases hinv.2 with hp | ⟨c0, st0, hp, hst0, he⟩
    · rw [hp] at hmem; cases hmem
    · rw [hp] at hmem
      have : call = c0 := by simpa using hmem
      subst this
      rw [hst] at hst0
      cases hst0
      exact he
  · intro h1 h2 h3
    simp [chain_closed, h1, h2, h3]

/-- C18, witness: on the cache filled up to the file collection, the run from START has the
VM_CDROM fetch outstanding, and the fields of the six stages before it are populated. -/
theorem stages_issued_in_order_witness :
    chain_closed ((Sys.init example_menu_no_cdrom).after []
      (ovirt_foreign_menu_fetch_iso_names_async example_govirt example_menu_no_cdrom 7)).menu
    ∧ ∀ call ∈ ((Sys.init example_menu_no_cdrom).after []
        (ovirt_foreign_menu_fetch_iso_names_async example_govirt example_menu_no_cdrom
          7)).pending,
        ∀ stage, call.stage = some stage →
          earlier_populated ((Sys.init example_menu_no_cdrom).after []
            (ovirt_foreign_menu_fetch_iso_names_async example_govirt example_menu_no_cdrom
              7)).menu stage :=
  (stages_issued_in_order example_govirt example_menu_no_cdrom 7).2.1
    (by simp [chain_closed, example_menu_no_cdrom]) [] _ rfl

/-- C19, the code at an input where it departs from the claim. From the cache that holds only
the proxy and the identifier `vm-42`, with a remote service that answers every call
successfully, the pipeline completes and hands the caller the two files, in the order of the
bytes of the pointers of their arrays and not of their names: with the file collection
enumerated as `b.iso`, `a.iso` the list returned is `b.iso`, `a.iso`, and it is `a.iso`,
`b.iso` only when the collection is enumerated in that order. -/
theorem pipeline_returns_unsorted_example :
    (run example_govirt (Sys.init example_menu_empty)
        (example_pipeline_events [example_file "b.iso" "id-b", example_file "a.iso" "id-a"])).map
        (fun s => s.returns.map (fun r => (r.1, r.2.pairs)))
      = some [(7, some [(some (ascii "b.iso"), some (ascii "id-b")),
                        (some (ascii "a.iso"), some (ascii "id-a"))])]
    ∧ (run example_govirt (Sys.init example_menu_empty)
        (example_pipeline_events [example_file "a.iso" "id-a", example_file "b.iso" "id-b"])).map
        (fun s => s.returns.map (fun r => (r.1, r.2.pairs)))
      = some [(7, some [(some (ascii "a.iso"), some (ascii "id-a")),
                        (some (ascii "b.iso"), some (ascii "id-b"))])] :=
  ⟨by rfl, by rfl⟩

/-- C20. For every successfully fetched set of VMs, on a menu whose vm is empty (as it is
when the VM stage is issued): if an entry of the set has an identifier equal to `vm_guid`,
the callback stores such an entry as vm and continues with the sequencer for the completed
state VM; if no entry has, the stage fails with the error `Could not find a VM with guid`
reported to the caller, vm stays empty and no call is issued. -/
theorem vms_fetched_selects (K : Govirt) (menu : OvirtForeignMenu) (task : GTask)
    (vms : List OvirtVm) (hvm : menu.vm = none) :
    ((∃ vm ∈ vms, vm.guid = menu.vm_guid) →
      ∃ vm ∈ vms, vm.guid = menu.vm_guid
        ∧ vms_fetched_cb K menu task vms none
            = ovirt_foreign_menu_next_async_step K { menu with vm := some vm } task
                OvirtForeignMenuState.STATE_VM)
    ∧ ((∀ vm ∈ vms, vm.guid ≠ menu.vm_guid) →
        vms_fetched_cb K menu task vms none
          = { menu := menu, calls := [],
              returns := [(task, TaskResult.error (vm_not_found_error K menu))] }) := by
  constructor
  · rintro ⟨v, hv, hg⟩
    cases hf : vms.find? (fun vm : OvirtVm => decide (g_strcmp0 vm.guid menu.vm_guid = 0)) with
    | none =>
      have := List.find?_eq_none.mp hf v hv
      simp [g_strcmp0_eq_zero_iff, hg] at this
    | some vm =>
      have hmem := List.mem_of_find?_eq_some hf
      have hp := List.find?_some hf
      simp only [decide_eq_true_eq, g_strcmp0_eq_zero_iff] at hp
      refine ⟨vm, hmem, hp, ?_⟩
      simp [vms_fetched_cb, hf]
  · intro hno
    have hf : vms.find? (fun vm : OvirtVm => decide (g_strcmp0 vm.guid menu.vm_guid = 0))
        = none := by
      rw [List.find?_eq_none]
      intro v hv
      simp [g_strcmp0_eq_zero_iff, hno v hv]
    simp [vms_fetched_cb, hf, hvm, Outcome.finish, vm_not_found_error]

/-- C20, witness: the vm `vm-42` is in the fetched set and is stored; with an empty set the
stage fails. -/
theorem vms_fetched_selects_witness :
    (∃ vm ∈ [example_vm], vm.guid = example_menu_api.vm_guid
      ∧ vms_fetched_cb example_govirt example_menu_api 7 [example_vm] none
          = ovirt_foreign_menu_next_async_step example_govirt
              { example_menu_api with vm := some vm } 7 OvirtForeignMenuState.STATE_VM)
    ∧ vms_fetched_cb example_govirt example_menu_api 7 [] none
        = { menu := example_menu_api, calls := [],
            returns := [(7, TaskResult.error
              (vm_not_found_error example_govirt example_menu_api))] } :=
  ⟨(vms_fetched_selects example_govirt example_menu_api 7 [example_vm] rfl).1
      ⟨example_vm, by simp, by decide⟩,
   (vms_fetched_selects example_govirt example_menu_api 7 [] rfl).2
      (by intro vm hvm; cases hvm)⟩

/-- C21. For every successfully fetched collection of cdroms, on a menu whose cdrom is empty
(as it is when the sequencer issues the stage VM_CDROM): the stage fails, with the error
`Could not find VM cdrom through oVirt REST API`, if and only if the collection is empty, and
then the cdrom stays empty and no call is issued. When the collection holds one device or
more, whatever the menu held, the cdrom is set to the first device enumerated and the refresh
of the stage CDROM_FILE is issued on it; more than one device is not an error. -/
theorem cdroms_fetched_selects (K : Govirt) (menu : OvirtForeignMenu) (task : GTask)
    (cdroms : List OvirtCdrom) :
    (menu.cdrom = none →
      ((cdroms_fetched_cb K menu task cdroms none).returns ≠ [] ↔ cdroms = [])
      ∧ (cdroms = [] →
          cdroms_fetched_cb K menu task cdroms none
            = { menu := menu, calls := [],
                returns := [(task, TaskResult.error (cdrom_not_found_error K))] }))
    ∧ (∀ cdrom rest, cdroms = cdrom :: rest →
        cdroms_fetched_cb K menu task cdroms none
          = { menu := { menu with cdrom := some cdrom },
              calls := [Call.refresh_cdrom task (some cdrom)], returns := [] }) := by
  have hsome : ∀ cdrom rest, cdroms = cdrom :: rest →
      cdroms_fetched_cb K menu task cdroms none
        = { menu := { menu with cdrom := some cdrom },
            calls := [Call.refresh_cdrom task (some cdrom)], returns := [] } := by
    intro cdrom rest h
    subst h
    simp [cdroms_fetched_cb, ovirt_foreign_menu_next_async_step, OvirtForeignMenuState.toNat,
      case_STATE_CDROM_FILE, ovirt_foreign_menu_refresh_cdrom_file_async, Outcome.issue]
  refine ⟨?_, hsome⟩
  intro hcd
  have hnil : cdroms = [] →
      cdroms_fetched_cb K menu task cdroms none
        = { menu := menu, calls := [],
            returns := [(task, TaskResult.error (cdrom_not_found_error K))] } := by
    intro h
    subst h
    simp [cdroms_fetched_cb, hcd, Outcome.finish, cdrom_not_found_error]
  refine ⟨?_, hnil⟩
  constructor
  · intro hne
    cases cdroms with
    | nil => rfl
    | cons cdrom rest =>
      rw [hsome cdrom rest rfl] at hne
      exact absurd rfl hne
  · intro h
    rw [hnil h]
    simp

/-- C21, witness: on the menu of the examples that has no cdrom, a collection of two devices
sets the first one and issues its refresh, and the empty collection fails the stage. -/
theorem cdroms_fetched_selects_witness :
    cdroms_fetched_cb example_govirt example_menu_no_cdrom 7 [] none
        = { menu := example_menu_no_cdrom, calls := [],
            returns := [(7, TaskResult.error (cdrom_not_found_error example_govirt))] }
    ∧ cdroms_fetched_cb example_govirt example_menu_no_cdrom 7
          [example_cdrom, example_cdrom_second] none
        = { menu := { example_menu_no_cdrom with cdrom := some example_cdrom },
            calls := [Call.refresh_cdrom 7 (some example_cdrom)], returns := [] } :=
  ⟨((cdroms_fetched_selects example_govirt example_menu_no_cdrom 7 []).1 rfl).2 rfl,
   (cdroms_fetched_selects example_govirt example_menu_no_cdrom 7
      [example_cdrom, example_cdrom_second]).2 example_cdrom [example_cdrom_second] rfl⟩

/-- C22. For every successfully fetched collection of storage domains, the stage
STORAGE_DOMAIN fails with the error `Could not find valid ISO storage domain` exactly when no
domain of the collection is valid, and with the error `Could not find ISO file collection`
exactly when the loop has selected a domain (a valid domain of the collection) and
`storage_domain_get_files` gives no collection for it. In both cases the menu, and so its
file collection, is left as it was and no call is issued. -/
theorem storage_domains_fetched_errors (K : Govirt) (menu : OvirtForeignMenu) (task : GTask)
    (domains : List OvirtStorageDomain) :
    ((storage_domains_fetched_cb K menu task domains none).returns
        = [(task, TaskResult.error (no_valid_domain_error K))]
      ↔ ∀ d ∈ domains, storage_domain_validate K menu d = false)
    ∧ ((storage_domains_fetched_cb K menu task domains none).returns
        = [(task, TaskResult.error (no_file_collection_error K))]
      ↔ ∃ v, storage_domains_loop K menu domains = some v
          ∧ storage_domain_get_files K (some v) = none)
    ∧ (∀ v, storage_domains_loop K menu domains = some v →
        v ∈ domains ∧ storage_domain_validate K menu v = true)
    ∧ (∀ e, (storage_domains_fetched_cb K menu task domains none).returns
          = [(task, TaskResult.error e)] →
        (storage_domains_fetched_cb K menu task domains none).menu = menu
        ∧ (storage_domains_fetched_cb K menu task domains none).calls = [])
    ∧ no_valid_domain_error K ≠ no_file_collection_error K := by
  have hne : no_valid_domain_error K ≠ no_file_collection_error K := by
    intro h
    have hm : ascii "Could not find valid ISO storage domain"
        = ascii "Could not find ISO file collection" := congrArg GError.message h
    revert hm
    decide
  have hnone : storage_domains_loop K menu domains = none ↔
      ∀ d ∈ domains, storage_domain_validate K menu d = false := by
    unfold storage_domains_loop
    rw [storage_domains_fold_none_iff]
    simp
  have hcases :
      (storage_domains_loop K menu domains = none
        ∧ storage_domains_fetched_cb K menu task domains none
            = { menu := menu, calls := [],
                returns := [(task, TaskResult.error (no_valid_domain_error K))] })
      ∨ (∃ v, storage_domains_loop K menu domains = some v
          ∧ storage_domain_get_files K (some v) = none
          ∧ storage_domains_fetched_cb K menu task domains none
              = { menu := menu, calls := [],
                  returns := [(task, TaskResult.error (no_file_collection_error K))] })
      ∨ (∃ v c, storage_domains_loop K menu domains = some v
          ∧ storage_domain_get_files K (some v) = some c
          ∧ (storage_domains_fetched_cb K menu task domains none).returns = []) := by
    cases hl : storage_domains_loop K menu domains with
    | none =>
      left
      refine ⟨rfl, ?_⟩
      simp [storage_domains_fetched_cb, hl, storage_domain_get_files,
        ovirt_foreign_menu_set_file_collection, Outcome.finish, no_valid_domain_error]
    | some v =>
      right
      cases hf : storage_domain_get_files K (some v) with
      | none =>
        left
        refine ⟨v, rfl, hf, ?_⟩
        simp [storage_domains_fetched_cb, hl, hf,
          ovirt_foreign_menu_set_file_collection, Outcome.finish, no_file_collection_error]
      | some c =>
        right
        refine ⟨v, c, rfl, hf, ?_⟩
        simp only [storage_domains_fetched_cb, hl, hf, ovirt_foreign_menu_set_file_collection]
        simp only [Bool.not_true, not_false_eq_true, not_true_eq_false, if_false]
        exact next_async_step_no_return K _ task _ (by decide)
  refine ⟨?_, ?_, ?_, ?_, hne⟩
  · rw [← hnone]
    rcases hcases with ⟨h1, h2⟩ | ⟨v, h1, _, h2⟩ | ⟨v, c, h1, _, h2⟩
    · simp [h1, h2]
    · rw [h2, h1]
      simp only [List.cons.injEq, Prod.mk.injEq, TaskResult.error.injEq, true_and, and_true,
        reduceCtorEq, iff_false]
      exact fun h => hne h.symm
    · rw [h2, h1]
      simp
  · rcases hcases with ⟨h1, h2⟩ | ⟨v, h1, hf, h2⟩ | ⟨v, c, h1, hf, h2⟩
    · rw [h2, h1]
      simp only [List.cons.injEq, Prod.mk.injEq, TaskResult.error.injEq, true_and, and_true,
        reduceCtorEq, false_and, exists_false, iff_false]
      exact hne
    · rw [h2, h1]
      simp [hf]
    · rw [h2, h1]
      simp [hf]
  · intro v hv
    rcases storage_domains_fold_some K menu domains none v hv with h | h
    · cases h
    · exact h
  · intro e he
    rcases hcases with ⟨_, h2⟩ | ⟨v, _, _, h2⟩ | ⟨v, c, _, _, h2⟩
    · rw [h2]; exact ⟨rfl, rfl⟩
    · rw [h2]; exact ⟨rfl, rfl⟩
    · rw [h2] at he; cases he

/-- C22, witness: on the menu of the examples an empty collection fails the stage with the
first error, and a collection whose one valid domain, of type data, has no disk collection
fails it with the second. -/
theorem storage_domains_fetched_errors_witness :
    (storage_domains_fetched_cb example_govirt example_menu_no_cdrom 7 [] none).returns
        = [(7, TaskResult.error (no_valid_domain_error example_govirt))]
    ∧ (storage_domains_fetched_cb example_govirt example_menu_no_cdrom 7
          [{ example_domain_data with disks := none }] none).returns
        = [(7, TaskResult.error (no_file_collection_error example_govirt))] :=
  ⟨(storage_domains_fetched_errors example_govirt example_menu_no_cdrom 7 []).1.mpr
      (by intro d hd; cases hd),
   (storage_domains_fetched_errors example_govirt example_menu_no_cdrom 7
      [{ example_domain_data with disks := none }]).2.1.mpr
      ⟨{ example_domain_data with disks := none }, by decide, by decide⟩⟩

/-- C23. For every selected storage domain, the type constants ISO and data being distinct:
`storage_domain_get_files` returns the ISO file list of the domain when its type is ISO, its
disk list when its type is data and `HAVE_OVIRT_STORAGE_DOMAIN_GET_DISKS` is defined (disk
introspection is available), and no collection when its type is data and disk introspection
is not available. With no domain selected it returns no collection. -/
theorem storage_domain_get_files_by_type (K : Govirt) (domain : OvirtStorageDomain)
    (hK : K.OVIRT_STORAGE_DOMAIN_TYPE_DATA ≠ K.OVIRT_STORAGE_DOMAIN_TYPE_ISO) :
    (domain.type = K.OVIRT_STORAGE_DOMAIN_TYPE_ISO →
      storage_domain_get_files K (some domain) = domain.files)
    ∧ (domain.type = K.OVIRT_STORAGE_DOMAIN_TYPE_DATA →
        K.HAVE_OVIRT_STORAGE_DOMAIN_GET_DISKS = true →
        storage_domain_get_files K (some domain) = domain.disks)
    ∧ (domain.type = K.OVIRT_STORAGE_DOMAIN_TYPE_DATA →
        K.HAVE_OVIRT_STORAGE_DOMAIN_GET_DISKS = false →
        storage_domain_get_files K (some domain) = none)
    ∧ storage_domain_get_files K none = none := by
  refine ⟨?_, ?_, ?_, rfl⟩
  · intro h
    simp [storage_domain_get_files, h]
  · intro h hh
    simp [storage_domain_get_files, h, hh, hK]
  · intro h hh
    simp [storage_domain_get_files, h, hh, hK]

/-- C23, witness: the two storage domains of the examples, with and without disk
introspection. -/
theorem storage_domain_get_files_by_type_witness :
    storage_domain_get_files example_govirt (some example_domain_iso) = example_domain_iso.files
    ∧ storage_domain_get_files example_govirt (some example_domain_data)
        = example_domain_data.disks
    ∧ storage_domain_get_files { example_govirt with HAVE_OVIRT_STORAGE_DOMAIN_GET_DISKS := false }
        (some example_domain_data) = none :=
  ⟨(storage_domain_get_files_by_type example_govirt example_domain_iso (by decide)).1 rfl,
   (storage_domain_get_files_by_type example_govirt example_domain_data (by decide)).2.1
      rfl rfl,
   (storage_domain_get_files_by_type
      { example_govirt with HAVE_OVIRT_STORAGE_DOMAIN_GET_DISKS := false }
      example_domain_data (by decide)).2.2.1 rfl rfl⟩

/-- C24. For every connection file, `ovirt_foreign_menu_new_from_file` returns no instance
if the URL is missing, if the identifier of the vm is missing, or if both the session
identifier and the SSO token are missing. When it returns an instance, the URL, the
identifier of the vm and one of the two credentials are in the file, `vm_guid` of the
instance is the identifier of the vm of the file, and its `vm` is empty. -/
theorem new_from_file_checks (ovirt_proxy_new : CString → Option OvirtProxy)
    (file : VirtViewerFile) :
    (file.ovirt_host = none ∨ file.ovirt_vm_guid = none
        ∨ (file.ovirt_jsessionid = none ∧ file.ovirt_sso_token = none) →
      ovirt_foreign_menu_new_from_file ovirt_proxy_new file = none)
    ∧ (∀ menu, ovirt_foreign_menu_new_from_file ovirt_proxy_new file = some menu →
        menu.vm_guid = file.ovirt_vm_guid ∧ menu.vm = none
        ∧ file.ovirt_host ≠ none ∧ file.ovirt_vm_guid ≠ none
        ∧ (file.ovirt_jsessionid ≠ none ∨ file.ovirt_sso_token ≠ none)
        ∧ menu.proxy ≠ none) := by
  have key : ∀ menu, ovirt_foreign_menu_new_from_file ovirt_proxy_new file = some menu →
      menu.vm_guid = file.ovirt_vm_guid ∧ menu.vm = none
      ∧ file.ovirt_host ≠ none ∧ file.ovirt_vm_guid ≠ none
      ∧ (file.ovirt_jsessionid ≠ none ∨ file.ovirt_sso_token ≠ none)
      ∧ menu.proxy ≠ none := by
    intro menu h
    unfold ovirt_foreign_menu_new_from_file at h
    cases hu : file.ovirt_host with
    | none => simp [hu] at h
    | some url =>
      cases hg : file.ovirt_vm_guid with
      | none => simp [hu, hg] at h
      | some guid =>
        simp only [hu, hg] at h
        by_cases hcred : file.ovirt_jsessionid = none ∧ file.ovirt_sso_token = none
        · simp [hcred] at h
        · rw [if_neg hcred] at h
          cases hp : ovirt_proxy_new url with
          | none => simp [hp] at h
          | some proxy =>
            simp only [hp, Option.some.injEq] at h
            subst h
            refine ⟨rfl, rfl, by simp, by simp, ?_, ?_⟩
            · by_contra hc
              exact hcred (by simpa using hc)
            · simp [g_object_new, ovirt_foreign_menu_set_property, ovirt_foreign_menu_init]
  refine ⟨?_, key⟩
  intro h
  cases hr : ovirt_foreign_menu_new_from_file ovirt_proxy_new file with
  | none => rfl
  | some menu =>
    obtain ⟨_, _, h1, h2, h3, _⟩ := key menu hr
    rcases h with h | h | h
    · exact absurd h h1
    · exact absurd h h2
    · rcases h3 with h3 | h3
      · exact absurd h.1 h3
      · exact absurd h.2 h3

/-- C24, witness: a file without the identifier of the vm gives no instance, and the file of
the examples gives an instance for the vm `vm-42`, with no vm. -/
theorem new_from_file_checks_witness :
    ovirt_foreign_menu_new_from_file example_proxy_new
        { example_vv_file with ovirt_vm_guid := none } = none
    ∧ (g_object_new (some
          { uri := ascii "https://ovirt.example/ovirt-engine/api", admin := false,
            ca_cert := none, session_id := some (ascii "session"), sso_token := none })
          (some (ascii "vm-42"))).vm_guid = example_vv_file.ovirt_vm_guid
    ∧ (g_object_new (some
          { uri := ascii "https://ovirt.example/ovirt-engine/api", admin := false,
            ca_cert := none, session_id := some (ascii "session"), sso_token := none })
          (some (ascii "vm-42"))).vm = none :=
  ⟨(new_from_file_checks example_proxy_new { example_vv_file with ovirt_vm_guid := none }).1
      (Or.inr (Or.inl rfl)),
   ((new_from_file_checks example_proxy_new example_vv_file).2 _ (by decide)).1,
   ((new_from_file_checks example_proxy_new example_vv_file).2 _ (by decide)).2.1⟩

/-- C25. For each of the stages HOST, CLUSTER and DATA_CENTER: when the sequencer issues the
refresh of the stage, the field of the stage was empty and has been assigned what the
accessor of the library gives for the object of the stage before, and the refresh is issued
on that field. When the refresh fails, the callback completes the task with the error,
issues nothing and leaves the menu as it was, so the field is not cleared. Hence, when the
accessor had given an object, the field is populated after the failure, and the next run
from START issues no call of that stage: it falls through it. -/
theorem failed_refresh_keeps_field (K : Govirt) (menu : OvirtForeignMenu) (task : GTask)
    (current : OvirtForeignMenuState) (call : Call) (stage : OvirtForeignMenuState)
    (c : Completion) (e : GError) (o : Outcome)
    (hissued : (ovirt_foreign_menu_next_async_step K menu task current).calls = [call])
    (hstage : call.stage = some stage) (hrefresh : refresh_stage stage)
    (herror : c.error = some e)
    (hcompleted :
      complete K (ovirt_foreign_menu_next_async_step K menu task current).menu call c = some o) :
    field_empty menu stage = true
    ∧ assigned_refresh menu task stage
        = some ((ovirt_foreign_menu_next_async_step K menu task current).menu, call)
    ∧ o = { menu := (ovirt_foreign_menu_next_async_step K menu task current).menu, calls := [],
            returns := [(task, TaskResult.error e)] }
    ∧ (field_empty (ovirt_foreign_menu_next_async_step K menu task current).menu stage = false →
        field_empty o.menu stage = false
        ∧ ∀ task2, ∀ call2 ∈ (ovirt_foreign_menu_fetch_iso_names_async K o.menu task2).calls,
            call2.stage ≠ some stage) := by
  obtain ⟨h1, h2⟩ := next_async_step_refreshes K menu task current call stage hissued hstage
    hrefresh
  have ho : o = { menu := (ovirt_foreign_menu_next_async_step K menu task current).menu,
                  calls := [], returns := [(task, TaskResult.error e)] } := by
    generalize (ovirt_foreign_menu_next_async_step K menu task current).menu = m1 at *
    rcases hrefresh with hr | hr | hr <;> subst hr
    · cases hvm : menu.vm with
      | none => simp [assigned_refresh, hvm] at h2
      | some vm =>
        simp only [assigned_refresh, hvm, Option.map_some', Option.some.injEq,
          Prod.mk.injEq] at h2
        obtain ⟨_, hc⟩ := h2
        subst hc
        cases c <;> simp only [complete, reduceCtorEq] at hcompleted
        simp only [Completion.error] at herror
        subst herror
        simp only [host_fetched_cb, Outcome.finish, Option.some.injEq] at hcompleted
        exact hcompleted.symm
    · cases hvm : menu.host with
      | none => simp [assigned_refresh, hvm] at h2
      | some vm =>
        simp only [assigned_refresh, hvm, Option.map_some', Option.some.injEq,
          Prod.mk.injEq] at h2
        obtain ⟨_, hc⟩ := h2
        subst hc
        cases c <;> simp only [complete, reduceCtorEq] at hcompleted
        simp only [Completion.error] at herror
        subst herror
        simp only [cluster_fetched_cb, Outcome.finish, Option.some.injEq] at hcompleted
        exact hcompleted.symm
    · cases hvm : menu.cluster with
      | none => simp [assigned_refresh, hvm] at h2
      | some vm =>
        simp only [assigned_refresh, hvm, Option.map_some', Option.some.injEq,
          Prod.mk.injEq] at h2
        obtain ⟨_, hc⟩ := h2
        subst hc
        cases c <;> simp only [complete, reduceCtorEq] at hcompleted
        simp only [Completion.error] at herror
        subst herror
        simp only [data_center_fetched_cb, Outcome.finish, Option.some.injEq] at hcompleted
        exact hcompleted.symm
  refine ⟨h1, h2, ho, ?_⟩
  intro hpop
  subst ho
  refine ⟨hpop, ?_⟩
  intro task2 call2 hmem hst
  have hcached : stage ∈ cached_stages := by
    rcases hrefresh with hr | hr | hr <;> subst hr <;> decide
  have := fetch_iso_names_skips_populated K _ task2 call2 stage hmem hst hcached
  rw [hpop] at this
  cases this

/-- C25, witness: on the menu that holds the API and the vm, the sequencer assigns the host
of the vm and issues its refresh; the refresh fails, the host stays, and the next run from
START issues no refresh of the host. -/
theorem failed_refresh_keeps_field_witness :
    field_empty example_menu_vm OvirtForeignMenuState.STATE_HOST = true
    ∧ (ovirt_foreign_menu_next_async_step example_govirt example_menu_vm 7
        OvirtForeignMenuState.STATE_VM).menu.host = some example_host
    ∧ ∀ task2, ∀ call2 ∈ (ovirt_foreign_menu_fetch_iso_names_async example_govirt
          { example_menu_vm with host := some example_host } task2).calls,
        call2.stage ≠ some OvirtForeignMenuState.STATE_HOST :=
  have h := failed_refresh_keeps_field example_govirt example_menu_vm 7
    OvirtForeignMenuState.STATE_VM (Call.refresh_host 7 (some example_host))
    OvirtForeignMenuState.STATE_HOST
    (Completion.host_fetched (some { domain := 2, code := 5, message := ascii "timeout" }))
    { domain := 2, code := 5, message := ascii "timeout" }
    { menu := { example_menu_vm with host := some example_host }, calls := [],
      returns := [(7, TaskResult.error { domain := 2, code := 5, message := ascii "timeout" })] }
    (by decide) rfl (Or.inl rfl) rfl (by decide)
  ⟨h.1, by decide, (h.2.2.2 (by decide)).2⟩

/-- C26. An accepted eject request (the name is `NULL`) leaves nextIsoInfo empty while its
update is outstanding, so nextIsoInfo being set is not the same as a swap being outstanding:
on every menu with a cdrom and no swap outstanding, an eject request followed, before its
update completes, by any second request gives a run in which the second request passes the
two checks and issues a second update, the two updates being outstanding together. -/
theorem eject_leaves_next_iso_info_empty (K : Govirt) (image1 image2 : CString)
    (menu : OvirtForeignMenu) (cdrom : OvirtCdrom) (id1 name2 id2 : Option CString)
    (task1 task2 : GTask)
    (hcdrom : menu.cdrom = some cdrom) (hnext : menu.next_iso_info = none) :
    (ovirt_foreign_menu_set_current_iso_name_async image1 menu none id1 task1).calls
        = [Call.update_cdrom task1 (some { cdrom with file := id1 }) true]
    ∧ (ovirt_foreign_menu_set_current_iso_name_async image1 menu none id1 task1).menu.next_iso_info
        = none
    ∧ ∃ s, run K (Sys.init menu)
          [Event.set_current_iso_name image1 none id1 task1,
           Event.set_current_iso_name image2 name2 id2 task2] = some s
        ∧ s.pending = [Call.update_cdrom task1 (some { cdrom with file := id1 }) true,
            Call.update_cdrom task2 (some { cdrom with file := id2 }) true]
        ∧ s.issued = s.pending
        ∧ s.returns = []
        ∧ s.menu.next_iso_info = staged_iso_info image2 name2 id2 := by
  refine ⟨?_, ?_, ?_⟩
  · simp [ovirt_foreign_menu_set_current_iso_name_async, hcdrom, hnext, set_cdrom_file,
      Outcome.issue]
  · simp [ovirt_foreign_menu_set_current_iso_name_async, hcdrom, hnext, set_cdrom_file,
      Outcome.issue]
  · by_cases hn : name2 = none
    · simp [run, step, ovirt_foreign_menu_set_current_iso_name_async, hcdrom, hnext, hn,
        set_cdrom_file, Outcome.issue, Sys.after, Sys.init, List.diff, staged_iso_info]
    · simp [run, step, ovirt_foreign_menu_set_current_iso_name_async, hcdrom, hnext, hn,
        set_cdrom_file, Outcome.issue, Sys.after, Sys.init, List.diff, staged_iso_info]

/-- C26, witness: with `old.iso` inserted, an eject followed at once by a request for
`new.iso` leaves two updates outstanding. -/
theorem eject_leaves_next_iso_info_empty_witness :
    ∃ s, run example_govirt (Sys.init example_menu_mounted)
        [Event.set_current_iso_name (pointer_image 0x55d0c8a412a0) none none 1,
         Event.set_current_iso_name (pointer_image 0x55d0c8a416e0) (some (ascii "new.iso"))
           (some (ascii "id-2")) 2] = some s
      ∧ s.pending = [Call.update_cdrom 1 (some { guid := some (ascii "cdrom-1"), file := none })
            true,
          Call.update_cdrom 2
            (some { guid := some (ascii "cdrom-1"), file := some (ascii "id-2") }) true]
      ∧ s.issued = s.pending
      ∧ s.returns = []
      ∧ s.menu.next_iso_info
          = staged_iso_info (pointer_image 0x55d0c8a416e0) (some (ascii "new.iso"))
              (some (ascii "id-2")) :=
  (eject_leaves_next_iso_info_empty example_govirt (pointer_image 0x55d0c8a412a0)
    (pointer_image 0x55d0c8a416e0) example_menu_mounted
    { guid := some (ascii "cdrom-1"), file := some (ascii "id-1") } none
    (some (ascii "new.iso")) (some (ascii "id-2")) 1 2 rfl rfl).2.2

/-- C27, the code at an input where it departs from the claim. The entries `b.iso`, `a.iso`,
received in this order on a menu whose list is empty, both pass the filter; the list is
replaced, and the display names of isoNames after the call are `b.iso`, `a.iso`, in the order
of the bytes of the pointers of the arrays, where the sorted sequence of the display names of
the surviving entries is `a.iso`, `b.iso`. -/
theorem set_files_names_unsorted_example :
    (ovirt_foreign_menu_set_files example_govirt (example_heap 0x55d0c8a412a0)
        example_menu_full
        [example_file "b.iso" "id-b", example_file "a.iso" "id-a"]).iso_names.map GStrv.name
      = [some (ascii "b.iso"), some (ascii "a.iso")]
    ∧ sorted_display_names example_govirt
        [example_file "b.iso" "id-b", example_file "a.iso" "id-a"]
      = [some (ascii "a.iso"), some (ascii "b.iso")] :=
  ⟨by decide, by decide⟩

/-- C28. In every run, whatever its events, made from a menu on which nothing is
outstanding: whenever the refresh of the cdrom, the call of the stage CDROM_FILE, is
outstanding, the file collection and the cdrom of the menu are set, so that the successful
completion of the refresh, which dispatches the stage ISOS, issues the fetch of the ISO list:
the branch of `ovirt_foreign_menu_fetch_iso_list_async` that returns without issuing a fetch
and without completing the task is not taken. The runs of the pipeline started from START are
such runs. -/
theorem iso_list_fetch_always_issued (K : Govirt) (menu : OvirtForeignMenu)
    (events : List Event) (s : Sys) (task : GTask) (cdrom : Option OvirtCdrom)
    (hrun : run K (Sys.init menu) events = some s)
    (hpending : Call.refresh_cdrom task cdrom ∈ s.pending) :
    s.menu.files ≠ none
    ∧ s.menu.cdrom ≠ none
    ∧ (∀ file,
        complete K s.menu (Call.refresh_cdrom task cdrom)
            (Completion.cdrom_file_refreshed file none)
          = some (ovirt_foreign_menu_next_async_step K (set_cdrom_file s.menu file) task
              OvirtForeignMenuState.STATE_CDROM_FILE)
        ∧ ovirt_foreign_menu_next_async_step K (set_cdrom_file s.menu file) task
              OvirtForeignMenuState.STATE_CDROM_FILE
            = ovirt_foreign_menu_fetch_iso_list_async (set_cdrom_file s.menu file) task
        ∧ ovirt_foreign_menu_fetch_iso_list_async (set_cdrom_file s.menu file) task
            = { menu := set_cdrom_file s.menu file,
                calls := [Call.fetch_iso_list task s.menu.files], returns := [] }) := by
  have hinv : late_inv s := run_late K events _ s (by intro call hc; cases hc) hrun
  obtain ⟨hf, hcd⟩ := hinv _ hpending OvirtForeignMenuState.STATE_CDROM_FILE rfl
  have hf := hf (by decide)
  have hcd := hcd (by decide)
  refine ⟨hf, hcd, ?_⟩
  intro file
  obtain ⟨x, hx⟩ := Option.ne_none_iff_exists'.mp hcd
  refine ⟨?_, rfl, ?_⟩
  · simp [complete, cdrom_file_refreshed_cb, set_cdrom_file, hx]
  · simp [ovirt_foreign_menu_fetch_iso_list_async, set_cdrom_file, hf, Outcome.issue]

/-- C28, witness: the run from START on the full cache of the examples has the refresh of
the cdrom outstanding; its completion, reporting `id-a` as the inserted file, issues the fetch
of the ISO list on the file collection of the menu. -/
theorem iso_list_fetch_always_issued_witness :
    ovirt_foreign_menu_fetch_iso_list_async
        (set_cdrom_file example_menu_full (some (ascii "id-a"))) 7
      = { menu := set_cdrom_file example_menu_full (some (ascii "id-a")),
          calls := [Call.fetch_iso_list 7 example_menu_full.files], returns := [] } :=
  ((iso_list_fetch_always_issued example_govirt example_menu_full
    [Event.fetch_iso_names 7]
    { menu := example_menu_full, pending := [Call.refresh_cdrom 7 example_menu_full.cdrom],
      issued := [Call.refresh_cdrom 7 example_menu_full.cdrom], returns := [] }
    7 example_menu_full.cdrom (by decide) (by decide)).2.2 (some (ascii "id-a"))).2.2

/-- C29. Every accepted swap request, whether it inserts an image or ejects, sets the
inserted-file attribute of the cdrom to the identifier supplied and issues exactly one call,
the update of the cdrom, made on the cdrom with the attribute so set; the flag passed to the
update is TRUE in every case, the eject included. No task is completed by the request. -/
theorem swap_issues_update (image : CString) (menu : OvirtForeignMenu) (cdrom : OvirtCdrom)
    (name id : Option CString) (task : GTask)
    (hcdrom : menu.cdrom = some cdrom) (hnext : menu.next_iso_info = none) :
    ovirt_foreign_menu_set_current_iso_name_async image menu name id task
      = { menu := { menu with cdrom := some { cdrom with file := id },
                              next_iso_info := staged_iso_info image name id },
          calls := [Call.update_cdrom task (some { cdrom with file := id }) true],
          returns := [] } := by
  by_cases hn : name = none
  · simp [ovirt_foreign_menu_set_current_iso_name_async, hcdrom, hnext, hn, set_cdrom_file,
      Outcome.issue, staged_iso_info]
  · simp [ovirt_foreign_menu_set_current_iso_name_async, hcdrom, hnext, hn, set_cdrom_file,
      Outcome.issue, staged_iso_info]

/-- C29, witness: an eject made with `old.iso` inserted. -/
theorem swap_issues_update_witness :
    ovirt_foreign_menu_set_current_iso_name_async (pointer_image 0x55d0c8a412a0)
        example_menu_mounted none none 7
      = { menu := { example_menu_mounted with
                    cdrom := some { guid := some (ascii "cdrom-1"), file := none },
                    next_iso_info := staged_iso_info (pointer_image 0x55d0c8a412a0) none none },
          calls := [Call.update_cdrom 7 (some { guid := some (ascii "cdrom-1"), file := none })
            true],
          returns := [] } :=
  swap_issues_update (pointer_image 0x55d0c8a412a0) example_menu_mounted
    { guid := some (ascii "cdrom-1"), file := some (ascii "id-1") } none none 7 rfl rfl

/-- C30. For every cache in which exactly k of the seven fields api, vm, host, cluster,
data_center, files and cdrom are empty, and every remote service with which every call can
succeed and every selection finds a result (`cooperative`): the run started from START in
which the remote service answers every call ends, after k + 2 answers, with nothing
outstanding; it has issued exactly k + 2 calls, those of the stages whose field was empty, in
the order of the pipeline, then the refresh of CDROM_FILE and the fetch of ISOS; no stage has
its call issued twice; and the task of the caller is completed exactly once, with the list of
the menu. More fuel changes nothing, and the run is a run of successful completions. -/
theorem cooperative_run_terminates (K : Govirt) (remote : Remote) (menu : OvirtForeignMenu)
    (task : GTask) (n : Nat) (hcooperative : cooperative K remote menu)
    (hfuel : empty_fields menu + 2 ≤ n) :
    ∃ s, drive K remote n
          ((Sys.init menu).after [] (ovirt_foreign_menu_fetch_iso_names_async K menu task))
        = some s
      ∧ s.pending = []
      ∧ s.issued.map Call.stage = (stages_to_run menu).map some
      ∧ s.issued.length = empty_fields menu + 2
      ∧ (s.issued.map Call.stage).Nodup
      ∧ s.returns = [(task, TaskResult.pointer s.menu.iso_names)]
      ∧ ∃ cs : List (Call × Completion),
          run K (Sys.init menu) (Event.fetch_iso_names task :: completions cs) = some s
          ∧ ∀ p ∈ cs, p.2.error = none := by
  obtain ⟨s, hd, hp, hi, hr⟩ := drive_from_API K remote task [] menu hcooperative
  have hs0 : (Sys.init menu).after [] (ovirt_foreign_menu_fetch_iso_names_async K menu task)
      = Sys.resumed [] (case_STATE_API menu task) := by
    simp [Sys.resumed, Sys.after, Sys.init, ovirt_foreign_menu_fetch_iso_names_async,
      ovirt_foreign_menu_next_async_step, OvirtForeignMenuState.toNat, List.diff]
  have hlen : (stages_to_run menu).length = empty_fields menu + 2 := by
    simp [stages_to_run, empty_fields]
  have hd1 := drive_mono_le K remote _ n _ s hd hp (by rw [hlen]; exact hfuel)
  have hi1 : s.issued.map Call.stage = (stages_to_run menu).map some := by
    simpa using hi
  refine ⟨s, by rw [hs0]; exact hd1, hp, hi1, ?_, ?_, hr, ?_⟩
  · have h := congrArg List.length hi1
    simp only [List.length_map] at h
    rw [h, hlen]
  · rw [hi1]
    exact stages_to_run_nodup menu
  · obtain ⟨cs, hrun, herr⟩ := drive_run K remote n _ s hd1
    refine ⟨cs, ?_, herr⟩
    show run K ((Sys.init menu).after []
      (ovirt_foreign_menu_fetch_iso_names_async K menu task)) (completions cs) = some s
    rw [hs0]
    exact hrun

/-- C30, witness: from the empty cache of the examples, where the seven fields are empty, the
run with the remote service of the examples issues nine calls and completes the task once. -/
theorem cooperative_run_terminates_witness :
    ∃ s, drive example_govirt example_remote 9
          ((Sys.init example_menu_empty).after []
            (ovirt_foreign_menu_fetch_iso_names_async example_govirt example_menu_empty 7))
        = some s
      ∧ s.pending = []
      ∧ s.issued.map Call.stage = (stages_to_run example_menu_empty).map some
      ∧ s.issued.length = empty_fields example_menu_empty + 2
      ∧ (s.issued.map Call.stage).Nodup
      ∧ s.returns = [(7, TaskResult.pointer s.menu.iso_names)]
      ∧ ∃ cs : List (Call × Completion),
          run example_govirt (Sys.init example_menu_empty)
            (Event.fetch_iso_names 7 :: completions cs) = some s
          ∧ ∀ p ∈ cs, p.2.error = none :=
  cooperative_run_terminates example_govirt example_remote example_menu_empty 7 9
    ⟨by decide, by decide, by decide, by decide, by decide, by decide, by decide⟩ (by decide)
